import Mathlib

/-!
# AsyncRTOS JSON-RPC: client registry, server dispatcher and peer

A shallow embedding of `src/aos_jrpc_client.c`, of the request dispatch, the handler
registry and the int32 parameter getter of `src/aos_jrpc_server.c`, of
`src/aos_jrpc_peer.c` and of `src/aos_jrpc_message.c`, together with theorems about
them.

Modelling conventions

* A `cJSON *` is an `Option cJSON` (`none` is `NULL`); a document tree is a value of
  the inductive type `cJSON`.  Numbers carry their `valuedouble` as a rational: every
  finite double is a rational, and all values compared below are exactly representable.
* The linked list `client->requests` is a `List` of entries in link order.
* A completion handle (`aos_future_t *`) is a natural number; `aos_resolve` and the
  sink `on_output` are observable effects, recorded as a list of `Event`s.
* Everything the environment decides (values of `esp_random`, success of allocations,
  the sink's return value, the timer services) is an explicit argument.
* Loops that the C code does not bound take a `fuel` argument; `none` means that the
  fuel ran out before the function returned.
* A server handler is a function pointer, identified by a number.  The single-request
  path is given in two phases (`_aos_jrpc_server_request_handle`, then
  `_aos_jrpc_server_request_handle_cb` when the handler resolves its future); the
  batch paths and the entry point are given for handlers that complete inside their
  invocation, whose behaviour is a function from handler numbers to `handler_fn`.
* A `uint32_t` counter is a natural number reduced modulo 2^32 by every update.
-/

namespace AosJrpc

/-! ## cJSON -/

/-- A cJSON document tree. -/
inductive cJSON where
  | null
  | bool (b : Bool)
  | number (valuedouble : ℚ)
  | string (valuestring : String)
  | array (items : List cJSON)
  | object (members : List (String × cJSON))

/-- First member of a member list whose key is `name` (comparison by `strcmp`). -/
def cJSON.lookup (name : String) : List (String × cJSON) → Option cJSON
  | [] => none
  | (k, v) :: rest => if k = name then some v else cJSON.lookup name rest

/-- Model of `cJSON_GetObjectItemCaseSensitive`: `NULL` for a `NULL` object, for a value without
named children, and when no child is called `name`; otherwise the first such child. -/
def cJSON_GetObjectItemCaseSensitive (object : Option cJSON) (name : String) :
    Option cJSON :=
  match object with
  | some (cJSON.object members) => cJSON.lookup name members
  | _ => none

/-- Model of `cJSON_IsString` (false on `NULL`). -/
def cJSON_IsString : Option cJSON → Bool
  | some (cJSON.string _) => true
  | _ => false

/-- Model of `cJSON_IsNumber` (false on `NULL`). -/
def cJSON_IsNumber : Option cJSON → Bool
  | some (cJSON.number _) => true
  | _ => false

/-- The field `item->valuestring`; only read after `cJSON_IsString` succeeded. -/
def valuestring : Option cJSON → String
  | some (cJSON.string s) => s
  | _ => ""

/-- The field `item->valuedouble`; only read after `cJSON_IsNumber` succeeded. -/
def valuedouble : Option cJSON → ℚ
  | some (cJSON.number v) => v
  | _ => 0

/-- Model of `cJSON_Duplicate(item, true)`: a deep copy, `NULL` for `NULL` and on allocation
failure (`ok = false`). -/
def cJSON_Duplicate (ok : Bool) (item : Option cJSON) : Option cJSON :=
  if ok then item else none

/-- Model of `cJSON_CreateNumber` applied to an `unsigned int`. -/
def cJSON_CreateNumber (num : Nat) : cJSON := cJSON.number (num : ℚ)

/-- The constant `UINT32_MAX`. -/
def UINT32_MAX : Nat := 4294967295

/-- The constant `INT64_MAX` after the conversion to `double` that the comparison with a
`valuedouble` performs: 2^63 (the nearest double to 2^63 - 1). -/
def INT64_MAX_double : ℚ := 9223372036854775808

/-- The constant `INT64_MIN` as a `double` (exact). -/
def INT64_MIN_double : ℚ := -9223372036854775808

/-! ## Message codec (`aos_jrpc_message.c`), allocation succeeding -/

/-- The optional trailing `params` member. -/
def params_member : Option cJSON → List (String × cJSON)
  | some p => [("params", p)]
  | none => []

/-- Model of `aos_jrpc_message_request`: `NULL` when `id` is `NULL` (its duplicate is `NULL`),
otherwise the object with members `jsonrpc`, `method`, `id` and, when given, `params`. -/
def aos_jrpc_message_request (id : Option cJSON) (method : String)
    (params : Option cJSON) : Option cJSON :=
  match id with
  | none => none
  | some i =>
    some (cJSON.object
      ([("jsonrpc", cJSON.string "2.0"), ("method", cJSON.string method), ("id", i)]
        ++ params_member params))

/-- Model of `aos_jrpc_message_notification`: the object with members `jsonrpc`, `method` and,
when given, `params`. -/
def aos_jrpc_message_notification (method : String) (params : Option cJSON) :
    Option cJSON :=
  some (cJSON.object
    ([("jsonrpc", cJSON.string "2.0"), ("method", cJSON.string method)]
      ++ params_member params))

/-! ## Client data model -/

/-- The enumeration `aos_jrpc_client_err_t`. -/
inductive aos_jrpc_client_err_t where
  | AOS_JRPC_CLIENT_ERR_OK
  | AOS_JRPC_CLIENT_ERR_CLIENTERROR
  | AOS_JRPC_CLIENT_ERR_SERVERERROR
  | AOS_JRPC_CLIENT_ERR_TIMEOUT
  | AOS_JRPC_CLIENT_ERR_TOOMANYREQUESTS
  deriving DecidableEq, Repr

open aos_jrpc_client_err_t

/-- The structure `aos_jrpc_client_request_entry_t` (the `next` link is the list structure).
`future = none` is the `NULL` that marks an entry whose completion has been fulfilled
by a response (state Completed); `some f` is state Armed.  `freed` is a ghost field:
the node's storage has been handed to `free` while the node is still linked. -/
structure aos_jrpc_client_request_entry_t where
  future : Option Nat
  id : Nat
  timer : Nat
  freed : Bool := false
  deriving DecidableEq, Repr

/-- The structure `aos_jrpc_client_config_t` without the sink, whose return value is supplied per
call. -/
structure aos_jrpc_client_config_t where
  maxrequests : Nat
  maxinputlen : Nat
  deriving DecidableEq, Repr

/-- The structure `_aos_jrpc_client_t` (the semaphore is not modelled: calls are atomic). -/
structure aos_jrpc_client_t where
  requests : List aos_jrpc_client_request_entry_t
  config : aos_jrpc_client_config_t
  deriving DecidableEq, Repr

/-- Observable effects of the client. -/
inductive Event where
  /-- A call `aos_resolve(future)` with the given `out_err` and `out_result`. -/
  | resolve (future : Nat) (out_err : aos_jrpc_client_err_t) (out_result : Option cJSON)
  /-- A call `on_output(data)`, `data` being the serialisation of the given message. -/
  | output (msg : cJSON)

/-- The completion handles fulfilled by a trace, in order. -/
def resolved : List Event → List Nat
  | [] => []
  | Event.resolve f _ _ :: rest => f :: resolved rest
  | Event.output _ :: rest => resolved rest

/-- The messages handed to the sink by a trace, in order. -/
def outputs : List Event → List cJSON
  | [] => []
  | Event.resolve _ _ _ :: rest => outputs rest
  | Event.output m :: rest => m :: outputs rest

/-- Model of `aos_jrpc_client_alloc`: `NULL` without a sink or when an allocation fails;
otherwise an empty registry whose zero limits are replaced by the build defaults. -/
def aos_jrpc_client_alloc (CONFIG_MAXREQUESTS CONFIG_MAXINPUTLEN : Nat)
    (has_on_output alloc_ok : Bool) (config : aos_jrpc_client_config_t) :
    Option aos_jrpc_client_t :=
  if !has_on_output then none
  else if !alloc_ok then none
  else some
    { requests := []
      config :=
        { maxrequests :=
            if config.maxrequests ≠ 0 then config.maxrequests else CONFIG_MAXREQUESTS
          maxinputlen :=
            if config.maxinputlen ≠ 0 then config.maxinputlen else CONFIG_MAXINPUTLEN } }

/-! ## Reading a response -/

/-- Model of `_aos_jrpc_client_isvalid`, the response validator. -/
def _aos_jrpc_client_isvalid (response : cJSON) : Bool :=
  let jrpc := cJSON_GetObjectItemCaseSensitive (some response) "jsonrpc"
  let id := cJSON_GetObjectItemCaseSensitive (some response) "id"
  let error := cJSON_GetObjectItemCaseSensitive (some response) "error"
  let error_code := cJSON_GetObjectItemCaseSensitive error "code"
  let error_msg := cJSON_GetObjectItemCaseSensitive error "message"
  let result := cJSON_GetObjectItemCaseSensitive (some response) "result"
  if (!cJSON_IsString jrpc || valuestring jrpc != "2.0") ||
      !(cJSON_IsNumber id && decide (0 ≤ valuedouble id) &&
        decide (valuedouble id ≤ (UINT32_MAX : ℚ))) ||
      (result.isNone == error.isNone) then
    false
  else if error.isSome &&
      !(cJSON_IsNumber error_code && decide (valuedouble error_code ≤ INT64_MAX_double) &&
        decide (INT64_MIN_double ≤ valuedouble error_code) && cJSON_IsString error_msg) then
    false
  else
    true

/-- The `out_result` and `out_err` that `aos_jrpc_client_read_json` stores in the
matched future: the duplicate of `error` when present, else of `result`. -/
def read_outcome (dup_ok : Bool) (json : cJSON) :
    Option cJSON × aos_jrpc_client_err_t :=
  if (cJSON_GetObjectItemCaseSensitive (some json) "error").isSome then
    let out_result :=
      cJSON_Duplicate dup_ok (cJSON_GetObjectItemCaseSensitive (some json) "error")
    (out_result,
      if out_result.isSome then AOS_JRPC_CLIENT_ERR_SERVERERROR
      else AOS_JRPC_CLIENT_ERR_CLIENTERROR)
  else
    let out_result :=
      cJSON_Duplicate dup_ok (cJSON_GetObjectItemCaseSensitive (some json) "result")
    (out_result,
      if out_result.isSome then AOS_JRPC_CLIENT_ERR_OK
      else AOS_JRPC_CLIENT_ERR_CLIENTERROR)

/-- The `for` loop of `aos_jrpc_client_read_json` from the node `entry` on: `none`
when it runs off the list; otherwise the nodes after the update `entry->future = NULL`
of the first node with `id->valuedouble == entry->id && entry->future`, and the
`aos_resolve` of that node's future. -/
def read_loop (dup_ok : Bool) (json : cJSON) (id : Option cJSON) :
    List aos_jrpc_client_request_entry_t →
      Option (List aos_jrpc_client_request_entry_t × Event)
  | [] => none
  | entry :: next =>
    match entry.future with
    | some future =>
      if valuedouble id = (entry.id : ℚ) then
        some ({ entry with future := none } :: next,
          Event.resolve future (read_outcome dup_ok json).2 (read_outcome dup_ok json).1)
      else
        (read_loop dup_ok json id next).map fun r => (entry :: r.1, r.2)
    | none => (read_loop dup_ok json id next).map fun r => (entry :: r.1, r.2)

/-- Model of `aos_jrpc_client_read_json`: return value, registry afterwards, effects.
`dup_ok` tells whether `cJSON_Duplicate` can allocate. -/
def aos_jrpc_client_read_json (dup_ok : Bool) (client : aos_jrpc_client_t)
    (json : cJSON) : Nat × aos_jrpc_client_t × List Event :=
  if !_aos_jrpc_client_isvalid json then (3, client, [])
  else
    let id := cJSON_GetObjectItemCaseSensitive (some json) "id"
    match read_loop dup_ok json id client.requests with
    | some (requests, ev) => (0, { client with requests := requests }, [ev])
    | none => (4, client, [])

/-! ## Sending -/

/-- What the environment decides during one call of
`aos_jrpc_client_request_send_json`. -/
structure send_env where
  /-- The successive return values of `esp_random()`. -/
  esp_random : List Nat
  /-- All of `new_entry`, `id`, `msg`, `data`, `timer_args` were allocated. -/
  alloc_ok : Bool
  /-- The handle stored by `esp_timer_create`, `none` when it does not return `ESP_OK`. -/
  esp_timer_create : Option Nat
  /-- The return value of the sink `client->config.on_output(data)`. -/
  on_output : Nat
  /-- Whether `esp_timer_start_once` returns `ESP_OK`. -/
  esp_timer_start_once : Bool

/-- The loop "Generate a non-conflicting ID" of `aos_jrpc_client_request_send_json`
from the node `entry` on, `id_num` being the current candidate and `rnd` the values
`esp_random()` has still to return.  On a collision the body draws a new candidate and
sets `entry = client->requests`; the loop's increment `entry = entry->next` then runs,
so the scan resumes at the second node.  `none`: `rnd` is exhausted. -/
def id_loop (requests : List aos_jrpc_client_request_entry_t) :
    List aos_jrpc_client_request_entry_t → Nat → List Nat → Option Nat
  | [], id_num, _ => some id_num
  | entry :: next, id_num, rnd =>
    if entry.id = id_num then
      match rnd with
      | [] => none
      | r :: rnd' => id_loop requests requests.tail (r % 4294967296) rnd'
    else id_loop requests next id_num rnd
termination_by entry _ rnd => (rnd.length, entry.length)

/-- The part of `aos_jrpc_client_request_send_json` after the id has been chosen:
"Allocate resources", "Append entry to linked list", "Send request" and the error
label. -/
def send_with_id (env : send_env) (client : aos_jrpc_client_t) (method : String)
    (params : Option cJSON) (future : Nat) (id_num : Nat) :
    aos_jrpc_client_t × List Event :=
  match env.alloc_ok, env.esp_timer_create with
  | true, some timer =>
    match aos_jrpc_message_request (some (cJSON_CreateNumber id_num)) method params with
    | some msg =>
      -- the entry is linked at the tail, then the sink and the timer are tried
      if env.on_output ≠ 0 || !env.esp_timer_start_once then
        -- error label: `free(new_entry)`, the node stays linked
        ({ client with
            requests := client.requests ++
              [{ future := some future, id := id_num, timer := timer, freed := true }] },
          [Event.output msg, Event.resolve future AOS_JRPC_CLIENT_ERR_CLIENTERROR none])
      else
        ({ client with
            requests := client.requests ++
              [{ future := some future, id := id_num, timer := timer }] },
          [Event.output msg])
    | none => (client, [Event.resolve future AOS_JRPC_CLIENT_ERR_CLIENTERROR none])
  | _, _ =>
    -- error label, nothing linked yet
    (client, [Event.resolve future AOS_JRPC_CLIENT_ERR_CLIENTERROR none])

/-- Model of `aos_jrpc_client_request_send_json`: registry afterwards and effects; `none` when
`env.esp_random` holds fewer values than the call draws. -/
def aos_jrpc_client_request_send_json (env : send_env) (client : aos_jrpc_client_t)
    (_timeout_ms : Nat) (method : String) (params : Option cJSON) (future : Nat) :
    Option (aos_jrpc_client_t × List Event) :=
  -- Check if we are exceeding limits
  if client.requests.length ≥ client.config.maxrequests then
    some (client, [Event.resolve future AOS_JRPC_CLIENT_ERR_TOOMANYREQUESTS none])
  else
    -- Generate a non-conflicting ID
    match env.esp_random with
    | [] => none
    | r :: rnd =>
      (id_loop client.requests client.requests (r % 4294967296) rnd).map
        (send_with_id env client method params future)

/-- Model of `aos_jrpc_client_notification_send_json`: return value and effects (the registry
is not touched).  `alloc_ok`: the envelope and its serialisation were allocated;
`on_output`: the sink's return value. -/
def aos_jrpc_client_notification_send_json (alloc_ok : Bool) (on_output : Nat)
    (method : String) (params : Option cJSON) : Nat × List Event :=
  let notification :=
    if alloc_ok then aos_jrpc_message_notification method params else none
  match notification with
  | none => (1, [])
  | some msg => (if on_output = 0 then 1 else 0, [Event.output msg])

/-- Model of `aos_jrpc_client_notification_send`, the text variant; `cJSON_Parse` is the JSON
parser (`cJSON_Parse(NULL)` is `NULL`). -/
def aos_jrpc_client_notification_send (cJSON_Parse : String → Option cJSON)
    (alloc_ok : Bool) (on_output : Nat) (method : String) (params : Option String) :
    Nat × List Event :=
  let json_params := params.bind cJSON_Parse
  let notification :=
    if alloc_ok then aos_jrpc_message_notification method json_params else none
  if !(params.isSome && json_params.isSome) then (1, [])
  else
    match notification with
    | none => (1, [])
    | some msg => (if on_output = 0 then 1 else 0, [Event.output msg])

/-! ## Timer expiry -/

/-- How a call that may hit `assert` ends. -/
inductive Outcome (α : Type) where
  | returned (a : α)
  | aborted

/-- Model of `_aos_jrpc_client_timeout_cb` for the timer arguments `{client, id}`.  The cursor
`entry` is initialised to `&client->requests` and no statement of the `while` body
moves it, so every iteration inspects the first node.  `none`: out of fuel;
`aborted`: the loop was left and `assert(NULL)` reached. -/
def _aos_jrpc_client_timeout_cb :
    Nat → aos_jrpc_client_t → Nat → Option (Outcome (aos_jrpc_client_t × List Event))
  | 0, _, _ => none
  | fuel + 1, client, id =>
    match client.requests with
    | [] => some Outcome.aborted
    | entry :: next_entry =>
      if entry.id = id then
        some (Outcome.returned ({ client with requests := next_entry },
          match entry.future with
          | some future => [Event.resolve future AOS_JRPC_CLIENT_ERR_TIMEOUT none]
          | none => []))
      else _aos_jrpc_client_timeout_cb fuel client id

/-! ## Sequences of registry events -/

/-- One registry event together with what the environment decides during it. -/
inductive Call where
  /-- A call of `aos_jrpc_client_request_send_json`. -/
  | send (env : send_env) (timeout_ms : Nat) (method : String) (params : Option cJSON)
      (future : Nat)
  /-- A call of `aos_jrpc_client_read_json`. -/
  | read (dup_ok : Bool) (json : cJSON)
  /-- The expiry of a timer whose arguments carry `id`. -/
  | timeout (fuel : Nat) (id : Nat)

/-- The registry after one event and the event's effects; `none` when the call does
not return (out of fuel or random values, or `assert` failed). -/
def step (client : aos_jrpc_client_t) : Call → Option (aos_jrpc_client_t × List Event)
  | Call.send env timeout_ms method params future =>
    aos_jrpc_client_request_send_json env client timeout_ms method params future
  | Call.read dup_ok json =>
    some ((aos_jrpc_client_read_json dup_ok client json).2.1,
      (aos_jrpc_client_read_json dup_ok client json).2.2)
  | Call.timeout fuel id =>
    match _aos_jrpc_client_timeout_cb fuel client id with
    | some (Outcome.returned r) => some r
    | _ => none

/-- The registry after a sequence of events and the concatenated effects. -/
def run (client : aos_jrpc_client_t) : List Call → Option (aos_jrpc_client_t × List Event)
  | [] => some (client, [])
  | call :: calls =>
    match step client call with
    | none => none
    | some (client', evs) =>
      match run client' calls with
      | none => none
      | some (client'', evs') => some (client'', evs ++ evs')

/-- The Armed entries of a list: those whose future is still set. -/
def armed (l : List aos_jrpc_client_request_entry_t) :
    List aos_jrpc_client_request_entry_t :=
  l.filter fun e => e.future.isSome

/-! ## Client teardown -/

/-- Model of `aos_jrpc_client_free`: the return value and what is left of the client
(`none` once the instance has been deleted). -/
def aos_jrpc_client_free (client : aos_jrpc_client_t) : Nat × Option aos_jrpc_client_t :=
  match client.requests with
  | _ :: _ => (1, some client)
  | [] => (0, none)

/-! ## More of cJSON and of the message codec -/

/-- Model of `cJSON_IsObject` (false on `NULL`). -/
def cJSON_IsObject : Option cJSON → Bool
  | some (cJSON.object _) => true
  | _ => false

/-- Model of `cJSON_IsArray` (false on `NULL`). -/
def cJSON_IsArray : Option cJSON → Bool
  | some (cJSON.array _) => true
  | _ => false

/-- Model of `cJSON_IsNull`: the item is the JSON value `null` (false on `NULL`). -/
def cJSON_IsNull : Option cJSON → Bool
  | some cJSON.null => true
  | _ => false

/-- The children of an item, in order: what `cJSON_GetArraySize`,
`cJSON_GetArrayItem` and `cJSON_DetachItemFromArray` walk. -/
def children : Option cJSON → List cJSON
  | some (cJSON.array items) => items
  | some (cJSON.object members) => members.map Prod.snd
  | _ => []

/-- Model of `cJSON_GetArraySize`. -/
def cJSON_GetArraySize (array : Option cJSON) : Nat := (children array).length

/-- Model of `aos_jrpc_message_error`: the object with members `jsonrpc`, `id` (the
JSON value `null` when `id` is `NULL`) and `error`, itself an object with members
`code` and `message`. -/
def aos_jrpc_message_error (id : Option cJSON) (code : Int) (msg : String) :
    Option cJSON :=
  some (cJSON.object
    [("jsonrpc", cJSON.string "2.0"),
     ("id", match id with
       | some i => i
       | none => cJSON.null),
     ("error", cJSON.object
       [("code", cJSON.number (code : ℚ)), ("message", cJSON.string msg)])])

/-- Model of `aos_jrpc_message_result`: `NULL` when `id` or `result` is `NULL` (its
duplicate is `NULL`), otherwise the object with members `jsonrpc`, `id`, `result`. -/
def aos_jrpc_message_result (id result : Option cJSON) : Option cJSON :=
  match id, result with
  | some i, some r =>
    some (cJSON.object [("jsonrpc", cJSON.string "2.0"), ("id", i), ("result", r)])
  | _, _ => none

/-- An allocating constructor under an allocator that may refuse: `v` when `ok`, else
`NULL`. -/
def alloc (ok : Bool) (v : Option cJSON) : Option cJSON :=
  if ok then v else none

/-! ## Server data model -/

/-- The structure `_aos_jrpc_server_handler_entry_t`; a handler is a function
pointer, identified by a number. -/
structure _aos_jrpc_server_handler_entry_t where
  method : String
  handler : Nat
  deriving DecidableEq, Repr

/-- The structure `aos_jrpc_server_config_t`. -/
structure aos_jrpc_server_config_t where
  maxrequests : Nat
  maxinputlen : Nat
  parallel : Bool
  deriving DecidableEq, Repr

/-- The structure `_aos_jrpc_server_t` (without the semaphore); `counter` is a
`uint32_t`. -/
structure aos_jrpc_server_t where
  config : aos_jrpc_server_config_t
  handlers : List _aos_jrpc_server_handler_entry_t
  counter : Nat
  deriving DecidableEq, Repr

/-- The statement `server->counter++` on a `uint32_t`. -/
def counter_inc (server : aos_jrpc_server_t) : aos_jrpc_server_t :=
  { server with counter := (server.counter + 1) % 4294967296 }

/-- The statement `server->counter--` on a `uint32_t`. -/
def counter_dec (server : aos_jrpc_server_t) : aos_jrpc_server_t :=
  { server with counter := (server.counter + 4294967295) % 4294967296 }

/-- What a handler does with its parameters when it completes inside its invocation:
the `out_result` and `out_err` it resolves its future with. -/
abbrev handler_fn := Option cJSON → Option cJSON × Nat

/-- The constant `AOS_JRPC_SERVER_ERR_OK`. -/
def AOS_JRPC_SERVER_ERR_OK : Nat := 0

/-- The constant `AOS_JRPC_SERVER_ERR_INVALIDPARAMS`. -/
def AOS_JRPC_SERVER_ERR_INVALIDPARAMS : Nat := 1

/-- Model of `_aos_jrpc_server_handler_get`: the handler of the first entry whose
method is `method` (`strcmp`), `NULL` when there is none. -/
def _aos_jrpc_server_handler_get (server : aos_jrpc_server_t) (method : String) :
    Option Nat :=
  match server.handlers.find? fun entry => entry.method = method with
  | some entry => some entry.handler
  | none => none

/-- Model of `_aos_jrpc_server_isvalid`, the request validator. -/
def _aos_jrpc_server_isvalid (request : Option cJSON) : Bool :=
  let jrpc := cJSON_GetObjectItemCaseSensitive request "jsonrpc"
  let id := cJSON_GetObjectItemCaseSensitive request "id"
  let method := cJSON_GetObjectItemCaseSensitive request "method"
  if (!cJSON_IsString jrpc || valuestring jrpc != "2.0") ||
      (id.isSome && !(cJSON_IsNumber id || cJSON_IsString id || cJSON_IsNull id)) ||
      !cJSON_IsString method then
    false
  else
    true

/-! ## The single-request path -/

/-- What the allocator decides during one run of the single-request path. -/
structure request_env where
  /-- The envelope built by `aos_jrpc_message_error` is allocated. -/
  error_ok : Bool
  /-- The envelope built by `aos_jrpc_message_result` is allocated. -/
  result_ok : Bool
  /-- The duplicate of the request's `id` is allocated. -/
  dup_ok : Bool
  /-- The context `ctx` is allocated. -/
  ctx_ok : Bool
  /-- The future handed to the handler is allocated. -/
  future_ok : Bool

/-- The structure `_aos_jrpc_server_request_handle_ctx_t` (the pointers to the server
and to the caller's future are implicit). -/
structure _aos_jrpc_server_request_handle_ctx_t where
  id : Option cJSON

/-- How `_aos_jrpc_server_request_handle` ends: the caller's future is resolved with
`out_response` and `out_err`, or the handler has been invoked with `params` and the
caller's future stays pending until the handler's future is resolved. -/
inductive request_handle_result where
  | resolved (server : aos_jrpc_server_t) (out_response : Option cJSON) (out_err : Nat)
  | launched (server : aos_jrpc_server_t) (handler : Nat) (params : Option cJSON)
      (ctx : _aos_jrpc_server_request_handle_ctx_t)

/-- The error label of `_aos_jrpc_server_request_handle`, reached with
`args->out_response` set to `out_response`. -/
def request_handle_err (server : aos_jrpc_server_t) (out_response : Option cJSON) :
    request_handle_result :=
  request_handle_result.resolved (counter_dec server) out_response
    (if out_response.isSome then 0 else 1)

/-- Model of `_aos_jrpc_server_request_handle`.  The caller's future starts with
`out_response = NULL` and `out_err = 0`. -/
def _aos_jrpc_server_request_handle (env : request_env) (server : aos_jrpc_server_t)
    (request : Option cJSON) : request_handle_result :=
  let server := counter_inc server
  -- Too many requests?
  if server.counter ≥ server.config.maxrequests then
    request_handle_err server
      (alloc env.error_ok (aos_jrpc_message_error none (-32001) "Server error"))
  -- Is valid?
  else if !_aos_jrpc_server_isvalid request then
    request_handle_err server
      (alloc env.error_ok (aos_jrpc_message_error none (-32600) "Invalid Request"))
  else
    -- Get ID if any (the duplicate is shallow; a valid id has no children)
    let id := cJSON_Duplicate env.dup_ok (cJSON_GetObjectItemCaseSensitive request "id")
    if (cJSON_GetObjectItemCaseSensitive request "id").isSome && id.isNone then
      request_handle_err server
        (alloc env.error_ok (aos_jrpc_message_error id (-32603) "Internal error"))
    else
      -- Fetch handler
      match _aos_jrpc_server_handler_get server
          (valuestring (cJSON_GetObjectItemCaseSensitive request "method")) with
      | none =>
        request_handle_err server
          (alloc env.error_ok (aos_jrpc_message_error id (-32601) "Method not found"))
      | some handler =>
        -- Alloc context, alloc future
        if !env.ctx_ok then
          request_handle_err server
            (alloc env.error_ok (aos_jrpc_message_error id (-32603) "Internal error"))
        else if !env.future_ok then
          request_handle_err server
            (alloc env.error_ok (aos_jrpc_message_error id (-32603) "Internal error"))
        else
          -- Launch handler
          request_handle_result.launched server handler
            (cJSON_GetObjectItemCaseSensitive request "params") { id := id }

/-- The `out_response` that `_aos_jrpc_server_request_handle_cb` builds for a request
with an id (the `switch` on the handler's `out_err`). -/
def request_handle_cb_response (env : request_env) (id : Option cJSON)
    (out_result : Option cJSON) (out_err : Nat) : Option cJSON :=
  match out_err with
  | 0 =>
    match alloc env.result_ok (aos_jrpc_message_result id out_result) with
    | some response => some response
    | none => alloc env.error_ok (aos_jrpc_message_error id (-32603) "Internal error")
  | 1 => alloc env.error_ok (aos_jrpc_message_error id (-32602) "Invalid params")
  | _ => alloc env.error_ok (aos_jrpc_message_error id (-32603) "Internal error")

/-- Model of `_aos_jrpc_server_request_handle_cb`, run when the handler resolves its
future with `out_result` and `out_err`: the server afterwards and the `out_response`
and `out_err` the caller's future is resolved with. -/
def _aos_jrpc_server_request_handle_cb (env : request_env) (server : aos_jrpc_server_t)
    (ctx : _aos_jrpc_server_request_handle_ctx_t) (out_result : Option cJSON)
    (out_err : Nat) : aos_jrpc_server_t × Option cJSON × Nat :=
  if out_err = 0 && ctx.id.isNone then
    -- All good, is it a notification?
    (counter_dec server, none, 0)
  else
    let out_response := request_handle_cb_response env ctx.id out_result out_err
    (counter_dec server, out_response, if out_response.isSome then 0 else 1)

/-- How a call ends when every handler completes inside its invocation: the server
afterwards, the `out_response` and `out_err` the caller's future is resolved with, and
the handlers invoked, in order, each with its parameters. -/
structure call_result where
  server : aos_jrpc_server_t
  out_response : Option cJSON
  out_err : Nat
  invoked : List (Nat × Option cJSON)

/-- The single-request path with handlers that complete inside their invocation:
`_aos_jrpc_server_request_handle`, then, if a handler was launched, the handler and
`_aos_jrpc_server_request_handle_cb`. -/
def request_handle_sync (handlers : Nat → handler_fn) (env : request_env)
    (server : aos_jrpc_server_t) (request : Option cJSON) : call_result :=
  match _aos_jrpc_server_request_handle env server request with
  | request_handle_result.resolved server out_response out_err =>
    { server := server, out_response := out_response, out_err := out_err, invoked := [] }
  | request_handle_result.launched server handler params ctx =>
    let r := _aos_jrpc_server_request_handle_cb env server ctx
      (handlers handler params).1 (handlers handler params).2
    { server := r.1, out_response := r.2.1, out_err := r.2.2,
      invoked := [(handler, params)] }

/-! ## Batches and the entry point, handlers completing inside their invocation -/

/-- What the allocator decides during one call of `aos_jrpc_server_call_json`. -/
structure server_env where
  /-- An error envelope built by the entry point or by a batch function is
  allocated. -/
  error_ok : Bool
  /-- The batch context is allocated (with the duplicate of the request in the
  sequential variant, with the semaphore in the parallel one). -/
  ctx_ok : Bool
  /-- The array `parallel_futures` is allocated. -/
  futures_ok : Bool
  /-- The future of the sub-request at the given position is allocated. -/
  future_ok : Nat → Bool
  /-- The batch response array is allocated by `cJSON_CreateArray`. -/
  array_ok : Bool
  /-- The allocator during the single-request path of the sub-request at the given
  position (position 0 for a single request). -/
  request : Nat → request_env

/-- A call that ends at an error label with `args->out_response` set to
`out_response`: `out_err` becomes 1 when there is no response. -/
def resolve_with (server : aos_jrpc_server_t) (out_response : Option cJSON)
    (invoked : List (Nat × Option cJSON)) : call_result :=
  { server := server, out_response := out_response,
    out_err := if out_response.isSome then 0 else 1, invoked := invoked }

/-- The step "append response only if not a notification" of both batch callbacks.
`acc` holds the items of the batch response array `call_args->out_response` (`none`
while it is `NULL`).  Result `none`: `cJSON_CreateArray` failed. -/
def batch_append (array_ok : Bool) (acc : Option (List cJSON))
    (out_response : Option cJSON) : Option (Option (List cJSON)) :=
  match out_response with
  | none => some acc
  | some response =>
    match acc with
    | some items => some (some (items ++ [response]))
    | none => if array_ok then some (some [response]) else none

/-- Model of `_aos_jrpc_server_batch_handle_sequential_cb`, run when the sub-request
at position `i` has resolved its future as `sub`.  `counter` is `ctx->counter` after
the decrement, `request` the items still in `ctx->request`, `acc` the items of
`call_args->out_response`, `invoked` the handlers invoked before this sub-request. -/
def _aos_jrpc_server_batch_handle_sequential_cb (handlers : Nat → handler_fn)
    (env : server_env) :
    Nat → Nat → List cJSON → Option (List cJSON) → List (Nat × Option cJSON) →
      call_result → call_result
  | counter, i, request, acc, invoked, sub =>
    -- Check if response processing was alright
    if sub.out_err ≠ 0 then
      resolve_with sub.server
        (alloc env.error_ok (aos_jrpc_message_error none (-32603) "Internal error"))
        (invoked ++ sub.invoked)
    else
      -- Append response only if not a notification
      match batch_append env.array_ok acc sub.out_response with
      | none =>
        resolve_with sub.server
          (alloc env.error_ok (aos_jrpc_message_error none (-32603) "Internal error"))
          (invoked ++ sub.invoked)
      | some acc =>
        -- Did we process all requests?
        match counter with
        | 0 =>
          { server := sub.server, out_response := acc.map cJSON.array, out_err := 0,
            invoked := invoked ++ sub.invoked }
        | counter + 1 =>
          -- Some requests left, move on to the next one
          if !env.future_ok (i + 1) then
            resolve_with sub.server
              (alloc env.error_ok (aos_jrpc_message_error none (-32603) "Internal error"))
              (invoked ++ sub.invoked)
          else
            _aos_jrpc_server_batch_handle_sequential_cb handlers env counter (i + 1)
              request.tail acc (invoked ++ sub.invoked)
              (request_handle_sync handlers (env.request (i + 1)) sub.server
                request.head?)

/-- Model of `_aos_jrpc_server_batch_handle_sequential`. -/
def _aos_jrpc_server_batch_handle_sequential (handlers : Nat → handler_fn)
    (env : server_env) (server : aos_jrpc_server_t) (request : Option cJSON) :
    call_result :=
  -- Check for invalid arrays
  if cJSON_GetArraySize request = 0 then
    resolve_with server
      (alloc env.error_ok (aos_jrpc_message_error none (-32600) "Invalid Request")) []
  -- Allocate context
  else if !env.ctx_ok then
    resolve_with server none []
  -- Start first processing
  else if !env.future_ok 0 then
    resolve_with server
      (alloc env.error_ok (aos_jrpc_message_error none (-32603) "Internal error")) []
  else
    _aos_jrpc_server_batch_handle_sequential_cb handlers env
      (cJSON_GetArraySize request - 1) 0 (children request).tail none []
      (request_handle_sync handlers (env.request 0) server (children request).head?)

/-- The structure `_aos_jrpc_server_batch_handle_parallel_ctx_t`, together with the
state of the caller's future: `acc` holds the items of `call_args->out_response`,
and `resolution` is set once `aos_resolve(call_future)` has run. -/
structure _aos_jrpc_server_batch_handle_parallel_ctx_t where
  counter : Nat
  fail : Bool
  acc : Option (List cJSON)
  resolution : Option (Option cJSON × Nat)

/-- Model of `_aos_jrpc_server_batch_handle_parallel_cb`, run when a sub-request
resolves its future with `out_response` and `out_err`.  The counter starts at the
number of sub-requests and the callback runs once for each of them, so the
decrement never goes below zero. -/
def _aos_jrpc_server_batch_handle_parallel_cb (env : server_env)
    (ctx : _aos_jrpc_server_batch_handle_parallel_ctx_t) (out_response : Option cJSON)
    (out_err : Nat) : _aos_jrpc_server_batch_handle_parallel_ctx_t :=
  -- Decrease counter
  let counter := ctx.counter - 1
  -- Check if response processing was alright or if we failed already
  let ctx : _aos_jrpc_server_batch_handle_parallel_ctx_t :=
    if out_err ≠ 0 || ctx.fail then
      { ctx with counter := counter, fail := true }
    else
      -- If not a notification, add response to array
      match batch_append env.array_ok ctx.acc out_response with
      | none => { ctx with counter := counter, fail := true }
      | some acc => { ctx with counter := counter, acc := acc }
  -- Are we done?
  if ctx.counter = 0 then
    if ctx.fail then
      let response :=
        alloc env.error_ok (aos_jrpc_message_error none (-32603) "Internal error")
      { ctx with acc := none,
                 resolution := some (response, if response.isSome then 0 else 1) }
    else
      { ctx with resolution := some (ctx.acc.map cJSON.array, 0) }
  else ctx

/-- The loop "Launch futures" of `_aos_jrpc_server_batch_handle_parallel` from
position `i` on: each sub-request runs the single-request path, and the resolution
of its future runs the batch callback. -/
def parallel_launch (handlers : Nat → handler_fn) (env : server_env) :
    List cJSON → Nat → aos_jrpc_server_t → _aos_jrpc_server_batch_handle_parallel_ctx_t →
      List (Nat × Option cJSON) →
      aos_jrpc_server_t × _aos_jrpc_server_batch_handle_parallel_ctx_t ×
        List (Nat × Option cJSON)
  | [], _, server, ctx, invoked => (server, ctx, invoked)
  | item :: rest, i, server, ctx, invoked =>
    let sub := request_handle_sync handlers (env.request i) server (some item)
    parallel_launch handlers env rest (i + 1) sub.server
      (_aos_jrpc_server_batch_handle_parallel_cb env ctx sub.out_response sub.out_err)
      (invoked ++ sub.invoked)

/-- Model of `_aos_jrpc_server_batch_handle_parallel`; `none` when the call returns
without the caller's future having been resolved. -/
def _aos_jrpc_server_batch_handle_parallel (handlers : Nat → handler_fn)
    (env : server_env) (server : aos_jrpc_server_t) (request : Option cJSON) :
    Option call_result :=
  -- Check for invalid arrays
  if cJSON_GetArraySize request = 0 then
    some (resolve_with server
      (alloc env.error_ok (aos_jrpc_message_error none (-32600) "Invalid Request")) [])
  -- Allocate ctx, allocate all futures beforehand
  else if !env.ctx_ok || !env.futures_ok ||
      (List.range (cJSON_GetArraySize request)).any (fun i => !env.future_ok i) then
    some (resolve_with server
      (alloc env.error_ok (aos_jrpc_message_error none (-32603) "Internal error")) [])
  else
    -- Launch futures
    let r := parallel_launch handlers env (children request) 0 server
      { counter := cJSON_GetArraySize request, fail := false, acc := none,
        resolution := none } []
    match r.2.1.resolution with
    | some (out_response, out_err) =>
      some { server := r.1, out_response := out_response, out_err := out_err,
             invoked := r.2.2 }
    | none => none

/-- Model of `aos_jrpc_server_call_json` (`data` may be `NULL`); `none` when the call
returns without the caller's future having been resolved. -/
def aos_jrpc_server_call_json (handlers : Nat → handler_fn) (env : server_env)
    (server : aos_jrpc_server_t) (data : Option cJSON) : Option call_result :=
  if cJSON_IsObject data then
    some (request_handle_sync handlers (env.request 0) server data)
  else if cJSON_IsArray data then
    if !server.config.parallel then
      some (_aos_jrpc_server_batch_handle_sequential handlers env server data)
    else
      _aos_jrpc_server_batch_handle_parallel handlers env server data
  else
    some (resolve_with server
      (alloc env.error_ok (aos_jrpc_message_error none (-32600) "Invalid Request")) [])

/-- The responses obtained by running the single-request path on each sub-request
in input order, from position `i` and server state `server` on, dropping the
sub-requests that produce no response. -/
def single_path_responses (handlers : Nat → handler_fn) (env : Nat → request_env) :
    Nat → aos_jrpc_server_t → List cJSON → List cJSON
  | _, _, [] => []
  | i, server, item :: rest =>
    (request_handle_sync handlers (env i) server (some item)).out_response.toList ++
      single_path_responses handlers env (i + 1)
        (request_handle_sync handlers (env i) server (some item)).server rest

/-- The handler `test_handler0` of the test suite: it resolves with the result `0`
and no error, whatever its parameters. -/
def test_handler0 : handler_fn := fun _ => (some (cJSON.number 0), 0)

/-- The allocator that never refuses, for one run of the single-request path. -/
def request_env_ok : request_env :=
  { error_ok := true, result_ok := true, dup_ok := true, ctx_ok := true,
    future_ok := true }

/-- The allocator that never refuses, for one call of the entry point. -/
def server_env_ok : server_env :=
  { error_ok := true, ctx_ok := true, futures_ok := true, future_ok := fun _ => true,
    array_ok := true, request := fun _ => request_env_ok }

/-- The server of the test suite: `maxrequests = 10`, `testHandler0` bound to the
handler number 0, nothing in flight. -/
def test_server (parallel : Bool) : aos_jrpc_server_t :=
  { config := { maxrequests := 10, maxinputlen := 500, parallel := parallel },
    handlers := [{ method := "testHandler0", handler := 0 }],
    counter := 0 }

/-- The gate "Too many requests?" of the single-request path lets a request
through: the counter, once incremented, is below `maxrequests`. -/
def below_limit (server : aos_jrpc_server_t) : Bool :=
  decide ((server.counter + 1) % 4294967296 < server.config.maxrequests)

/-- The server once a request has gone through the single-request path and its
handler, if any, has completed: the counter has been incremented and decremented. -/
def settled (server : aos_jrpc_server_t) : aos_jrpc_server_t :=
  counter_dec (counter_inc server)

/-- A notification that succeeds: a valid request object without `id` whose method
is bound to a handler that completes with `out_err = 0`. -/
def ok_notification (handlers : Nat → handler_fn) (server : aos_jrpc_server_t)
    (item : cJSON) : Prop :=
  _aos_jrpc_server_isvalid (some item) = true ∧
  cJSON_GetObjectItemCaseSensitive (some item) "id" = none ∧
  ∃ handler,
    _aos_jrpc_server_handler_get server
      (valuestring (cJSON_GetObjectItemCaseSensitive (some item) "method")) =
        some handler ∧
    (handlers handler (cJSON_GetObjectItemCaseSensitive (some item) "params")).2 = 0

/-- The items of the batch response array that hold the responses `l`: the array is
only created for the first response. -/
def batch_acc : List cJSON → Option (List cJSON)
  | [] => none
  | l => some l

/-- The batch response for the collected responses `l`: absent when there are none,
otherwise the array of the responses. -/
def batch_response : List cJSON → Option cJSON
  | [] => none
  | l => some (cJSON.array l)

/-! ## The handler registry -/

/-- The walk of `aos_jrpc_server_handler_set` over the handler list from the node
`*entry` on: the return value and the nodes afterwards.  A node whose method is
`method` gets the new handler; at the end of the list a new node is allocated
(`alloc_ok`: the node and the copy of the method name are allocated). -/
def handler_set_walk (alloc_ok : Bool) (handler : Nat) (method : String) :
    List _aos_jrpc_server_handler_entry_t →
      Nat × List _aos_jrpc_server_handler_entry_t
  | [] => if alloc_ok then (0, [{ method := method, handler := handler }]) else (1, [])
  | entry :: next =>
    if entry.method = method then (0, { entry with handler := handler } :: next)
    else
      ((handler_set_walk alloc_ok handler method next).1,
        entry :: (handler_set_walk alloc_ok handler method next).2)

/-- Model of `aos_jrpc_server_handler_set`: return value and server afterwards. -/
def aos_jrpc_server_handler_set (alloc_ok : Bool) (server : aos_jrpc_server_t)
    (handler : Nat) (method : String) : Nat × aos_jrpc_server_t :=
  ((handler_set_walk alloc_ok handler method server.handlers).1,
    { server with handlers := (handler_set_walk alloc_ok handler method server.handlers).2 })

/-- The walk of `aos_jrpc_server_handler_unset` over the handler list from the node
`*entry` on: the first node whose method is `method` is unlinked. -/
def handler_unset_walk (method : String) :
    List _aos_jrpc_server_handler_entry_t →
      Nat × List _aos_jrpc_server_handler_entry_t
  | [] => (1, [])
  | entry :: next =>
    if entry.method = method then (0, next)
    else ((handler_unset_walk method next).1, entry :: (handler_unset_walk method next).2)

/-- Model of `aos_jrpc_server_handler_unset`: return value and server afterwards. -/
def aos_jrpc_server_handler_unset (server : aos_jrpc_server_t) (method : String) :
    Nat × aos_jrpc_server_t :=
  ((handler_unset_walk method server.handlers).1,
    { server with handlers := (handler_unset_walk method server.handlers).2 })

/-- The method names of a handler list, in order. -/
def methods (handlers : List _aos_jrpc_server_handler_entry_t) : List String :=
  handlers.map fun entry => entry.method

/-! ## The text entry point of the server -/

/-- What the allocator decides during one call of `aos_jrpc_server_call`. -/
structure text_env where
  /-- An error envelope built by `aos_jrpc_server_call` itself is allocated. -/
  error_ok : Bool
  /-- The text produced by `cJSON_PrintUnformatted` is allocated. -/
  print_ok : Bool
  /-- The future handed to `aos_jrpc_server_call_json` is allocated. -/
  future_ok : Bool
  /-- The allocator during `aos_jrpc_server_call_json`. -/
  server : server_env

/-- How `aos_jrpc_server_call` ends: `out_data` is the value whose serialisation the
caller's future is resolved with (`none` for `NULL`). -/
structure text_result where
  server : aos_jrpc_server_t
  out_data : Option cJSON
  out_err : Nat
  invoked : List (Nat × Option cJSON)

/-- Model of `cJSON_PrintUnformatted`, the text being identified with the value it
serialises: `NULL` for `NULL` and when the allocation fails. -/
def cJSON_PrintUnformatted (ok : Bool) (item : Option cJSON) : Option cJSON :=
  if ok then item else none

/-- The error label of `aos_jrpc_server_call`, reached with `err_response`. -/
def server_call_err (env : text_env) (server : aos_jrpc_server_t)
    (err_response : Option cJSON) : text_result :=
  { server := server, out_data := cJSON_PrintUnformatted env.print_ok err_response,
    out_err := if (cJSON_PrintUnformatted env.print_ok err_response).isSome then 0 else 1,
    invoked := [] }

/-- Model of `aos_jrpc_server_call_cb`: the `out_data` and `out_err` of the caller's
future, from the `out_response` and `out_err` of `aos_jrpc_server_call_json`. -/
def aos_jrpc_server_call_cb (print_ok : Bool) (out_response : Option cJSON)
    (out_err : Nat) : Option cJSON × Nat :=
  if out_err ≠ 0 then (none, 1)
  else
    match out_response with
    | some response =>
      match cJSON_PrintUnformatted print_ok (some response) with
      | some out_data => (some out_data, 0)
      | none => (none, 1)
    | none => (none, 0)

/-- Model of `aos_jrpc_server_call`; `cJSON_Parse` is the JSON parser, the length of
`data` is its length in bytes.  `none`: the caller's future has not been resolved
when the call returns. -/
def aos_jrpc_server_call (cJSON_Parse : String → Option cJSON)
    (handlers : Nat → handler_fn) (env : text_env) (server : aos_jrpc_server_t)
    (data : String) : Option text_result :=
  if data.utf8ByteSize > server.config.maxinputlen then
    some (server_call_err env server
      (alloc env.error_ok (aos_jrpc_message_error none (-32000) "Server error")))
  else
    match cJSON_Parse data with
    | none =>
      some (server_call_err env server
        (alloc env.error_ok (aos_jrpc_message_error none (-32700) "Parse error")))
    | some request =>
      if !env.future_ok then
        some (server_call_err env server
          (alloc env.error_ok (aos_jrpc_message_error none (-32603) "Internal error")))
      else
        match aos_jrpc_server_call_json handlers env.server server (some request) with
        | none => none
        | some res =>
          some { server := res.server,
                 out_data := (aos_jrpc_server_call_cb env.print_ok res.out_response
                   res.out_err).1,
                 out_err := (aos_jrpc_server_call_cb env.print_ok res.out_response
                   res.out_err).2,
                 invoked := res.invoked }

/-! ## The peer -/

/-- The structure `aos_jrpc_peer_config_t`; `has_on_error` tells whether the
`on_error` callback is set (the sink `on_output` is). -/
structure aos_jrpc_peer_config_t where
  has_on_error : Bool
  maxinputlen : Nat
  maxclientrequests : Nat
  maxserverrequests : Nat
  parallel : Bool
  deriving DecidableEq, Repr

/-- The structure `aos_jrpc_peer_t`. -/
structure aos_jrpc_peer_t where
  server : aos_jrpc_server_t
  client : aos_jrpc_client_t
  config : aos_jrpc_peer_config_t
  deriving DecidableEq, Repr

/-- Observable effects of the peer, besides running handlers. -/
inductive PeerEvent where
  /-- A call `peer->config.on_output(text)`, the text being the serialisation of the
  given value. -/
  | on_output (msg : cJSON)
  /-- A call `peer->config.on_error(code)`. -/
  | on_error (code : Nat)
  /-- An effect of the client registry. -/
  | client (ev : Event)

/-- What the environment decides during one call of `aos_jrpc_peer_read`. -/
structure peer_env where
  /-- The error envelope built by `aos_jrpc_peer_read` is allocated. -/
  error_ok : Bool
  /-- The text produced by `cJSON_PrintUnformatted` is allocated. -/
  print_ok : Bool
  /-- The future handed to `aos_jrpc_server_call_json` is allocated. -/
  future_ok : Bool
  /-- The duplicate made by `aos_jrpc_client_read_json` is allocated. -/
  dup_ok : Bool
  /-- The value returned by the sink `on_output`. -/
  on_output : Nat
  /-- The allocator during `aos_jrpc_server_call_json`. -/
  server : server_env

/-- How a call of the peer ends: return value, peer afterwards, effects in order,
handlers invoked in order. -/
structure peer_result where
  ret : Nat
  peer : aos_jrpc_peer_t
  events : List PeerEvent
  invoked : List (Nat × Option cJSON)

/-- Model of `cJSON_GetArrayItem(array, 0)`: the first child, `NULL` when there is
none.  The function does not look at the type of the item, so the first child of an
object is its first member. -/
def cJSON_GetArrayItem_0 (array : Option cJSON) : Option cJSON := (children array).head?

/-- The condition of the `if` of `aos_jrpc_peer_read_json`: the payload goes to the
client when it holds, to the server otherwise. -/
def peer_to_client (json : Option cJSON) : Bool :=
  (cJSON_GetObjectItemCaseSensitive (cJSON_GetArrayItem_0 json) "result").isSome ||
  (cJSON_GetObjectItemCaseSensitive (cJSON_GetArrayItem_0 json) "error").isSome ||
  (cJSON_GetObjectItemCaseSensitive json "result").isSome ||
  (cJSON_GetObjectItemCaseSensitive json "error").isSome

/-- Model of `_aos_jrpc_peer_server_call_json_cb`: the effects of the continuation
run when the server resolves with `response` and `ret`.  The value returned by the
sink is not looked at. -/
def _aos_jrpc_peer_server_call_json_cb (env : peer_env) (peer : aos_jrpc_peer_t)
    (response : Option cJSON) (ret : Nat) : List PeerEvent :=
  if ret ≠ 0 then
    if peer.config.has_on_error then [PeerEvent.on_error ret] else []
  else
    match cJSON_PrintUnformatted env.print_ok response with
    | none => if peer.config.has_on_error then [PeerEvent.on_error ret] else []
    | some response_str => [PeerEvent.on_output response_str]

/-- Model of `aos_jrpc_peer_read_json` (`json` may be `NULL`), handlers completing
inside their invocation. -/
def aos_jrpc_peer_read_json (handlers : Nat → handler_fn) (env : peer_env)
    (peer : aos_jrpc_peer_t) (json : Option cJSON) : peer_result :=
  match json, peer_to_client json with
  | some value, true =>
    { ret := (aos_jrpc_client_read_json env.dup_ok peer.client value).1,
      peer := { peer with
        client := (aos_jrpc_client_read_json env.dup_ok peer.client value).2.1 },
      events :=
        (aos_jrpc_client_read_json env.dup_ok peer.client value).2.2.map PeerEvent.client,
      invoked := [] }
  | _, _ =>
    if !env.future_ok then
      { ret := 1, peer := peer, events := [], invoked := [] }
    else
      match aos_jrpc_server_call_json handlers env.server peer.server json with
      | some res =>
        { ret := 0, peer := { peer with server := res.server },
          events := _aos_jrpc_peer_server_call_json_cb env peer res.out_response res.out_err,
          invoked := res.invoked }
      | none => { ret := 0, peer := peer, events := [], invoked := [] }

/-- Model of `aos_jrpc_peer_read`; `cJSON_Parse` is the JSON parser, the length of
`data` is its length in bytes.  When parsing fails the error envelope that is built
is not used, and `aos_jrpc_peer_read_json` is called with `NULL`. -/
def aos_jrpc_peer_read (cJSON_Parse : String → Option cJSON)
    (handlers : Nat → handler_fn) (env : peer_env) (peer : aos_jrpc_peer_t)
    (data : String) : peer_result :=
  if data.utf8ByteSize > peer.config.maxinputlen then
    match cJSON_PrintUnformatted env.print_ok
        (alloc env.error_ok (aos_jrpc_message_error none (-32000) "Server error")) with
    | none => { ret := 1, peer := peer, events := [], invoked := [] }
    | some error_str =>
      { ret := 0, peer := peer, events := [PeerEvent.on_output error_str], invoked := [] }
  else
    aos_jrpc_peer_read_json handlers env peer (cJSON_Parse data)

/-- The classification rule in the words of the specification: the payload is a
response when it is an object with a `result` or `error` key, or an array whose
first element is such an object. -/
def spec_is_response (json : cJSON) : Bool :=
  match json with
  | cJSON.object members =>
    (cJSON.lookup "result" members).isSome || (cJSON.lookup "error" members).isSome
  | cJSON.array (cJSON.object members :: _) =>
    (cJSON.lookup "result" members).isSome || (cJSON.lookup "error" members).isSome
  | _ => false

/-- The peer of the test suite: limits of 10 requests and 1000 bytes, `testHandler0`
bound, nothing in flight, no request pending. -/
def test_peer : aos_jrpc_peer_t :=
  { server := test_server false,
    client := { requests := [], config := { maxrequests := 10, maxinputlen := 1000 } },
    config := { has_on_error := true, maxinputlen := 1000, maxclientrequests := 10,
                maxserverrequests := 10, parallel := false } }

/-- The allocator that never refuses and a sink that accepts, for one call of the
peer. -/
def peer_env_ok : peer_env :=
  { error_ok := true, print_ok := true, future_ok := true, dup_ok := true,
    on_output := 0, server := server_env_ok }

/-- The allocator that never refuses, for one call of the text entry point. -/
def text_env_ok : text_env :=
  { error_ok := true, print_ok := true, future_ok := true, server := server_env_ok }

/-! ## Allocation of the server and of the peer -/

/-- Model of `aos_jrpc_server_alloc`: `NULL` when an allocation fails; otherwise a
server without handlers, nothing in flight, whose zero limits are replaced by the
build defaults. -/
def aos_jrpc_server_alloc (CONFIG_MAXREQUESTS CONFIG_MAXINPUTLEN : Nat) (alloc_ok : Bool)
    (config : aos_jrpc_server_config_t) : Option aos_jrpc_server_t :=
  if !alloc_ok then none
  else some
    { config :=
        { maxrequests :=
            if config.maxrequests ≠ 0 then config.maxrequests else CONFIG_MAXREQUESTS
          maxinputlen :=
            if config.maxinputlen ≠ 0 then config.maxinputlen else CONFIG_MAXINPUTLEN
          parallel := config.parallel }
      handlers := []
      counter := 0 }

/-- What the build and the allocator decide during `aos_jrpc_peer_alloc`: the
defaults of `sdkconfig.h` and the success of the three allocations. -/
structure peer_alloc_env where
  CONFIG_AOS_JRPC_PEER_MAXCLIENTREQUESTS : Nat
  CONFIG_AOS_JRPC_PEER_MAXSERVERREQUESTS : Nat
  CONFIG_AOS_JRPC_PEER_MAXINPUTLEN : Nat
  CONFIG_AOS_JRPC_SERVER_MAXREQUESTS : Nat
  CONFIG_AOS_JRPC_SERVER_MAXINPUTLEN : Nat
  CONFIG_AOS_JRPC_CLIENT_MAXREQUESTS : Nat
  CONFIG_AOS_JRPC_CLIENT_MAXINPUTLEN : Nat
  /-- The `calloc` of the peer succeeds. -/
  peer_ok : Bool
  /-- The allocations of `aos_jrpc_server_alloc` succeed. -/
  server_ok : Bool
  /-- The allocations of `aos_jrpc_client_alloc` succeed. -/
  client_ok : Bool

/-- The error label of `aos_jrpc_peer_alloc`: `free(peer)`, then
`aos_jrpc_server_free(server)` and `aos_jrpc_client_free(client)`.  Both functions
read a field of their argument at once (`server->handlers`, `client->requests`), so
the label returns `NULL` only when both instances exist; with a `NULL` instance the
call ends in a null-pointer dereference (`aborted`). -/
def peer_alloc_err (server : Option aos_jrpc_server_t) (client : Option aos_jrpc_client_t) :
    Outcome (Option aos_jrpc_peer_t) :=
  match server, client with
  | some _, some _ => Outcome.returned none
  | _, _ => Outcome.aborted

/-- Model of `aos_jrpc_peer_alloc`; `has_on_output` tells whether `config->on_output`
is set, `config.has_on_error` whether `config->on_error` is. -/
def aos_jrpc_peer_alloc (env : peer_alloc_env) (has_on_output : Bool)
    (config : aos_jrpc_peer_config_t) : Outcome (Option aos_jrpc_peer_t) :=
  -- Verify config
  if !config.has_on_error || !has_on_output then
    peer_alloc_err none none
  else
    -- Build config
    let complete_config : aos_jrpc_peer_config_t :=
      { has_on_error := config.has_on_error
        maxinputlen :=
          if config.maxinputlen ≠ 0 then config.maxinputlen
          else env.CONFIG_AOS_JRPC_PEER_MAXINPUTLEN
        maxclientrequests :=
          if config.maxclientrequests ≠ 0 then config.maxclientrequests
          else env.CONFIG_AOS_JRPC_PEER_MAXCLIENTREQUESTS
        maxserverrequests :=
          if config.maxserverrequests ≠ 0 then config.maxserverrequests
          else env.CONFIG_AOS_JRPC_PEER_MAXSERVERREQUESTS
        parallel := config.parallel }
    -- Allocate resources
    let server := aos_jrpc_server_alloc env.CONFIG_AOS_JRPC_SERVER_MAXREQUESTS
      env.CONFIG_AOS_JRPC_SERVER_MAXINPUTLEN env.server_ok
      { maxrequests := complete_config.maxserverrequests, maxinputlen := 0,
        parallel := complete_config.parallel }
    let client := aos_jrpc_client_alloc env.CONFIG_AOS_JRPC_CLIENT_MAXREQUESTS
      env.CONFIG_AOS_JRPC_CLIENT_MAXINPUTLEN has_on_output env.client_ok
      { maxrequests := complete_config.maxclientrequests, maxinputlen := 0 }
    match env.peer_ok, server, client with
    | true, some server, some client =>
      Outcome.returned (some { server := server, client := client, config := complete_config })
    | _, _, _ => peer_alloc_err server client

/-- The build defaults used in the examples, with an allocator that never refuses. -/
def peer_alloc_env_ok : peer_alloc_env :=
  { CONFIG_AOS_JRPC_PEER_MAXCLIENTREQUESTS := 10
    CONFIG_AOS_JRPC_PEER_MAXSERVERREQUESTS := 10
    CONFIG_AOS_JRPC_PEER_MAXINPUTLEN := 1000
    CONFIG_AOS_JRPC_SERVER_MAXREQUESTS := 10
    CONFIG_AOS_JRPC_SERVER_MAXINPUTLEN := 500
    CONFIG_AOS_JRPC_CLIENT_MAXREQUESTS := 10
    CONFIG_AOS_JRPC_CLIENT_MAXINPUTLEN := 1000
    peer_ok := true, server_ok := true, client_ok := true }

/-! ## Calls of the sink -/

/-- The number of calls of the sink `on_output` in a trace of the peer: those of the
peer itself and those of its client, which is configured with the same function. -/
def sink_calls : List PeerEvent → Nat
  | [] => 0
  | PeerEvent.on_output _ :: rest => sink_calls rest + 1
  | PeerEvent.client (Event.output _) :: rest => sink_calls rest + 1
  | PeerEvent.client (Event.resolve _ _ _) :: rest => sink_calls rest
  | PeerEvent.on_error _ :: rest => sink_calls rest

/-! ## The response validator in the words of the specification -/

/-- The rule `is_valid_response` as the specification words it: `jsonrpc` is "2.0",
`id` is a number in `[0, 2^32)`, exactly one of `result` and `error` is present, and
an `error` has an integer `code` in the signed 64-bit range and a string `message`. -/
def spec_is_valid_response (value : cJSON) : Bool :=
  match value with
  | cJSON.object members =>
    (match cJSON.lookup "jsonrpc" members with
      | some (cJSON.string s) => s == "2.0"
      | _ => false) &&
    (match cJSON.lookup "id" members with
      | some (cJSON.number v) => decide (0 ≤ v) && decide (v < 4294967296)
      | _ => false) &&
    ((cJSON.lookup "result" members).isSome != (cJSON.lookup "error" members).isSome) &&
    (match cJSON.lookup "error" members with
      | none => true
      | some (cJSON.object error) =>
        (match cJSON.lookup "code" error with
          | some (cJSON.number code) =>
            decide (code.den = 1) && decide (-9223372036854775808 ≤ code) &&
              decide (code ≤ 9223372036854775807)
          | _ => false) &&
        (match cJSON.lookup "message" error with
          | some (cJSON.string _) => true
          | _ => false)
      | some _ => false)
  | _ => false

/-! ## Parameter getters -/

/-- Model of `cJSON_GetArrayItem(array, index)` for an `unsigned int` index, which the
call converts to `int`: `NULL` for a negative index and past the last child. -/
def cJSON_GetArrayItem (array : Option cJSON) (index : Nat) : Option cJSON :=
  if index ≥ 2147483648 then none else (children array)[index]?

/-- The constant `INT32_MAX`. -/
def INT32_MAX : ℚ := 2147483647

/-- The constant `INT32_MIN`. -/
def INT32_MIN : ℚ := -2147483648

/-- The conversion of a `double` to an integer type that can hold its integral part:
the fractional part is discarded. -/
def double_to_int (v : ℚ) : Int := Int.tdiv v.num v.den

/-- Model of `aos_jrpc_server_param_int32_get`: the return value and the content of
`*param` afterwards, `param` being its content before. -/
def aos_jrpc_server_param_int32_get (json : Option cJSON) (pos : Nat) (name : String)
    (param : Int) : Nat × Int :=
  let json_param : Option (Option cJSON) :=
    if cJSON_IsObject json then some (cJSON_GetObjectItemCaseSensitive json name)
    else if cJSON_IsArray json then some (cJSON_GetArrayItem json pos)
    else none
  match json_param with
  | none => (1, param)
  | some json_param =>
    if !cJSON_IsNumber json_param || decide (valuedouble json_param < INT32_MIN) ||
        decide (valuedouble json_param > INT32_MAX) then
      (2, param)
    else
      (0, double_to_int (valuedouble json_param))

/-- The handler `test_handler1` of the test suite: it reads the int32 parameter
`arg1` (position 0) and resolves with the result `0`, or with
`AOS_JRPC_SERVER_ERR_INVALIDPARAMS` when the getter does not return 0. -/
def test_handler1 : handler_fn := fun params =>
  if (aos_jrpc_server_param_int32_get params 0 "arg1" 0).1 ≠ 0 then
    (none, AOS_JRPC_SERVER_ERR_INVALIDPARAMS)
  else (some (cJSON.number 0), 0)

/-! ## Handlers that complete later -/

/-- The server together with the contexts of the handlers that have been launched
and have not resolved their future yet, oldest first. -/
structure server_state where
  server : aos_jrpc_server_t
  pending : List _aos_jrpc_server_request_handle_ctx_t

/-- What can happen to a server whose handlers complete at any later time. -/
inductive ServerCall where
  /-- A call of `_aos_jrpc_server_request_handle` on `request`. -/
  | request (env : request_env) (request : Option cJSON)
  /-- The handler launched for the pending context at position `k` resolves its
  future with `out_result` and `out_err`: `_aos_jrpc_server_request_handle_cb` runs. -/
  | complete (env : request_env) (k : Nat) (out_result : Option cJSON) (out_err : Nat)

/-- The state after one event.  A completion for a position where no handler is
pending does not happen and leaves the state as it is. -/
def server_step (s : server_state) : ServerCall → server_state
  | ServerCall.request env request =>
    match _aos_jrpc_server_request_handle env s.server request with
    | request_handle_result.resolved server _ _ => { s with server := server }
    | request_handle_result.launched server _ _ ctx =>
      { server := server, pending := s.pending ++ [ctx] }
  | ServerCall.complete env k out_result out_err =>
    match s.pending[k]? with
    | none => s
    | some ctx =>
      { server := (_aos_jrpc_server_request_handle_cb env s.server ctx out_result out_err).1,
        pending := s.pending.eraseIdx k }

/-- The state after a sequence of events. -/
def server_run (s : server_state) : List ServerCall → server_state
  | [] => s
  | call :: calls => server_run (server_step s call) calls

/-! ## Arrivals of sub-completions in the parallel variant -/

/-- The parallel batch callback run once for each sub-completion, in the order in
which they arrive; an arrival is the `out_response` and `out_err` of the
sub-request's future. -/
def parallel_arrivals (env : server_env) :
    _aos_jrpc_server_batch_handle_parallel_ctx_t → List (Option cJSON × Nat) →
      _aos_jrpc_server_batch_handle_parallel_ctx_t
  | ctx, [] => ctx
  | ctx, arrival :: rest =>
    parallel_arrivals env
      (_aos_jrpc_server_batch_handle_parallel_cb env ctx arrival.1 arrival.2) rest

/-- The context that `_aos_jrpc_server_batch_handle_parallel` sets up for a batch of
`n` sub-requests. -/
def parallel_ctx (n : Nat) : _aos_jrpc_server_batch_handle_parallel_ctx_t :=
  { counter := n, fail := false, acc := none, resolution := none }

/-- The `-32603` envelope with which a failed parallel batch is resolved, and the
`out_err` that goes with it. -/
def parallel_failure (env : server_env) : Option cJSON × Nat :=
  (alloc env.error_ok (aos_jrpc_message_error none (-32603) "Internal error"),
    if (alloc env.error_ok (aos_jrpc_message_error none (-32603) "Internal error")).isSome
    then 0 else 1)

/-! ## The single-request path over a list of sub-requests -/

/-- The server after running the single-request path on each sub-request in input
order, from position `i` and server state `server` on. -/
def single_path_server (handlers : Nat → handler_fn) (env : Nat → request_env) :
    Nat → aos_jrpc_server_t → List cJSON → aos_jrpc_server_t
  | _, server, [] => server
  | i, server, item :: rest =>
    single_path_server handlers env (i + 1)
      (request_handle_sync handlers (env i) server (some item)).server rest

/-- The handlers invoked by running the single-request path on each sub-request in
input order, from position `i` and server state `server` on. -/
def single_path_invoked (handlers : Nat → handler_fn) (env : Nat → request_env) :
    Nat → aos_jrpc_server_t → List cJSON → List (Nat × Option cJSON)
  | _, _, [] => []
  | i, server, item :: rest =>
    (request_handle_sync handlers (env i) server (some item)).invoked ++
      single_path_invoked handlers env (i + 1)
        (request_handle_sync handlers (env i) server (some item)).server rest

/-! # Theorems -/

/-! ## Facts about the response scan -/

/-- The scan finds nothing exactly when no Armed node carries the response's id. -/
theorem read_loop_eq_none_iff (dup_ok : Bool) (json : cJSON) (id : Option cJSON)
    (l : List aos_jrpc_client_request_entry_t) :
    read_loop dup_ok json id l = none ↔
      ∀ e ∈ l, e.future = none ∨ valuedouble id ≠ (e.id : ℚ) := by
  induction l with
  | nil => simp [read_loop]
  | cons e rest ih =>
    cases hf : e.future with
    | none => simp [read_loop, hf, ih]
    | some f =>
      by_cases hid : valuedouble id = (e.id : ℚ)
      · simp [read_loop, hf, hid]
      · simp [read_loop, hf, hid, ih]

/-- The scan stops at the first Armed node carrying the response's id, clears its
future and resolves it; the nodes before and after it are untouched. -/
theorem read_loop_split (dup_ok : Bool) (json : cJSON) (id : Option cJSON)
    (before after : List aos_jrpc_client_request_entry_t)
    (entry : aos_jrpc_client_request_entry_t) (future : Nat)
    (harmed : entry.future = some future)
    (hid : valuedouble id = (entry.id : ℚ))
    (hfirst : ∀ x ∈ before, x.future = none ∨ valuedouble id ≠ (x.id : ℚ)) :
    read_loop dup_ok json id (before ++ entry :: after) =
      some (before ++ { entry with future := none } :: after,
        Event.resolve future (read_outcome dup_ok json).2 (read_outcome dup_ok json).1) := by
  induction before with
  | nil => simp [read_loop, harmed, hid]
  | cons x rest ih =>
    have hrest : ∀ y ∈ rest, y.future = none ∨ valuedouble id ≠ (y.id : ℚ) :=
      fun y hy => hfirst y (List.mem_cons_of_mem x hy)
    have hx := hfirst x (List.mem_cons_self x rest)
    cases hf : x.future with
    | none => simp [read_loop, hf, ih hrest]
    | some f =>
      have hne : valuedouble id ≠ (x.id : ℚ) := by
        rcases hx with h | h
        · rw [hf] at h; cases h
        · exact h
      simp [read_loop, hf, hne, ih hrest]

/-- A valid response has exactly one of `result` and `error`. -/
theorem isvalid_result_xor_error (json : cJSON)
    (hvalid : _aos_jrpc_client_isvalid json = true) :
    (cJSON_GetObjectItemCaseSensitive (some json) "result").isNone ≠
      (cJSON_GetObjectItemCaseSensitive (some json) "error").isNone := by
  intro heq
  unfold _aos_jrpc_client_isvalid at hvalid
  simp [heq] at hvalid

/-! ## C1: a response matching an Armed entry -/

/-- C1. `aos_jrpc_client_read_json` on a valid response whose id is the id of an Armed
entry (the first such entry in list order, `cJSON_Duplicate` succeeding) returns 0,
fulfils exactly that entry's completion, with the `error` member and status
ServerError when `error` is present and with the `result` member and status Ok
otherwise, and leaves the list as it was except that this entry's future is cleared
(state Completed). -/
theorem read_json_armed_match (client : aos_jrpc_client_t) (json : cJSON)
    (before after : List aos_jrpc_client_request_entry_t)
    (entry : aos_jrpc_client_request_entry_t) (future : Nat)
    (hvalid : _aos_jrpc_client_isvalid json = true)
    (hlist : client.requests = before ++ entry :: after)
    (harmed : entry.future = some future)
    (hid : valuedouble (cJSON_GetObjectItemCaseSensitive (some json) "id") = (entry.id : ℚ))
    (hfirst : ∀ x ∈ before, x.future = none ∨ x.id ≠ entry.id) :
    aos_jrpc_client_read_json true client json =
      (0,
        { client with requests := before ++ { entry with future := none } :: after },
        [match cJSON_GetObjectItemCaseSensitive (some json) "error" with
          | some error => Event.resolve future AOS_JRPC_CLIENT_ERR_SERVERERROR (some error)
          | none =>
            Event.resolve future AOS_JRPC_CLIENT_ERR_OK
              (cJSON_GetObjectItemCaseSensitive (some json) "result")]) ∧
      ((cJSON_GetObjectItemCaseSensitive (some json) "error").isNone →
        (cJSON_GetObjectItemCaseSensitive (some json) "result").isSome) := by
  have hxor := isvalid_result_xor_error json hvalid
  have hfirst' : ∀ x ∈ before, x.future = none ∨
      valuedouble (cJSON_GetObjectItemCaseSensitive (some json) "id") ≠ (x.id : ℚ) := by
    intro x hx
    rcases hfirst x hx with h | h
    · exact Or.inl h
    · refine Or.inr ?_
      rw [hid]
      intro hc
      exact h (Nat.cast_injective hc).symm
  have hloop := read_loop_split true json
    (cJSON_GetObjectItemCaseSensitive (some json) "id") before after entry future
    harmed hid hfirst'
  constructor
  · simp only [aos_jrpc_client_read_json, hvalid, hlist, hloop]
    cases herr : cJSON_GetObjectItemCaseSensitive (some json) "error" with
    | some error => simp [read_outcome, herr, cJSON_Duplicate]
    | none =>
      rw [herr] at hxor
      cases hres : cJSON_GetObjectItemCaseSensitive (some json) "result" with
      | none => rw [hres] at hxor; simp at hxor
      | some r => simp [read_outcome, herr, hres, cJSON_Duplicate]
  · intro hnone
    cases hres : cJSON_GetObjectItemCaseSensitive (some json) "result" with
    | none => rw [hres] at hxor; simp [hnone] at hxor
    | some r => rfl

/-- C1 at the response `{"jsonrpc":"2.0","id":7,"result":0}` and a registry whose
second entry is the Armed entry with id 7, the first one being Completed with the
same id. -/
theorem read_json_armed_match_witness :
    aos_jrpc_client_read_json true
        { requests := [{ future := none, id := 7, timer := 0 },
                       { future := some 3, id := 7, timer := 1 },
                       { future := some 4, id := 9, timer := 2 }],
          config := { maxrequests := 10, maxinputlen := 1000 } }
        (cJSON.object [("jsonrpc", cJSON.string "2.0"), ("id", cJSON.number 7),
          ("result", cJSON.number 0)]) =
      (0,
        { requests := [{ future := none, id := 7, timer := 0 },
                       { future := none, id := 7, timer := 1 },
                       { future := some 4, id := 9, timer := 2 }],
          config := { maxrequests := 10, maxinputlen := 1000 } },
        [Event.resolve 3 AOS_JRPC_CLIENT_ERR_OK (some (cJSON.number 0))]) := by
  have h := (read_json_armed_match
    { requests := [{ future := none, id := 7, timer := 0 },
                   { future := some 3, id := 7, timer := 1 },
                   { future := some 4, id := 9, timer := 2 }],
      config := { maxrequests := 10, maxinputlen := 1000 } }
    (cJSON.object [("jsonrpc", cJSON.string "2.0"), ("id", cJSON.number 7),
      ("result", cJSON.number 0)])
    [{ future := none, id := 7, timer := 0 }]
    [{ future := some 4, id := 9, timer := 2 }]
    { future := some 3, id := 7, timer := 1 } 3
    (by decide) rfl rfl
    (by simp [cJSON_GetObjectItemCaseSensitive, cJSON.lookup, valuedouble])
    (by simp)).1
  simpa [cJSON_GetObjectItemCaseSensitive, cJSON.lookup] using h

/-! ## C6: the request limit -/

/-- C6. When the registry already holds `maxrequests` entries (or more), whatever
their state, `aos_jrpc_client_request_send_json` returns having fulfilled the
completion with TooManyRequests and nothing else: the sink is not called and the
registry is unchanged. -/
theorem send_json_too_many_requests (env : send_env) (client : aos_jrpc_client_t)
    (timeout_ms : Nat) (method : String) (params : Option cJSON) (future : Nat)
    (hfull : client.config.maxrequests ≤ client.requests.length) :
    aos_jrpc_client_request_send_json env client timeout_ms method params future =
      some (client, [Event.resolve future AOS_JRPC_CLIENT_ERR_TOOMANYREQUESTS none]) ∧
    outputs [Event.resolve future AOS_JRPC_CLIENT_ERR_TOOMANYREQUESTS none] = [] := by
  constructor
  · unfold aos_jrpc_client_request_send_json
    simp [hfull]
  · rfl

/-- C6 with `maxrequests = 1`: the first of two back-to-back sends links its entry,
the second completes with TooManyRequests. -/
theorem send_json_too_many_requests_witness :
    aos_jrpc_client_request_send_json
        { esp_random := [7], alloc_ok := true, esp_timer_create := some 0,
          on_output := 0, esp_timer_start_once := true }
        { requests := [], config := { maxrequests := 1, maxinputlen := 1000 } }
        100 "testHandler0" none 0 =
      some ({ requests := [{ future := some 0, id := 7, timer := 0 }],
              config := { maxrequests := 1, maxinputlen := 1000 } },
        [Event.output (cJSON.object [("jsonrpc", cJSON.string "2.0"),
          ("method", cJSON.string "testHandler0"), ("id", cJSON.number 7)])]) ∧
    aos_jrpc_client_request_send_json
        { esp_random := [8], alloc_ok := true, esp_timer_create := some 1,
          on_output := 0, esp_timer_start_once := true }
        { requests := [{ future := some 0, id := 7, timer := 0 }],
          config := { maxrequests := 1, maxinputlen := 1000 } }
        100 "testHandler0" none 1 =
      some ({ requests := [{ future := some 0, id := 7, timer := 0 }],
              config := { maxrequests := 1, maxinputlen := 1000 } },
        [Event.resolve 1 AOS_JRPC_CLIENT_ERR_TOOMANYREQUESTS none]) :=
  ⟨by simp [aos_jrpc_client_request_send_json, send_with_id, id_loop,
      aos_jrpc_message_request, cJSON_CreateNumber, params_member],
   (send_json_too_many_requests _ _ 100 "testHandler0" none 1 (by decide)).1⟩

/-! ## C9: invalid and unmatched responses -/

/-- C9. `aos_jrpc_client_read_json` returns 3 exactly when the value fails the response
validator, and 4 exactly when the value is a valid response whose id is the id of no
Armed entry; in both cases it fulfils no completion and leaves the registry as it
was. -/
theorem read_json_invalid_unmatched (dup_ok : Bool) (client : aos_jrpc_client_t)
    (json : cJSON) :
    ((aos_jrpc_client_read_json dup_ok client json).1 = 3 ↔
      _aos_jrpc_client_isvalid json = false) ∧
    ((aos_jrpc_client_read_json dup_ok client json).1 = 4 ↔
      (_aos_jrpc_client_isvalid json = true ∧
        ∀ e ∈ client.requests, e.future = none ∨
          valuedouble (cJSON_GetObjectItemCaseSensitive (some json) "id") ≠ (e.id : ℚ))) ∧
    (((aos_jrpc_client_read_json dup_ok client json).1 = 3 ∨
        (aos_jrpc_client_read_json dup_ok client json).1 = 4) →
      (aos_jrpc_client_read_json dup_ok client json).2 = (client, [])) := by
  cases hvalid : _aos_jrpc_client_isvalid json with
  | false => simp [aos_jrpc_client_read_json, hvalid]
  | true =>
    cases hloop : read_loop dup_ok json
        (cJSON_GetObjectItemCaseSensitive (some json) "id") client.requests with
    | none =>
      have hnone := (read_loop_eq_none_iff dup_ok json _ client.requests).1 hloop
      simp only [aos_jrpc_client_read_json, hvalid, hloop]
      simp
      exact hnone
    | some r =>
      have hsome : ¬ ∀ e ∈ client.requests, e.future = none ∨
          valuedouble (cJSON_GetObjectItemCaseSensitive (some json) "id") ≠ (e.id : ℚ) := by
        intro h
        rw [(read_loop_eq_none_iff dup_ok json _ client.requests).2 h] at hloop
        cases hloop
      simp only [aos_jrpc_client_read_json, hvalid, hloop]
      simp
      simpa using hsome

/-! ## C7: the entry count is bounded -/

/-- When the first node does not carry the timer's id, no amount of fuel lets
`_aos_jrpc_client_timeout_cb` return: the loop inspects the first node for ever. -/
theorem timeout_cb_head_mismatch (client : aos_jrpc_client_t) (id : Nat)
    (entry : aos_jrpc_client_request_entry_t)
    (next : List aos_jrpc_client_request_entry_t)
    (hreq : client.requests = entry :: next) (hne : entry.id ≠ id) (fuel : Nat) :
    _aos_jrpc_client_timeout_cb fuel client id = none := by
  induction fuel with
  | zero => rfl
  | succ n ih =>
    unfold _aos_jrpc_client_timeout_cb
    simp [hreq, hne]
    exact ih

/-- When the first node carries the timer's id, the callback returns at once, having
unlinked that node and resolved its future with Timeout if it was still set. -/
theorem timeout_cb_head_match (client : aos_jrpc_client_t)
    (entry : aos_jrpc_client_request_entry_t)
    (next : List aos_jrpc_client_request_entry_t)
    (hreq : client.requests = entry :: next) (fuel : Nat) :
    _aos_jrpc_client_timeout_cb (fuel + 1) client entry.id =
      some (Outcome.returned ({ client with requests := next },
        match entry.future with
        | some future => [Event.resolve future AOS_JRPC_CLIENT_ERR_TIMEOUT none]
        | none => [])) := by
  unfold _aos_jrpc_client_timeout_cb
  simp [hreq]

/-- C2 fails for an entry that is not the head.  With two Armed entries of ids 1 and
2, the expiry of the timer of id 2 never returns, whatever the fuel: the entry is
not removed and its completion is not fulfilled. -/
theorem timeout_cb_second_entry_never_returns :
    ∀ fuel : Nat,
      _aos_jrpc_client_timeout_cb fuel
        { requests := [{ future := some 0, id := 1, timer := 0 },
                       { future := some 1, id := 2, timer := 1 }],
          config := { maxrequests := 10, maxinputlen := 1000 } } 2 = none :=
  fun fuel => timeout_cb_head_mismatch _ 2 _ _ rfl (by decide) fuel

/-! ## C3: the id scan -/

/-- C3 fails.  From an empty registry, two sends draw the ids 5 and 7; a third send
draws 7 (taken by the second entry), then 5: the rescan resumes at the second node,
so 5 is accepted although the head entry holds it.  The registry then has two Armed
entries with id 5. -/
theorem send_json_reuses_head_id :
    run { requests := [], config := { maxrequests := 10, maxinputlen := 1000 } }
        [Call.send { esp_random := [5], alloc_ok := true, esp_timer_create := some 0,
                     on_output := 0, esp_timer_start_once := true } 100 "m" none 0,
         Call.send { esp_random := [7], alloc_ok := true, esp_timer_create := some 1,
                     on_output := 0, esp_timer_start_once := true } 100 "m" none 1,
         Call.send { esp_random := [7, 5], alloc_ok := true, esp_timer_create := some 2,
                     on_output := 0, esp_timer_start_once := true } 100 "m" none 2] =
      some ({ requests := [{ future := some 0, id := 5, timer := 0 },
                           { future := some 1, id := 7, timer := 1 },
                           { future := some 2, id := 5, timer := 2 }],
              config := { maxrequests := 10, maxinputlen := 1000 } },
        [Event.output (cJSON.object [("jsonrpc", cJSON.string "2.0"),
            ("method", cJSON.string "m"), ("id", cJSON.number 5)]),
         Event.output (cJSON.object [("jsonrpc", cJSON.string "2.0"),
            ("method", cJSON.string "m"), ("id", cJSON.number 7)]),
         Event.output (cJSON.object [("jsonrpc", cJSON.string "2.0"),
            ("method", cJSON.string "m"), ("id", cJSON.number 5)])]) := by
  simp [run, step, aos_jrpc_client_request_send_json, send_with_id, id_loop,
    aos_jrpc_message_request, cJSON_CreateNumber, params_member]

/-! ## C5 and C4: the sink rejects the request -/

/-- C5 fails.  On an empty registry, when the sink returns 1 the completion is
fulfilled with ClientError, but the registry afterwards is not the empty list: the
node handed to `free` is still linked. -/
theorem send_json_sink_failure_keeps_entry :
    aos_jrpc_client_request_send_json
        { esp_random := [7], alloc_ok := true, esp_timer_create := some 0,
          on_output := 1, esp_timer_start_once := true }
        { requests := [], config := { maxrequests := 10, maxinputlen := 1000 } }
        100 "testHandler0" none 0 =
      some ({ requests := [{ future := some 0, id := 7, timer := 0, freed := true }],
              config := { maxrequests := 10, maxinputlen := 1000 } },
        [Event.output (cJSON.object [("jsonrpc", cJSON.string "2.0"),
            ("method", cJSON.string "testHandler0"), ("id", cJSON.number 7)]),
          Event.resolve 0 AOS_JRPC_CLIENT_ERR_CLIENTERROR none]) := by
  simp [aos_jrpc_client_request_send_json, send_with_id, id_loop,
    aos_jrpc_message_request, cJSON_CreateNumber, params_member]

/-- C4 fails.  A send whose sink returns 1 fulfils completion 0 with ClientError and
leaves its node linked; the response `{"jsonrpc":"2.0","id":7,"result":0}` read next
matches that node and fulfils completion 0 a second time, with Ok. -/
theorem completion_fulfilled_twice :
    run { requests := [], config := { maxrequests := 10, maxinputlen := 1000 } }
        [Call.send { esp_random := [7], alloc_ok := true, esp_timer_create := some 0,
                     on_output := 1, esp_timer_start_once := true }
            100 "testHandler0" none 0,
         Call.read true (cJSON.object [("jsonrpc", cJSON.string "2.0"),
            ("id", cJSON.number 7), ("result", cJSON.number 0)])] =
      some ({ requests := [{ future := none, id := 7, timer := 0, freed := true }],
              config := { maxrequests := 10, maxinputlen := 1000 } },
        [Event.output (cJSON.object [("jsonrpc", cJSON.string "2.0"),
            ("method", cJSON.string "testHandler0"), ("id", cJSON.number 7)]),
          Event.resolve 0 AOS_JRPC_CLIENT_ERR_CLIENTERROR none,
          Event.resolve 0 AOS_JRPC_CLIENT_ERR_OK (some (cJSON.number 0))]) ∧
    resolved [Event.output (cJSON.object [("jsonrpc", cJSON.string "2.0"),
            ("method", cJSON.string "testHandler0"), ("id", cJSON.number 7)]),
          Event.resolve 0 AOS_JRPC_CLIENT_ERR_CLIENTERROR none,
          Event.resolve 0 AOS_JRPC_CLIENT_ERR_OK (some (cJSON.number 0))] = [0, 0] := by
  constructor
  · have hvalid : _aos_jrpc_client_isvalid (cJSON.object [("jsonrpc", cJSON.string "2.0"),
        ("id", cJSON.number 7), ("result", cJSON.number 0)]) = true := by decide
    simp [run, step, aos_jrpc_client_request_send_json, send_with_id, id_loop,
      aos_jrpc_message_request, cJSON_CreateNumber, params_member,
      aos_jrpc_client_read_json, hvalid, read_loop, read_outcome, cJSON_Duplicate,
      cJSON_GetObjectItemCaseSensitive, cJSON.lookup, valuedouble]
  · rfl

/-! ## C8: a second response with the same id -/

/-- A successful scan stopped at the first Armed node carrying the id. -/
theorem read_loop_some_split (dup_ok : Bool) (json : cJSON) (id : Option cJSON)
    (l l' : List aos_jrpc_client_request_entry_t) (ev : Event)
    (h : read_loop dup_ok json id l = some (l', ev)) :
    ∃ before entry after, l = before ++ entry :: after ∧ entry.future.isSome = true ∧
      valuedouble id = (entry.id : ℚ) ∧
      (∀ x ∈ before, x.future = none ∨ valuedouble id ≠ (x.id : ℚ)) ∧
      l' = before ++ { entry with future := none } :: after := by
  induction l generalizing l' with
  | nil => simp [read_loop] at h
  | cons e rest ih =>
    by_cases hhit : e.future.isSome = true ∧ valuedouble id = (e.id : ℚ)
    · obtain ⟨f, hf⟩ := Option.isSome_iff_exists.1 hhit.1
      simp only [read_loop, hf, hhit.2, if_true, Option.some.injEq, Prod.mk.injEq] at h
      exact ⟨[], e, rest, rfl, hhit.1, hhit.2, by simp, by rw [← h.1]; rfl⟩
    · have hmiss : e.future = none ∨ valuedouble id ≠ (e.id : ℚ) := by
        cases hf : e.future with
        | none => exact Or.inl rfl
        | some f =>
          refine Or.inr fun hid => hhit ⟨by simp [hf], hid⟩
      have hrec : (read_loop dup_ok json id rest).map (fun r => (e :: r.1, r.2)) =
          some (l', ev) := by
        rcases hmiss with hf | hid
        · simpa [read_loop, hf] using h
        · cases hf : e.future with
          | none => simpa [read_loop, hf] using h
          | some f => simpa [read_loop, hf, hid] using h
      simp only [Option.map_eq_some'] at hrec
      obtain ⟨⟨r1, r2⟩, hr, hpair⟩ := hrec
      cases hpair
      obtain ⟨before, entry, after, hl, ha, hid, hfirst, hl'⟩ := ih r1 hr
      refine ⟨e :: before, entry, after, by simp [hl], ha, hid, ?_, by simp [hl']⟩
      intro x hx
      rcases List.mem_cons.1 hx with hxe | hxb
      · rw [hxe]; exact hmiss
      · exact hfirst x hxb

/-- In a registry whose Armed entries carry pairwise distinct ids, once a response
has been matched (return value 0), reading a response with the same id again returns
4, fulfils nothing and leaves the registry as the first read left it. -/
theorem read_json_twice_of_distinct (dup_ok dup_ok' : Bool) (client : aos_jrpc_client_t)
    (json json' : cJSON)
    (hdistinct : (armed client.requests).Pairwise fun a b => a.id ≠ b.id)
    (hfirst : (aos_jrpc_client_read_json dup_ok client json).1 = 0)
    (hvalid' : _aos_jrpc_client_isvalid json' = true)
    (hsame : valuedouble (cJSON_GetObjectItemCaseSensitive (some json') "id") =
      valuedouble (cJSON_GetObjectItemCaseSensitive (some json) "id")) :
    aos_jrpc_client_read_json dup_ok'
        (aos_jrpc_client_read_json dup_ok client json).2.1 json' =
      (4, (aos_jrpc_client_read_json dup_ok client json).2.1, []) := by
  cases hvalid : _aos_jrpc_client_isvalid json with
  | false => simp [aos_jrpc_client_read_json, hvalid] at hfirst
  | true =>
    cases hloop : read_loop dup_ok json
        (cJSON_GetObjectItemCaseSensitive (some json) "id") client.requests with
    | none => simp [aos_jrpc_client_read_json, hvalid, hloop] at hfirst
    | some r =>
      obtain ⟨l', ev⟩ := r
      obtain ⟨before, entry, after, hl, ha, hid, hbefore, hl'⟩ :=
        read_loop_some_split dup_ok json _ client.requests l' ev hloop
      have hstate : (aos_jrpc_client_read_json dup_ok client json).2.1 =
          { client with requests := l' } := by
        simp [aos_jrpc_client_read_json, hvalid, hloop]
      rw [hstate]
      have hafter : ∀ y ∈ after, y.future = none ∨
          valuedouble (cJSON_GetObjectItemCaseSensitive (some json') "id") ≠ (y.id : ℚ) := by
        intro y hy
        cases hf : y.future with
        | none => exact Or.inl rfl
        | some f =>
          refine Or.inr ?_
          rw [hsame, hid]
          intro hc
          have hyid : entry.id = y.id := Nat.cast_injective hc
          have hpw := hdistinct
          rw [hl] at hpw
          simp only [armed, List.filter_append, List.filter_cons, ha, if_true] at hpw
          have h2 := (List.pairwise_append.1 hpw).2.1
          have h3 := (List.pairwise_cons.1 h2).1 y
            (List.mem_filter.2 ⟨hy, by simp [hf]⟩)
          exact h3 hyid
      have hnone : read_loop dup_ok' json'
          (cJSON_GetObjectItemCaseSensitive (some json') "id") l' = none := by
        rw [read_loop_eq_none_iff, hl']
        intro x hx
        rcases List.mem_append.1 hx with hxb | hxr
        · rw [hsame]; exact hbefore x hxb
        · rcases List.mem_cons.1 hxr with hxe | hxa
          · rw [hxe]; exact Or.inl rfl
          · exact hafter x hxa
      simp [aos_jrpc_client_read_json, hvalid', hnone]

/-- C8 fails in a registry where two Armed entries share an id, which the id scan
lets happen (the third send below draws 7, then 5).  The response
`{"jsonrpc":"2.0","id":5,"result":0}` is read twice in a row: the first read returns
0 and fulfils completion 0; the second read returns 0 again, fulfils completion 2
with the same response, and changes the registry. -/
theorem second_read_matches_other_entry :
    run { requests := [], config := { maxrequests := 10, maxinputlen := 1000 } }
        [Call.send { esp_random := [5], alloc_ok := true, esp_timer_create := some 0,
                     on_output := 0, esp_timer_start_once := true } 100 "m" none 0,
         Call.send { esp_random := [7], alloc_ok := true, esp_timer_create := some 1,
                     on_output := 0, esp_timer_start_once := true } 100 "m" none 1,
         Call.send { esp_random := [7, 5], alloc_ok := true, esp_timer_create := some 2,
                     on_output := 0, esp_timer_start_once := true } 100 "m" none 2] =
      some ({ requests := [{ future := some 0, id := 5, timer := 0 },
                           { future := some 1, id := 7, timer := 1 },
                           { future := some 2, id := 5, timer := 2 }],
              config := { maxrequests := 10, maxinputlen := 1000 } },
        [Event.output (cJSON.object [("jsonrpc", cJSON.string "2.0"),
            ("method", cJSON.string "m"), ("id", cJSON.number 5)]),
         Event.output (cJSON.object [("jsonrpc", cJSON.string "2.0"),
            ("method", cJSON.string "m"), ("id", cJSON.number 7)]),
         Event.output (cJSON.object [("jsonrpc", cJSON.string "2.0"),
            ("method", cJSON.string "m"), ("id", cJSON.number 5)])]) ∧
    aos_jrpc_client_read_json true
        { requests := [{ future := some 0, id := 5, timer := 0 },
                       { future := some 1, id := 7, timer := 1 },
                       { future := some 2, id := 5, timer := 2 }],
          config := { maxrequests := 10, maxinputlen := 1000 } }
        (cJSON.object [("jsonrpc", cJSON.string "2.0"), ("id", cJSON.number 5),
          ("result", cJSON.number 0)]) =
      (0,
        { requests := [{ future := none, id := 5, timer := 0 },
                       { future := some 1, id := 7, timer := 1 },
                       { future := some 2, id := 5, timer := 2 }],
          config := { maxrequests := 10, maxinputlen := 1000 } },
        [Event.resolve 0 AOS_JRPC_CLIENT_ERR_OK (some (cJSON.number 0))]) ∧
    aos_jrpc_client_read_json true
        { requests := [{ future := none, id := 5, timer := 0 },
                       { future := some 1, id := 7, timer := 1 },
                       { future := some 2, id := 5, timer := 2 }],
          config := { maxrequests := 10, maxinputlen := 1000 } }
        (cJSON.object [("jsonrpc", cJSON.string "2.0"), ("id", cJSON.number 5),
          ("result", cJSON.number 0)]) =
      (0,
        { requests := [{ future := none, id := 5, timer := 0 },
                       { future := some 1, id := 7, timer := 1 },
                       { future := none, id := 5, timer := 2 }],
          config := { maxrequests := 10, maxinputlen := 1000 } },
        [Event.resolve 2 AOS_JRPC_CLIENT_ERR_OK (some (cJSON.number 0))]) := by
  have hvalid : _aos_jrpc_client_isvalid (cJSON.object [("jsonrpc", cJSON.string "2.0"),
      ("id", cJSON.number 5), ("result", cJSON.number 0)]) = true := by decide
  refine ⟨?_, ?_, ?_⟩
  · simp [run, step, aos_jrpc_client_request_send_json, send_with_id, id_loop,
      aos_jrpc_message_request, cJSON_CreateNumber, params_member]
  · simp [aos_jrpc_client_read_json, hvalid, read_loop, read_outcome, cJSON_Duplicate,
      cJSON_GetObjectItemCaseSensitive, cJSON.lookup, valuedouble]
  · simp [aos_jrpc_client_read_json, hvalid, read_loop, read_outcome, cJSON_Duplicate,
      cJSON_GetObjectItemCaseSensitive, cJSON.lookup, valuedouble]

/-! ## C10: notifications -/

/-- Both notification functions return 0 exactly when the sink returned a non-zero
value (allocation succeeding, and parseable `params` for the text variant), and
neither takes or returns the registry. -/
theorem notification_send_return (cJSON_Parse : String → Option cJSON)
    (on_output : Nat) (method : String) (params : Option cJSON) (text : String) :
    ((aos_jrpc_client_notification_send_json true on_output method params).1 = 0 ↔
      on_output ≠ 0) ∧
    ((cJSON_Parse text).isSome = true →
      ((aos_jrpc_client_notification_send cJSON_Parse true on_output method
          (some text)).1 = 0 ↔ on_output ≠ 0)) := by
  constructor
  · by_cases h : on_output = 0 <;>
      simp [aos_jrpc_client_notification_send_json, aos_jrpc_message_notification, h]
  · intro hparse
    by_cases h : on_output = 0 <;>
      simp [aos_jrpc_client_notification_send, aos_jrpc_message_notification, h, hparse]

/-- C10 fails.  With a sink that accepts the envelope (returns 0),
`aos_jrpc_client_notification_send_json` returns 1, and with a sink that rejects it
(returns 1) the function returns 0; the text variant with parameters `[1]` does the
same. -/
theorem notification_send_inverted :
    aos_jrpc_client_notification_send_json true 0 "notify" none =
      (1, [Event.output (cJSON.object [("jsonrpc", cJSON.string "2.0"),
        ("method", cJSON.string "notify")])]) ∧
    aos_jrpc_client_notification_send_json true 1 "notify" none =
      (0, [Event.output (cJSON.object [("jsonrpc", cJSON.string "2.0"),
        ("method", cJSON.string "notify")])]) ∧
    (aos_jrpc_client_notification_send
        (fun _ => some (cJSON.array [cJSON.number 1])) true 0 "notify" (some "[1]")).1 = 1 ∧
    (aos_jrpc_client_notification_send
        (fun _ => some (cJSON.array [cJSON.number 1])) true 1 "notify" (some "[1]")).1 = 0 := by
  refine ⟨?_, ?_, ?_, ?_⟩ <;>
    simp [aos_jrpc_client_notification_send_json, aos_jrpc_client_notification_send,
      aos_jrpc_message_notification, params_member]

/-! ## C11: freeing the client -/

/-- C11. `aos_jrpc_client_free` returns 1 and leaves the client as it is whenever the
entry list is not empty, whatever the state of the entries (Armed or Completed), and
it returns 0 exactly when the list is empty. -/
theorem client_free_refuses (client : aos_jrpc_client_t) :
    (client.requests ≠ [] → aos_jrpc_client_free client = (1, some client)) ∧
    ((aos_jrpc_client_free client).1 = 0 ↔ client.requests = []) := by
  unfold aos_jrpc_client_free
  cases h : client.requests with
  | nil => simp
  | cons e rest => simp

/-- C11 on a registry whose only entry is Completed: the call returns 1 and the
client is intact. -/
theorem client_free_refuses_witness :
    aos_jrpc_client_free
        { requests := [{ future := none, id := 7, timer := 0 }],
          config := { maxrequests := 10, maxinputlen := 1000 } } =
      (1, some { requests := [{ future := none, id := 7, timer := 0 }],
                 config := { maxrequests := 10, maxinputlen := 1000 } }) :=
  (client_free_refuses
    { requests := [{ future := none, id := 7, timer := 0 }],
      config := { maxrequests := 10, maxinputlen := 1000 } }).1 (by decide)

/-! ## Facts about the single-request path -/

/-- A value accepted by the request validator is an object. -/
theorem isvalid_isObject (request : Option cJSON)
    (hvalid : _aos_jrpc_server_isvalid request = true) : cJSON_IsObject request = true := by
  cases request with
  | none => simp [_aos_jrpc_server_isvalid, cJSON_GetObjectItemCaseSensitive,
      cJSON_IsString] at hvalid
  | some v =>
    cases v <;>
      first
      | rfl
      | simp [_aos_jrpc_server_isvalid, cJSON_GetObjectItemCaseSensitive,
          cJSON_IsString] at hvalid

/-- The handler lookup does not depend on the counter. -/
theorem handler_get_counter_inc (server : aos_jrpc_server_t) (method : String) :
    _aos_jrpc_server_handler_get (counter_inc server) method =
      _aos_jrpc_server_handler_get server method := rfl

/-- A request at or above the limit is answered with the -32001 envelope, whose id is
`null`, whatever the request. -/
theorem request_handle_at_limit (env : request_env) (server : aos_jrpc_server_t)
    (request : Option cJSON) (hlimit : below_limit server = false) :
    _aos_jrpc_server_request_handle env server request =
      request_handle_err (counter_inc server)
        (alloc env.error_ok (aos_jrpc_message_error none (-32001) "Server error")) := by
  have h : (counter_inc server).config.maxrequests ≤ (counter_inc server).counter := by
    simpa [below_limit, counter_inc] using hlimit
  simp [_aos_jrpc_server_request_handle, h]

/-- Below the limit, a value rejected by the validator is answered with the -32600
envelope, whose id is `null`. -/
theorem request_handle_invalid (env : request_env) (server : aos_jrpc_server_t)
    (request : Option cJSON) (hlimit : below_limit server = true)
    (hinvalid : _aos_jrpc_server_isvalid request = false) :
    _aos_jrpc_server_request_handle env server request =
      request_handle_err (counter_inc server)
        (alloc env.error_ok (aos_jrpc_message_error none (-32600) "Invalid Request")) := by
  have h : ¬ (counter_inc server).config.maxrequests ≤ (counter_inc server).counter := by
    simpa [below_limit, counter_inc] using hlimit
  simp [_aos_jrpc_server_request_handle, h, hinvalid]

/-- Below the limit, a valid request whose method is not bound is answered with the
-32601 envelope carrying the duplicate of its id. -/
theorem request_handle_unbound (env : request_env) (server : aos_jrpc_server_t)
    (request : Option cJSON) (hlimit : below_limit server = true)
    (hvalid : _aos_jrpc_server_isvalid request = true)
    (hdup : env.dup_ok = true)
    (hunbound : _aos_jrpc_server_handler_get server
      (valuestring (cJSON_GetObjectItemCaseSensitive request "method")) = none) :
    _aos_jrpc_server_request_handle env server request =
      request_handle_err (counter_inc server)
        (alloc env.error_ok (aos_jrpc_message_error
          (cJSON_GetObjectItemCaseSensitive request "id") (-32601) "Method not found")) := by
  have h : ¬ (counter_inc server).config.maxrequests ≤ (counter_inc server).counter := by
    simpa [below_limit, counter_inc] using hlimit
  simp [_aos_jrpc_server_request_handle, h, hvalid, hdup, cJSON_Duplicate,
    handler_get_counter_inc, hunbound]
  intro h1 h2
  rw [h2] at h1
  simp at h1

/-- Below the limit, with the id, the context and the future allocated, a valid
request whose method is bound launches the bound handler with the request's `params`;
the context keeps the request's id. -/
theorem request_handle_launch (env : request_env) (server : aos_jrpc_server_t)
    (request : Option cJSON) (handler : Nat) (hlimit : below_limit server = true)
    (hvalid : _aos_jrpc_server_isvalid request = true)
    (hdup : env.dup_ok = true) (hctx : env.ctx_ok = true) (hfuture : env.future_ok = true)
    (hbound : _aos_jrpc_server_handler_get server
      (valuestring (cJSON_GetObjectItemCaseSensitive request "method")) = some handler) :
    _aos_jrpc_server_request_handle env server request =
      request_handle_result.launched (counter_inc server) handler
        (cJSON_GetObjectItemCaseSensitive request "params")
        { id := cJSON_GetObjectItemCaseSensitive request "id" } := by
  have h : ¬ (counter_inc server).config.maxrequests ≤ (counter_inc server).counter := by
    simpa [below_limit, counter_inc] using hlimit
  simp [_aos_jrpc_server_request_handle, h, hvalid, hdup, hctx, hfuture, cJSON_Duplicate,
    handler_get_counter_inc, hbound]
  intro h1 h2
  rw [h2] at h1
  simp at h1

/-! ## C12: the Result envelope -/

/-- C12. For a valid single request object carrying an id whose method is bound to a
handler that completes with `out_err = 0` and a result `r` (the server being below its
limit and the allocations succeeding), `aos_jrpc_server_call_json` resolves with
`out_err = 0` and the envelope with members, in order, `jsonrpc: "2.0"`, `id`: the
request's id, `result: r`, having invoked that handler once with the request's
`params`. -/
theorem call_json_result (handlers : Nat → handler_fn) (env : server_env)
    (server : aos_jrpc_server_t) (request id r : cJSON) (handler : Nat)
    (hlimit : below_limit server = true)
    (hvalid : _aos_jrpc_server_isvalid (some request) = true)
    (hid : cJSON_GetObjectItemCaseSensitive (some request) "id" = some id)
    (hbound : _aos_jrpc_server_handler_get server
      (valuestring (cJSON_GetObjectItemCaseSensitive (some request) "method")) =
        some handler)
    (hhandler : handlers handler (cJSON_GetObjectItemCaseSensitive (some request) "params") =
      (some r, AOS_JRPC_SERVER_ERR_OK))
    (hdup : (env.request 0).dup_ok = true) (hctx : (env.request 0).ctx_ok = true)
    (hfuture : (env.request 0).future_ok = true)
    (hresult : (env.request 0).result_ok = true) :
    ∃ res, aos_jrpc_server_call_json handlers env server (some request) = some res ∧
      res.out_err = 0 ∧
      res.out_response = some (cJSON.object
        [("jsonrpc", cJSON.string "2.0"), ("id", id), ("result", r)]) ∧
      res.invoked = [(handler, cJSON_GetObjectItemCaseSensitive (some request) "params")] := by
  have hobj := isvalid_isObject (some request) hvalid
  have hlaunch := request_handle_launch (env.request 0) server (some request) handler
    hlimit hvalid hdup hctx hfuture hbound
  refine ⟨request_handle_sync handlers (env.request 0) server (some request), ?_, ?_, ?_, ?_⟩
  · simp only [aos_jrpc_server_call_json, hobj, if_true]
  · simp [request_handle_sync, hlaunch, _aos_jrpc_server_request_handle_cb, hhandler, hid,
      AOS_JRPC_SERVER_ERR_OK, request_handle_cb_response, alloc, hresult,
      aos_jrpc_message_result]
  · simp [request_handle_sync, hlaunch, _aos_jrpc_server_request_handle_cb, hhandler, hid,
      AOS_JRPC_SERVER_ERR_OK, request_handle_cb_response, alloc, hresult,
      aos_jrpc_message_result]
  · simp [request_handle_sync, hlaunch]

/-- C12 on the request `{"jsonrpc":"2.0","method":"testHandler0","id":5}` with a
handler returning `0`: the response is `{"jsonrpc":"2.0","id":5,"result":0}`. -/
theorem call_json_result_witness :
    ∃ res, aos_jrpc_server_call_json (fun _ => test_handler0) server_env_ok
        (test_server false)
        (some (cJSON.object [("jsonrpc", cJSON.string "2.0"),
          ("method", cJSON.string "testHandler0"), ("id", cJSON.number 5)])) = some res ∧
      res.out_err = 0 ∧
      res.out_response = some (cJSON.object
        [("jsonrpc", cJSON.string "2.0"), ("id", cJSON.number 5),
          ("result", cJSON.number 0)]) ∧
      res.invoked = [(0, none)] :=
  call_json_result (fun _ => test_handler0) server_env_ok (test_server false)
    (cJSON.object [("jsonrpc", cJSON.string "2.0"),
      ("method", cJSON.string "testHandler0"), ("id", cJSON.number 5)])
    (cJSON.number 5) (cJSON.number 0) 0 rfl rfl rfl rfl rfl rfl rfl rfl rfl

/-! ## C13: method not found -/

/-- C13. For a valid request object whose method is not bound (the server being below
its limit and the allocations succeeding), the single-request path resolves the
caller's future at once, without launching a handler, with `out_err = 0` and the
envelope `jsonrpc: "2.0"`, `id`: the request's id (`null` when the request has none),
`error: {code: -32601, message: "Method not found"}`. -/
theorem request_handle_method_not_found (handlers : Nat → handler_fn) (env : request_env)
    (server : aos_jrpc_server_t) (request : cJSON)
    (hlimit : below_limit server = true)
    (hvalid : _aos_jrpc_server_isvalid (some request) = true)
    (hdup : env.dup_ok = true) (herror : env.error_ok = true)
    (hunbound : _aos_jrpc_server_handler_get server
      (valuestring (cJSON_GetObjectItemCaseSensitive (some request) "method")) = none) :
    _aos_jrpc_server_request_handle env server (some request) =
      request_handle_result.resolved (counter_dec (counter_inc server))
        (some (cJSON.object
          [("jsonrpc", cJSON.string "2.0"),
           ("id", (cJSON_GetObjectItemCaseSensitive (some request) "id").getD cJSON.null),
           ("error", cJSON.object
             [("code", cJSON.number (-32601)),
              ("message", cJSON.string "Method not found")])])) 0 ∧
    (request_handle_sync handlers env server (some request)).invoked = [] := by
  have h := request_handle_unbound env server (some request) hlimit hvalid hdup hunbound
  constructor
  · rw [h]
    cases hid : cJSON_GetObjectItemCaseSensitive (some request) "id" <;>
      simp [request_handle_err, alloc, herror, aos_jrpc_message_error]
  · simp [request_handle_sync, h, request_handle_err]

/-- C13 on the request `{"jsonrpc":"2.0","method":"missing","id":7}`. -/
theorem request_handle_method_not_found_witness :
    _aos_jrpc_server_request_handle request_env_ok (test_server false)
        (some (cJSON.object [("jsonrpc", cJSON.string "2.0"),
          ("method", cJSON.string "missing"), ("id", cJSON.number 7)])) =
      request_handle_result.resolved (test_server false)
        (some (cJSON.object
          [("jsonrpc", cJSON.string "2.0"), ("id", cJSON.number 7),
           ("error", cJSON.object
             [("code", cJSON.number (-32601)),
              ("message", cJSON.string "Method not found")])])) 0 :=
  (request_handle_method_not_found (fun _ => test_handler0) request_env_ok
    (test_server false)
    (cJSON.object [("jsonrpc", cJSON.string "2.0"),
      ("method", cJSON.string "missing"), ("id", cJSON.number 7)])
    rfl rfl rfl rfl rfl).1

/-! ## C14: invalid requests -/

/-- C14. `aos_jrpc_server_call_json` resolves with `out_err = 0` and the envelope
`jsonrpc: "2.0"`, `id: null`, `error: {code: -32600, message: "Invalid Request"}`,
without invoking a handler, for every value that is neither an object nor an array
and, the server being below its limit, for every object that the request validator
rejects; the validator rejects a request whose id is an array or an object and a
request whose `jsonrpc` is `"2.1"`. -/
theorem call_json_invalid_request (handlers : Nat → handler_fn) (env : server_env)
    (server : aos_jrpc_server_t) (data : Option cJSON) :
    (cJSON_IsObject data = false → cJSON_IsArray data = false → env.error_ok = true →
      aos_jrpc_server_call_json handlers env server data =
        some { server := server,
               out_response := some (cJSON.object
                 [("jsonrpc", cJSON.string "2.0"), ("id", cJSON.null),
                  ("error", cJSON.object
                    [("code", cJSON.number (-32600)),
                     ("message", cJSON.string "Invalid Request")])]),
               out_err := 0, invoked := [] }) ∧
    (cJSON_IsObject data = true → _aos_jrpc_server_isvalid data = false →
      below_limit server = true → (env.request 0).error_ok = true →
      aos_jrpc_server_call_json handlers env server data =
        some { server := counter_dec (counter_inc server),
               out_response := some (cJSON.object
                 [("jsonrpc", cJSON.string "2.0"), ("id", cJSON.null),
                  ("error", cJSON.object
                    [("code", cJSON.number (-32600)),
                     ("message", cJSON.string "Invalid Request")])]),
               out_err := 0, invoked := [] }) ∧
    _aos_jrpc_server_isvalid (some (cJSON.object [("jsonrpc", cJSON.string "2.0"),
      ("method", cJSON.string "testHandler0"), ("id", cJSON.array [])])) = false ∧
    _aos_jrpc_server_isvalid (some (cJSON.object [("jsonrpc", cJSON.string "2.0"),
      ("method", cJSON.string "testHandler0"), ("id", cJSON.object [])])) = false ∧
    _aos_jrpc_server_isvalid (some (cJSON.object [("jsonrpc", cJSON.string "2.1"),
      ("method", cJSON.string "testHandler0"), ("id", cJSON.number 3)])) = false := by
  refine ⟨?_, ?_, by decide, by decide, by decide⟩
  · intro hobj harr herror
    simp [aos_jrpc_server_call_json, hobj, harr, resolve_with, alloc, herror,
      aos_jrpc_message_error]
  · intro hobj hinvalid hlimit herror
    have h := request_handle_invalid (env.request 0) server data hlimit hinvalid
    simp [aos_jrpc_server_call_json, hobj, request_handle_sync, h, request_handle_err,
      alloc, herror, aos_jrpc_message_error]

/-- C14 on the number `1` and on the request
`{"jsonrpc":"2.0","method":"testHandler0","id":[]}`. -/
theorem call_json_invalid_request_witness :
    aos_jrpc_server_call_json (fun _ => test_handler0) server_env_ok (test_server false)
        (some (cJSON.number 1)) =
      some { server := test_server false,
             out_response := some (cJSON.object
               [("jsonrpc", cJSON.string "2.0"), ("id", cJSON.null),
                ("error", cJSON.object
                  [("code", cJSON.number (-32600)),
                   ("message", cJSON.string "Invalid Request")])]),
             out_err := 0, invoked := [] } ∧
    aos_jrpc_server_call_json (fun _ => test_handler0) server_env_ok (test_server false)
        (some (cJSON.object [("jsonrpc", cJSON.string "2.0"),
          ("method", cJSON.string "testHandler0"), ("id", cJSON.array [])])) =
      some { server := test_server false,
             out_response := some (cJSON.object
               [("jsonrpc", cJSON.string "2.0"), ("id", cJSON.null),
                ("error", cJSON.object
                  [("code", cJSON.number (-32600)),
                   ("message", cJSON.string "Invalid Request")])]),
             out_err := 0, invoked := [] } :=
  ⟨(call_json_invalid_request (fun _ => test_handler0) server_env_ok (test_server false)
      (some (cJSON.number 1))).1 rfl rfl rfl,
   (call_json_invalid_request (fun _ => test_handler0) server_env_ok (test_server false)
      (some (cJSON.object [("jsonrpc", cJSON.string "2.0"),
        ("method", cJSON.string "testHandler0"), ("id", cJSON.array [])]))).2.1
      rfl (by decide) rfl rfl⟩

/-! ## C15: handler errors -/

/-- C15. When the handler of a request carrying an id resolves its future with
`out_err = AOS_JRPC_SERVER_ERR_INVALIDPARAMS`, the callback resolves the caller's
future with `out_err = 0` and the envelope `jsonrpc: "2.0"`, `id`: the request's id,
`error: {code: -32602, message: "Invalid params"}`; with any other non-zero `out_err`
the envelope carries the same id, code -32603 and message `"Internal error"`. -/
theorem request_handle_cb_handler_error (env : request_env) (server : aos_jrpc_server_t)
    (id : cJSON) (out_result : Option cJSON) (out_err : Nat)
    (herror : env.error_ok = true) (hne : out_err ≠ AOS_JRPC_SERVER_ERR_OK) :
    _aos_jrpc_server_request_handle_cb env server { id := some id } out_result out_err =
      (counter_dec server,
        some (cJSON.object
          [("jsonrpc", cJSON.string "2.0"), ("id", id),
           ("error", cJSON.object
             (if out_err = AOS_JRPC_SERVER_ERR_INVALIDPARAMS then
               [("code", cJSON.number (-32602)), ("message", cJSON.string "Invalid params")]
              else
               [("code", cJSON.number (-32603)),
                ("message", cJSON.string "Internal error")]))]),
        0) := by
  match out_err, hne with
  | 0, h => exact absurd rfl h
  | 1, _ =>
    simp [_aos_jrpc_server_request_handle_cb, request_handle_cb_response, alloc, herror,
      aos_jrpc_message_error, AOS_JRPC_SERVER_ERR_INVALIDPARAMS]
  | n + 2, _ =>
    simp [_aos_jrpc_server_request_handle_cb, request_handle_cb_response, alloc, herror,
      aos_jrpc_message_error, AOS_JRPC_SERVER_ERR_INVALIDPARAMS]

/-- C15 for a request of id 5 whose handler reports invalid parameters, one handler
being in flight. -/
theorem request_handle_cb_handler_error_witness :
    _aos_jrpc_server_request_handle_cb request_env_ok
        { config := { maxrequests := 10, maxinputlen := 500, parallel := false },
          handlers := [{ method := "testHandler1", handler := 1 }], counter := 1 }
        { id := some (cJSON.number 5) } none 1 =
      ({ config := { maxrequests := 10, maxinputlen := 500, parallel := false },
         handlers := [{ method := "testHandler1", handler := 1 }], counter := 0 },
        some (cJSON.object
          [("jsonrpc", cJSON.string "2.0"), ("id", cJSON.number 5),
           ("error", cJSON.object
             [("code", cJSON.number (-32602)),
              ("message", cJSON.string "Invalid params")])]),
        0) :=
  request_handle_cb_handler_error request_env_ok
    { config := { maxrequests := 10, maxinputlen := 500, parallel := false },
      handlers := [{ method := "testHandler1", handler := 1 }], counter := 1 }
    (cJSON.number 5) none 1 rfl (by decide)

/-! ## C16 and C17: the request limit of the server -/

/-- C16 fails.  With `maxrequests = 1` and nothing in flight, the valid request
`{"jsonrpc":"2.0","method":"testHandler0","id":5}` to a bound handler is not
dispatched: the counter, once incremented, is 1, the test `counter >= maxrequests`
holds, and the call resolves with the -32001 envelope without invoking the
handler. -/
theorem call_json_rejects_first_request :
    aos_jrpc_server_call_json (fun _ => test_handler0) server_env_ok
        { config := { maxrequests := 1, maxinputlen := 500, parallel := false },
          handlers := [{ method := "testHandler0", handler := 0 }], counter := 0 }
        (some (cJSON.object [("jsonrpc", cJSON.string "2.0"),
          ("method", cJSON.string "testHandler0"), ("id", cJSON.number 5)])) =
      some { server :=
               { config := { maxrequests := 1, maxinputlen := 500, parallel := false },
                 handlers := [{ method := "testHandler0", handler := 0 }], counter := 0 },
             out_response := some (cJSON.object
               [("jsonrpc", cJSON.string "2.0"), ("id", cJSON.null),
                ("error", cJSON.object
                  [("code", cJSON.number (-32001)),
                   ("message", cJSON.string "Server error")])]),
             out_err := 0, invoked := [] } := by
  rfl

/-- C17 fails for -32001.  With `maxrequests = 10` and nine handlers in flight, the
valid request `{"jsonrpc":"2.0","method":"testHandler0","id":5}` is answered with
the -32001 envelope, whose `id` member is `null` and not 5: the envelope is built
before the request's id is read. -/
theorem too_many_requests_envelope_id_null :
    _aos_jrpc_server_request_handle request_env_ok
        { config := { maxrequests := 10, maxinputlen := 500, parallel := false },
          handlers := [{ method := "testHandler0", handler := 0 }], counter := 9 }
        (some (cJSON.object [("jsonrpc", cJSON.string "2.0"),
          ("method", cJSON.string "testHandler0"), ("id", cJSON.number 5)])) =
      request_handle_result.resolved
        { config := { maxrequests := 10, maxinputlen := 500, parallel := false },
          handlers := [{ method := "testHandler0", handler := 0 }], counter := 9 }
        (some (cJSON.object
          [("jsonrpc", cJSON.string "2.0"), ("id", cJSON.null),
           ("error", cJSON.object
             [("code", cJSON.number (-32001)),
              ("message", cJSON.string "Server error")])])) 0 := by
  rfl

/-! ## Facts about batches -/

/-- The single-request path either resolves the caller's future, the counter being
back where it was, or launches a handler, the counter being incremented; with the
error envelopes allocated it never resolves with `out_err` set. -/
theorem request_handle_cases (env : request_env) (server : aos_jrpc_server_t)
    (request : Option cJSON) :
    (∃ r e, _aos_jrpc_server_request_handle env server request =
        request_handle_result.resolved (settled server) r e ∧
        (env.error_ok = true → e = 0)) ∨
    (∃ h p c, _aos_jrpc_server_request_handle env server request =
        request_handle_result.launched (counter_inc server) h p c) := by
  unfold _aos_jrpc_server_request_handle
  simp only []
  split
  · exact Or.inl ⟨_, _, rfl, fun h => by simp [alloc, h, aos_jrpc_message_error]⟩
  · split
    · exact Or.inl ⟨_, _, rfl, fun h => by simp [alloc, h, aos_jrpc_message_error]⟩
    · split
      · exact Or.inl ⟨_, _, rfl, fun h => by simp [alloc, h, aos_jrpc_message_error]⟩
      · split
        · exact Or.inl ⟨_, _, rfl, fun h => by simp [alloc, h, aos_jrpc_message_error]⟩
        · split
          · exact Or.inl ⟨_, _, rfl, fun h => by simp [alloc, h, aos_jrpc_message_error]⟩
          · split
            · exact Or.inl ⟨_, _, rfl, fun h => by simp [alloc, h, aos_jrpc_message_error]⟩
            · exact Or.inr ⟨_, _, _, rfl⟩

/-- With the error envelopes allocated, the handler-completion callback builds a
response for every request with an id. -/
theorem request_handle_cb_response_isSome (env : request_env) (id out_result : Option cJSON)
    (out_err : Nat) (herror : env.error_ok = true) :
    (request_handle_cb_response env id out_result out_err).isSome = true := by
  unfold request_handle_cb_response
  split
  · split
    · rfl
    · simp [alloc, herror, aos_jrpc_message_error]
  · simp [alloc, herror, aos_jrpc_message_error]
  · simp [alloc, herror, aos_jrpc_message_error]

/-- With handlers completing inside their invocation, the single-request path leaves
the counter as one increment and one decrement make it. -/
theorem request_handle_sync_server (handlers : Nat → handler_fn) (env : request_env)
    (server : aos_jrpc_server_t) (request : Option cJSON) :
    (request_handle_sync handlers env server request).server = settled server := by
  rcases request_handle_cases env server request with ⟨r, e, h, _⟩ | ⟨h', p, c, h⟩
  · simp [request_handle_sync, h]
  · simp only [request_handle_sync, h, _aos_jrpc_server_request_handle_cb]
    split <;> rfl

/-- With the error envelopes allocated, the single-request path never resolves with
`out_err` set. -/
theorem request_handle_sync_out_err (handlers : Nat → handler_fn) (env : request_env)
    (server : aos_jrpc_server_t) (request : Option cJSON) (herror : env.error_ok = true) :
    (request_handle_sync handlers env server request).out_err = 0 := by
  rcases request_handle_cases env server request with ⟨r, e, h, he⟩ | ⟨h', p, c, h⟩
  · simp [request_handle_sync, h, he herror]
  · simp only [request_handle_sync, h, _aos_jrpc_server_request_handle_cb]
    split
    · rfl
    · simp [request_handle_cb_response_isSome env _ _ _ herror]

/-- Incrementing then decrementing a `uint32_t` gives back its value. -/
theorem dec_inc_mod (c : Nat) :
    ((c + 1) % 4294967296 + 4294967295) % 4294967296 = c % 4294967296 := by
  rw [Nat.mod_add_mod, Nat.add_assoc]
  norm_num

/-- Incrementing a reduced `uint32_t` is incrementing the value. -/
theorem inc_mod_mod (c : Nat) :
    (c % 4294967296 + 1) % 4294967296 = (c + 1) % 4294967296 := by
  rw [Nat.mod_add_mod]

/-- One more request leaves a settled server settled. -/
theorem settled_settled (server : aos_jrpc_server_t) :
    settled (settled server) = settled server := by
  simp only [settled, counter_dec, counter_inc, dec_inc_mod, inc_mod_mod]

/-- The gate of the limit does not tell a server from its settled state. -/
theorem below_limit_settled (server : aos_jrpc_server_t) :
    below_limit (settled server) = below_limit server := by
  simp only [below_limit, settled, counter_dec, counter_inc, dec_inc_mod, inc_mod_mod]

/-- The handler lookup does not tell a server from its settled state. -/
theorem handler_get_settled (server : aos_jrpc_server_t) (method : String) :
    _aos_jrpc_server_handler_get (settled server) method =
      _aos_jrpc_server_handler_get server method := by
  simp only [_aos_jrpc_server_handler_get, settled, counter_dec, counter_inc]

/-- A notification that succeeds on a server succeeds on its settled state. -/
theorem ok_notification_settled (handlers : Nat → handler_fn) (server : aos_jrpc_server_t)
    (item : cJSON) (h : ok_notification handlers server item) :
    ok_notification handlers (settled server) item := by
  obtain ⟨hvalid, hid, handler, hbound, hzero⟩ := h
  exact ⟨hvalid, hid, handler, by rw [handler_get_settled]; exact hbound, hzero⟩

/-- A notification that succeeds, below the limit, runs its handler and resolves with
no response and no error. -/
theorem request_handle_sync_notification (handlers : Nat → handler_fn) (env : request_env)
    (server : aos_jrpc_server_t) (item : cJSON)
    (hlimit : below_limit server = true) (hok : ok_notification handlers server item)
    (hctx : env.ctx_ok = true) (hfuture : env.future_ok = true) :
    (request_handle_sync handlers env server (some item)).out_response = none ∧
    (request_handle_sync handlers env server (some item)).out_err = 0 := by
  obtain ⟨hvalid, hid, handler, hbound, hzero⟩ := hok
  have h : ¬ (counter_inc server).config.maxrequests ≤ (counter_inc server).counter := by
    simpa [below_limit, counter_inc] using hlimit
  have hlaunch : _aos_jrpc_server_request_handle env server (some item) =
      request_handle_result.launched (counter_inc server) handler
        (cJSON_GetObjectItemCaseSensitive (some item) "params") { id := none } := by
    simp [_aos_jrpc_server_request_handle, h, hvalid, hid, hctx, hfuture, cJSON_Duplicate,
      handler_get_counter_inc, hbound]
  simp [request_handle_sync, hlaunch, _aos_jrpc_server_request_handle_cb, hzero]

/-- The sequential callback chain over notifications that succeed: whatever the
number of sub-requests left, the batch resolves with no response and no error. -/
theorem sequential_cb_notifications (handlers : Nat → handler_fn) (env : server_env)
    (s : aos_jrpc_server_t) (hlimit : below_limit s = true)
    (hfuture : ∀ i, env.future_ok i = true)
    (hrctx : ∀ i, (env.request i).ctx_ok = true)
    (hrfuture : ∀ i, (env.request i).future_ok = true) :
    ∀ (request : List cJSON) (i : Nat) (invoked : List (Nat × Option cJSON))
      (sub : call_result),
      (∀ x ∈ request, ok_notification handlers s x) →
      sub.server = settled s → sub.out_response = none → sub.out_err = 0 →
      (_aos_jrpc_server_batch_handle_sequential_cb handlers env request.length i request
          none invoked sub).out_response = none ∧
      (_aos_jrpc_server_batch_handle_sequential_cb handlers env request.length i request
          none invoked sub).out_err = 0 := by
  intro request
  induction request with
  | nil =>
    intro i invoked sub _ _ hresp herr
    unfold _aos_jrpc_server_batch_handle_sequential_cb
    simp [herr, hresp, batch_append]
  | cons x rest ih =>
    intro i invoked sub hok hserver hresp herr
    have hx : ok_notification handlers (settled s) x :=
      ok_notification_settled handlers s x (hok x (List.mem_cons_self x rest))
    have hlimit' : below_limit (settled s) = true := by
      rw [below_limit_settled]; exact hlimit
    have hnext := request_handle_sync_notification handlers (env.request (i + 1))
      (settled s) x hlimit' hx (hrctx (i + 1)) (hrfuture (i + 1))
    have hnext_server := request_handle_sync_server handlers (env.request (i + 1))
      (settled s) (some x)
    rw [settled_settled] at hnext_server
    have hrec := ih (i + 1) (invoked ++ sub.invoked)
      (request_handle_sync handlers (env.request (i + 1)) (settled s) (some x))
      (fun y hy => hok y (List.mem_cons_of_mem x hy)) hnext_server hnext.1 hnext.2
    unfold _aos_jrpc_server_batch_handle_sequential_cb
    simp only [herr, hresp, batch_append, hfuture, hserver, List.length_cons,
      List.head?_cons, List.tail_cons]
    simpa using hrec

/-- The parallel callback on a notification while nothing has failed and no response
has arrived: the counter goes down by one, and the batch is resolved with no response
when it reaches zero. -/
theorem parallel_cb_notification (env : server_env)
    (ctx : _aos_jrpc_server_batch_handle_parallel_ctx_t)
    (hfail : ctx.fail = false) (hacc : ctx.acc = none) :
    _aos_jrpc_server_batch_handle_parallel_cb env ctx none 0 =
      if ctx.counter - 1 = 0 then
        { counter := ctx.counter - 1, fail := false, acc := none,
          resolution := some (none, 0) }
      else
        { counter := ctx.counter - 1, fail := false, acc := none,
          resolution := ctx.resolution } := by
  cases ctx with
  | mk counter fail acc resolution =>
    simp only at hfail hacc
    subst hfail hacc
    by_cases h : counter - 1 = 0 <;>
      simp [_aos_jrpc_server_batch_handle_parallel_cb, batch_append, h]

/-- The launch loop of the parallel variant over notifications that succeed: when the
counter equals the number of sub-requests still to launch, the batch ends resolved
with no response and no error. -/
theorem parallel_launch_notifications (handlers : Nat → handler_fn) (env : server_env)
    (hrctx : ∀ i, (env.request i).ctx_ok = true)
    (hrfuture : ∀ i, (env.request i).future_ok = true) :
    ∀ (items : List cJSON) (i : Nat) (s : aos_jrpc_server_t)
      (ctx : _aos_jrpc_server_batch_handle_parallel_ctx_t)
      (invoked : List (Nat × Option cJSON)),
      items ≠ [] → below_limit s = true →
      (∀ x ∈ items, ok_notification handlers s x) →
      ctx.counter = items.length → ctx.fail = false → ctx.acc = none →
      (parallel_launch handlers env items i s ctx invoked).2.1.resolution =
        some (none, 0) := by
  intro items
  induction items with
  | nil => intro i s ctx invoked hne; exact absurd rfl hne
  | cons x rest ih =>
    intro i s ctx invoked _ hlimit hok hcounter hfail hacc
    have hsub := request_handle_sync_notification handlers (env.request i) s x hlimit
      (hok x (List.mem_cons_self x rest)) (hrctx i) (hrfuture i)
    have hserver := request_handle_sync_server handlers (env.request i) s (some x)
    have hcb := parallel_cb_notification env ctx hfail hacc
    have hc : ctx.counter - 1 = rest.length := by
      rw [hcounter]; simp
    simp only [parallel_launch, hsub.1, hsub.2, hcb, hc, hserver]
    cases rest with
    | nil => simp [parallel_launch]
    | cons y rest' =>
      have hlimit' : below_limit (settled s) = true := by
        rw [below_limit_settled]; exact hlimit
      have hrec := ih (i + 1) (settled s)
        { counter := (y :: rest').length, fail := false, acc := none,
          resolution := ctx.resolution }
        (invoked ++ (request_handle_sync handlers (env.request i) s (some x)).invoked)
        (by simp) hlimit'
        (fun z hz => ok_notification_settled handlers s z
          (hok z (List.mem_cons_of_mem x hz))) rfl rfl rfl
      simpa using hrec

/-! ## C18: notifications produce no response -/

/-- C18. Let every element of a non-empty list be a notification that succeeds (a
valid request object without id whose handler completes with `out_err = 0`), the
server being below its limit and the contexts and futures being allocated.  Then the
first of them, sent alone, resolves `aos_jrpc_server_call_json` with no response
(`out_response` is `NULL`) and `out_err = 0`; and the batch made of all of them does
the same in the sequential variant and in the parallel variant. -/
theorem notification_no_response (handlers : Nat → handler_fn) (env : server_env)
    (server : aos_jrpc_server_t) (item : cJSON) (rest : List cJSON)
    (hlimit : below_limit server = true)
    (hok : ∀ x ∈ item :: rest, ok_notification handlers server x)
    (hctx : env.ctx_ok = true) (hfutures : env.futures_ok = true)
    (hfuture : ∀ i, env.future_ok i = true)
    (hrctx : ∀ i, (env.request i).ctx_ok = true)
    (hrfuture : ∀ i, (env.request i).future_ok = true) :
    (∃ res, aos_jrpc_server_call_json handlers env server (some item) = some res ∧
      res.out_response = none ∧ res.out_err = 0) ∧
    ((_aos_jrpc_server_batch_handle_sequential handlers env server
        (some (cJSON.array (item :: rest)))).out_response = none ∧
      (_aos_jrpc_server_batch_handle_sequential handlers env server
        (some (cJSON.array (item :: rest)))).out_err = 0) ∧
    (∃ res, _aos_jrpc_server_batch_handle_parallel handlers env server
        (some (cJSON.array (item :: rest))) = some res ∧
      res.out_response = none ∧ res.out_err = 0) := by
  have hitem := hok item (List.mem_cons_self item rest)
  have hsub := request_handle_sync_notification handlers (env.request 0) server item
    hlimit hitem (hrctx 0) (hrfuture 0)
  refine ⟨?_, ?_, ?_⟩
  · have hobj := isvalid_isObject (some item) hitem.1
    exact ⟨request_handle_sync handlers (env.request 0) server (some item),
      by simp only [aos_jrpc_server_call_json, hobj, if_true], hsub.1, hsub.2⟩
  · have hseq := sequential_cb_notifications handlers env server hlimit hfuture hrctx
      hrfuture rest 0 []
      (request_handle_sync handlers (env.request 0) server (some item))
      (fun x hx => hok x (List.mem_cons_of_mem item hx))
      (request_handle_sync_server handlers (env.request 0) server (some item))
      hsub.1 hsub.2
    simpa [_aos_jrpc_server_batch_handle_sequential, cJSON_GetArraySize, children, hctx,
      hfuture] using hseq
  · have hpar := parallel_launch_notifications handlers env hrctx hrfuture (item :: rest) 0
      server
      { counter := (item :: rest).length, fail := false, acc := none, resolution := none }
      [] (by simp) hlimit hok rfl rfl rfl
    have hany : (List.range (rest.length + 1)).any (fun i => !env.future_ok i) = false := by
      simp [hfuture]
    simp only [_aos_jrpc_server_batch_handle_parallel, cJSON_GetArraySize, children,
      List.length_cons, hctx, hfutures, hany]
    simp only [List.length_cons] at hpar
    simp [hpar]

/-- C18 on the test server, for the notification
`{"jsonrpc":"2.0","method":"testHandler0"}` alone and for the batch of two such
notifications, in both variants. -/
theorem notification_no_response_witness :
    (∃ res, aos_jrpc_server_call_json (fun _ => test_handler0) server_env_ok
        (test_server false)
        (some (cJSON.object [("jsonrpc", cJSON.string "2.0"),
          ("method", cJSON.string "testHandler0")])) = some res ∧
      res.out_response = none ∧ res.out_err = 0) ∧
    ((_aos_jrpc_server_batch_handle_sequential (fun _ => test_handler0) server_env_ok
        (test_server false)
        (some (cJSON.array
          [cJSON.object [("jsonrpc", cJSON.string "2.0"),
            ("method", cJSON.string "testHandler0")],
           cJSON.object [("jsonrpc", cJSON.string "2.0"),
            ("method", cJSON.string "testHandler0")]]))).out_response = none ∧
      (_aos_jrpc_server_batch_handle_sequential (fun _ => test_handler0) server_env_ok
        (test_server false)
        (some (cJSON.array
          [cJSON.object [("jsonrpc", cJSON.string "2.0"),
            ("method", cJSON.string "testHandler0")],
           cJSON.object [("jsonrpc", cJSON.string "2.0"),
            ("method", cJSON.string "testHandler0")]]))).out_err = 0) ∧
    (∃ res, _aos_jrpc_server_batch_handle_parallel (fun _ => test_handler0) server_env_ok
        (test_server false)
        (some (cJSON.array
          [cJSON.object [("jsonrpc", cJSON.string "2.0"),
            ("method", cJSON.string "testHandler0")],
           cJSON.object [("jsonrpc", cJSON.string "2.0"),
            ("method", cJSON.string "testHandler0")]])) = some res ∧
      res.out_response = none ∧ res.out_err = 0) :=
  notification_no_response (fun _ => test_handler0) server_env_ok (test_server false)
    (cJSON.object [("jsonrpc", cJSON.string "2.0"),
      ("method", cJSON.string "testHandler0")])
    [cJSON.object [("jsonrpc", cJSON.string "2.0"),
      ("method", cJSON.string "testHandler0")]]
    rfl
    (by
      intro x hx
      have hx' : x = cJSON.object [("jsonrpc", cJSON.string "2.0"),
          ("method", cJSON.string "testHandler0")] := by
        simpa using hx
      subst hx'
      exact ⟨by decide, rfl, 0, rfl, rfl⟩)
    rfl rfl (fun _ => rfl) (fun _ => rfl) (fun _ => rfl)

/-! ## C19: order of the sequential batch -/

/-- Appending a sub-response to the batch response array, the array being allocated,
appends it to the responses collected so far. -/
theorem batch_append_acc (l : List cJSON) (out_response : Option cJSON) :
    batch_append true (batch_acc l) out_response =
      some (batch_acc (l ++ out_response.toList)) := by
  cases out_response with
  | none => simp [batch_append]
  | some r =>
    cases l with
    | nil => simp [batch_append, batch_acc]
    | cons a l' => simp [batch_append, batch_acc]

/-- The array built from the collected items is the batch response. -/
theorem batch_acc_response (l : List cJSON) :
    (batch_acc l).map cJSON.array = batch_response l := by
  cases l <;> rfl

/-- The sequential callback chain: with `l` the responses collected before the
sub-request at position `i` resolved as `sub`, the batch resolves without error with
`l`, then the response of `sub` if any, then the responses of the single-request path
on the items left, in order. -/
theorem sequential_cb_responses (handlers : Nat → handler_fn) (env : server_env)
    (hfuture : ∀ i, env.future_ok i = true) (harray : env.array_ok = true)
    (herror : ∀ i, (env.request i).error_ok = true) :
    ∀ (request : List cJSON) (i : Nat) (l : List cJSON)
      (invoked : List (Nat × Option cJSON)) (sub : call_result),
      sub.out_err = 0 →
      (_aos_jrpc_server_batch_handle_sequential_cb handlers env request.length i request
          (batch_acc l) invoked sub).out_err = 0 ∧
      (_aos_jrpc_server_batch_handle_sequential_cb handlers env request.length i request
          (batch_acc l) invoked sub).out_response =
        batch_response (l ++ sub.out_response.toList ++
          single_path_responses handlers env.request (i + 1) sub.server request) := by
  intro request
  induction request with
  | nil =>
    intro i l invoked sub herr
    unfold _aos_jrpc_server_batch_handle_sequential_cb
    simp [herr, harray, batch_append_acc, batch_acc_response, single_path_responses]
  | cons x rest ih =>
    intro i l invoked sub herr
    have hrec := ih (i + 1) (l ++ sub.out_response.toList) (invoked ++ sub.invoked)
      (request_handle_sync handlers (env.request (i + 1)) sub.server (some x))
      (request_handle_sync_out_err handlers (env.request (i + 1)) sub.server (some x)
        (herror (i + 1)))
    unfold _aos_jrpc_server_batch_handle_sequential_cb
    simp only [herr, harray, batch_append_acc, hfuture, List.length_cons, List.head?_cons,
      List.tail_cons]
    simpa [single_path_responses, List.append_assoc] using hrec

/-- C19. For every non-empty batch, the sequential variant with handlers that
complete inside their invocation (contexts, futures, the response array and the error
envelopes being allocated) resolves without error, and its response holds exactly the
responses obtained by running the single-request path on each sub-request in input
order, the sub-requests without response being dropped: it is the array of these
responses, in that order, and it is absent when there are none. -/
theorem sequential_batch_order (handlers : Nat → handler_fn) (env : server_env)
    (server : aos_jrpc_server_t) (item : cJSON) (rest : List cJSON)
    (hctx : env.ctx_ok = true) (hfuture : ∀ i, env.future_ok i = true)
    (harray : env.array_ok = true) (herror : ∀ i, (env.request i).error_ok = true) :
    (_aos_jrpc_server_batch_handle_sequential handlers env server
        (some (cJSON.array (item :: rest)))).out_err = 0 ∧
    (_aos_jrpc_server_batch_handle_sequential handlers env server
        (some (cJSON.array (item :: rest)))).out_response =
      batch_response
        (single_path_responses handlers env.request 0 server (item :: rest)) := by
  have h := sequential_cb_responses handlers env hfuture harray herror rest 0 [] []
    (request_handle_sync handlers (env.request 0) server (some item))
    (request_handle_sync_out_err handlers (env.request 0) server (some item) (herror 0))
  simpa [_aos_jrpc_server_batch_handle_sequential, cJSON_GetArraySize, children, hctx,
    hfuture, batch_acc, single_path_responses] using h

/-- C19 on the batch made of the request of id 1 to `testHandler0` and of a
notification to `testHandler0`: the response is `[{"jsonrpc":"2.0","id":1,"result":0}]`. -/
theorem sequential_batch_order_witness :
    (_aos_jrpc_server_batch_handle_sequential (fun _ => test_handler0) server_env_ok
        (test_server false)
        (some (cJSON.array
          [cJSON.object [("jsonrpc", cJSON.string "2.0"),
            ("method", cJSON.string "testHandler0"), ("id", cJSON.number 1)],
           cJSON.object [("jsonrpc", cJSON.string "2.0"),
            ("method", cJSON.string "testHandler0")]]))).out_response =
      some (cJSON.array
        [cJSON.object [("jsonrpc", cJSON.string "2.0"), ("id", cJSON.number 1),
          ("result", cJSON.number 0)]]) :=
  (sequential_batch_order (fun _ => test_handler0) server_env_ok (test_server false)
    (cJSON.object [("jsonrpc", cJSON.string "2.0"),
      ("method", cJSON.string "testHandler0"), ("id", cJSON.number 1)])
    [cJSON.object [("jsonrpc", cJSON.string "2.0"),
      ("method", cJSON.string "testHandler0")]]
    rfl (fun _ => rfl) rfl (fun _ => rfl)).2

/-! ## C20: the empty batch -/

/-- C20. On the empty array, the error envelope being allocated, the sequential and
the parallel batch path, and hence `aos_jrpc_server_call_json` whatever the
configuration, resolve with `out_err = 0` and the single envelope `jsonrpc: "2.0"`,
`id: null`, `error: {code: -32600, message: "Invalid Request"}`, which is not an
array; no handler is invoked and the server, its counter included, is unchanged. -/
theorem empty_batch_invalid_request (handlers : Nat → handler_fn) (env : server_env)
    (server : aos_jrpc_server_t) (herror : env.error_ok = true) :
    _aos_jrpc_server_batch_handle_sequential handlers env server (some (cJSON.array [])) =
      { server := server,
        out_response := some (cJSON.object
          [("jsonrpc", cJSON.string "2.0"), ("id", cJSON.null),
           ("error", cJSON.object
             [("code", cJSON.number (-32600)),
              ("message", cJSON.string "Invalid Request")])]),
        out_err := 0, invoked := [] } ∧
    _aos_jrpc_server_batch_handle_parallel handlers env server (some (cJSON.array [])) =
      some { server := server,
             out_response := some (cJSON.object
               [("jsonrpc", cJSON.string "2.0"), ("id", cJSON.null),
                ("error", cJSON.object
                  [("code", cJSON.number (-32600)),
                   ("message", cJSON.string "Invalid Request")])]),
             out_err := 0, invoked := [] } ∧
    aos_jrpc_server_call_json handlers env server (some (cJSON.array [])) =
      some { server := server,
             out_response := some (cJSON.object
               [("jsonrpc", cJSON.string "2.0"), ("id", cJSON.null),
                ("error", cJSON.object
                  [("code", cJSON.number (-32600)),
                   ("message", cJSON.string "Invalid Request")])]),
             out_err := 0, invoked := [] } := by
  have hseq : _aos_jrpc_server_batch_handle_sequential handlers env server
      (some (cJSON.array [])) =
      { server := server,
        out_response := some (cJSON.object
          [("jsonrpc", cJSON.string "2.0"), ("id", cJSON.null),
           ("error", cJSON.object
             [("code", cJSON.number (-32600)),
              ("message", cJSON.string "Invalid Request")])]),
        out_err := 0, invoked := [] } := by
    simp [_aos_jrpc_server_batch_handle_sequential, cJSON_GetArraySize, children,
      resolve_with, alloc, herror, aos_jrpc_message_error]
  have hpar : _aos_jrpc_server_batch_handle_parallel handlers env server
      (some (cJSON.array [])) =
      some { server := server,
             out_response := some (cJSON.object
               [("jsonrpc", cJSON.string "2.0"), ("id", cJSON.null),
                ("error", cJSON.object
                  [("code", cJSON.number (-32600)),
                   ("message", cJSON.string "Invalid Request")])]),
             out_err := 0, invoked := [] } := by
    simp [_aos_jrpc_server_batch_handle_parallel, cJSON_GetArraySize, children,
      resolve_with, alloc, herror, aos_jrpc_message_error]
  refine ⟨hseq, hpar, ?_⟩
  cases hp : server.config.parallel <;>
    simp [aos_jrpc_server_call_json, cJSON_IsObject, cJSON_IsArray, hp, hseq, hpar]

/-- C20 on the test server with three handlers in flight, in the parallel
configuration: the counter is still 3 afterwards. -/
theorem empty_batch_invalid_request_witness :
    aos_jrpc_server_call_json (fun _ => test_handler0) server_env_ok
        { config := { maxrequests := 10, maxinputlen := 500, parallel := true },
          handlers := [{ method := "testHandler0", handler := 0 }], counter := 3 }
        (some (cJSON.array [])) =
      some { server :=
               { config := { maxrequests := 10, maxinputlen := 500, parallel := true },
                 handlers := [{ method := "testHandler0", handler := 0 }], counter := 3 },
             out_response := some (cJSON.object
               [("jsonrpc", cJSON.string "2.0"), ("id", cJSON.null),
                ("error", cJSON.object
                  [("code", cJSON.number (-32600)),
                   ("message", cJSON.string "Invalid Request")])]),
             out_err := 0, invoked := [] } :=
  (empty_batch_invalid_request (fun _ => test_handler0) server_env_ok
    { config := { maxrequests := 10, maxinputlen := 500, parallel := true },
      handlers := [{ method := "testHandler0", handler := 0 }], counter := 3 } rfl).2.2

/-! ## The parallel batch in input order -/

/-- The parallel callback on a sub-request that resolved without error, while nothing
has failed and `l` holds the responses collected so far: the response, if any, is
appended, the counter goes down by one, and the batch is resolved with the collected
responses when it reaches zero. -/
theorem parallel_cb_ok (env : server_env)
    (ctx : _aos_jrpc_server_batch_handle_parallel_ctx_t) (l : List cJSON)
    (out_response : Option cJSON) (harray : env.array_ok = true)
    (hfail : ctx.fail = false) (hacc : ctx.acc = batch_acc l) :
    _aos_jrpc_server_batch_handle_parallel_cb env ctx out_response 0 =
      if ctx.counter - 1 = 0 then
        { counter := ctx.counter - 1, fail := false,
          acc := batch_acc (l ++ out_response.toList),
          resolution := some (batch_response (l ++ out_response.toList), 0) }
      else
        { counter := ctx.counter - 1, fail := false,
          acc := batch_acc (l ++ out_response.toList),
          resolution := ctx.resolution } := by
  cases ctx with
  | mk counter fail acc resolution =>
    simp only at hfail hacc
    subst hfail hacc
    by_cases h : counter - 1 = 0 <;>
      simp [_aos_jrpc_server_batch_handle_parallel_cb, harray, batch_append_acc,
        batch_acc_response, h]

/-- The launch loop of the parallel variant, handlers completing inside their
invocation: when the counter equals the number of sub-requests still to launch and
nothing has failed, the batch ends resolved without error with the responses `l`
collected before, then the responses of the single-request path on the items, in
input order. -/
theorem parallel_launch_responses (handlers : Nat → handler_fn) (env : server_env)
    (harray : env.array_ok = true) (herror : ∀ i, (env.request i).error_ok = true) :
    ∀ (items : List cJSON) (i : Nat) (s : aos_jrpc_server_t)
      (ctx : _aos_jrpc_server_batch_handle_parallel_ctx_t)
      (invoked : List (Nat × Option cJSON)) (l : List cJSON),
      items ≠ [] → ctx.counter = items.length → ctx.fail = false →
      ctx.acc = batch_acc l →
      (parallel_launch handlers env items i s ctx invoked).2.1.resolution =
        some (batch_response
          (l ++ single_path_responses handlers env.request i s items), 0) := by
  intro items
  induction items with
  | nil => intro i s ctx invoked l hne; exact absurd rfl hne
  | cons x rest ih =>
    intro i s ctx invoked l _ hcounter hfail hacc
    have herr := request_handle_sync_out_err handlers (env.request i) s (some x) (herror i)
    have hcb := parallel_cb_ok env ctx l
      (request_handle_sync handlers (env.request i) s (some x)).out_response
      harray hfail hacc
    have hc : ctx.counter - 1 = rest.length := by
      rw [hcounter]; simp
    simp only [parallel_launch, herr, hcb, hc]
    cases rest with
    | nil => simp [parallel_launch, single_path_responses]
    | cons y rest' =>
      have hrec := ih (i + 1)
        (request_handle_sync handlers (env.request i) s (some x)).server
        { counter := (y :: rest').length, fail := false,
          acc := batch_acc
            (l ++ (request_handle_sync handlers (env.request i) s (some x)).out_response.toList),
          resolution := ctx.resolution }
        (invoked ++ (request_handle_sync handlers (env.request i) s (some x)).invoked)
        (l ++ (request_handle_sync handlers (env.request i) s (some x)).out_response.toList)
        (by simp) rfl rfl rfl
      rw [single_path_responses]
      simpa [List.append_assoc] using hrec

/-- The parallel variant on a non-empty batch, handlers completing inside their
invocation and the allocations succeeding: it resolves without error with the
responses of the single-request path on the sub-requests, in input order. -/
theorem parallel_batch_responses (handlers : Nat → handler_fn) (env : server_env)
    (server : aos_jrpc_server_t) (item : cJSON) (rest : List cJSON)
    (hctx : env.ctx_ok = true) (hfutures : env.futures_ok = true)
    (hfuture : ∀ i, env.future_ok i = true) (harray : env.array_ok = true)
    (herror : ∀ i, (env.request i).error_ok = true) :
    ∃ res, _aos_jrpc_server_batch_handle_parallel handlers env server
        (some (cJSON.array (item :: rest))) = some res ∧
      res.out_err = 0 ∧
      res.out_response = batch_response
        (single_path_responses handlers env.request 0 server (item :: rest)) := by
  have hpar := parallel_launch_responses handlers env harray herror (item :: rest) 0 server
    { counter := (item :: rest).length, fail := false, acc := none, resolution := none }
    [] [] (by simp) rfl rfl rfl
  have hany : (List.range (rest.length + 1)).any (fun i => !env.future_ok i) = false := by
    simp [hfuture]
  simp only [_aos_jrpc_server_batch_handle_parallel, cJSON_GetArraySize, children,
    List.length_cons, hctx, hfutures, hany]
  simp only [List.length_cons, List.nil_append] at hpar
  simp [hpar]

/-! ## C21: a batch of invalid elements -/

/-- Below the limit, a value rejected by the validator goes through the
single-request path with the -32600 envelope as response. -/
theorem request_handle_sync_invalid (handlers : Nat → handler_fn) (env : request_env)
    (server : aos_jrpc_server_t) (request : Option cJSON)
    (hlimit : below_limit server = true)
    (hinvalid : _aos_jrpc_server_isvalid request = false) (herror : env.error_ok = true) :
    (request_handle_sync handlers env server request).out_response =
      some (cJSON.object
        [("jsonrpc", cJSON.string "2.0"), ("id", cJSON.null),
         ("error", cJSON.object
           [("code", cJSON.number (-32600)),
            ("message", cJSON.string "Invalid Request")])]) := by
  have h := request_handle_invalid env server request hlimit hinvalid
  simp [request_handle_sync, h, request_handle_err, alloc, herror, aos_jrpc_message_error]

/-- The single-request path on elements that are all rejected by the validator gives
one -32600 envelope for each of them. -/
theorem single_path_responses_invalid (handlers : Nat → handler_fn)
    (env : Nat → request_env) (herror : ∀ i, (env i).error_ok = true) :
    ∀ (items : List cJSON) (i : Nat) (s : aos_jrpc_server_t),
      below_limit s = true →
      (∀ x ∈ items, _aos_jrpc_server_isvalid (some x) = false) →
      single_path_responses handlers env i s items =
        List.replicate items.length
          (cJSON.object
            [("jsonrpc", cJSON.string "2.0"), ("id", cJSON.null),
             ("error", cJSON.object
               [("code", cJSON.number (-32600)),
                ("message", cJSON.string "Invalid Request")])]) := by
  intro items
  induction items with
  | nil => intro i s _ _; rfl
  | cons x rest ih =>
    intro i s hlimit hinvalid
    have hx := request_handle_sync_invalid handlers (env i) s (some x) hlimit
      (hinvalid x (List.mem_cons_self x rest)) (herror i)
    have hserver := request_handle_sync_server handlers (env i) s (some x)
    have hlimit' : below_limit (settled s) = true := by
      rw [below_limit_settled]; exact hlimit
    have hrec := ih (i + 1) (settled s) hlimit'
      (fun y hy => hinvalid y (List.mem_cons_of_mem x hy))
    rw [single_path_responses, hx, hserver, hrec]
    simp [List.replicate_succ]

/-- C21. For every batch of n >= 1 elements none of which is accepted by the request
validator (the server being below its limit and the allocations succeeding), the
sequential and the parallel batch path resolve without error with an array of
exactly n envelopes, each `jsonrpc: "2.0"`, `id: null`,
`error: {code: -32600, message: "Invalid Request"}`. -/
theorem invalid_batch_responses (handlers : Nat → handler_fn) (env : server_env)
    (server : aos_jrpc_server_t) (item : cJSON) (rest : List cJSON)
    (hlimit : below_limit server = true)
    (hinvalid : ∀ x ∈ item :: rest, _aos_jrpc_server_isvalid (some x) = false)
    (hctx : env.ctx_ok = true) (hfutures : env.futures_ok = true)
    (hfuture : ∀ i, env.future_ok i = true) (harray : env.array_ok = true)
    (herror : ∀ i, (env.request i).error_ok = true) :
    ((_aos_jrpc_server_batch_handle_sequential handlers env server
        (some (cJSON.array (item :: rest)))).out_err = 0 ∧
      (_aos_jrpc_server_batch_handle_sequential handlers env server
        (some (cJSON.array (item :: rest)))).out_response =
        some (cJSON.array (List.replicate (rest.length + 1)
          (cJSON.object
            [("jsonrpc", cJSON.string "2.0"), ("id", cJSON.null),
             ("error", cJSON.object
               [("code", cJSON.number (-32600)),
                ("message", cJSON.string "Invalid Request")])])))) ∧
    (∃ res, _aos_jrpc_server_batch_handle_parallel handlers env server
        (some (cJSON.array (item :: rest))) = some res ∧
      res.out_err = 0 ∧
      res.out_response =
        some (cJSON.array (List.replicate (rest.length + 1)
          (cJSON.object
            [("jsonrpc", cJSON.string "2.0"), ("id", cJSON.null),
             ("error", cJSON.object
               [("code", cJSON.number (-32600)),
                ("message", cJSON.string "Invalid Request")])])))) := by
  have hresp := single_path_responses_invalid handlers env.request herror (item :: rest) 0
    server hlimit hinvalid
  have hseq := sequential_cb_responses handlers env hfuture harray herror rest 0 [] []
    (request_handle_sync handlers (env.request 0) server (some item))
    (request_handle_sync_out_err handlers (env.request 0) server (some item) (herror 0))
  obtain ⟨res, hres, herr, hout⟩ := parallel_batch_responses handlers env server item rest
    hctx hfutures hfuture harray herror
  rw [hresp] at hout
  rw [single_path_responses] at hresp
  refine ⟨?_, res, hres, herr, ?_⟩
  · have hseq' : (_aos_jrpc_server_batch_handle_sequential handlers env server
          (some (cJSON.array (item :: rest)))).out_err = 0 ∧
        (_aos_jrpc_server_batch_handle_sequential handlers env server
          (some (cJSON.array (item :: rest)))).out_response =
          batch_response
            ((request_handle_sync handlers (env.request 0) server (some item)).out_response.toList ++
              single_path_responses handlers env.request (0 + 1)
                (request_handle_sync handlers (env.request 0) server (some item)).server
                rest) := by
      simpa [_aos_jrpc_server_batch_handle_sequential, cJSON_GetArraySize, children, hctx,
        hfuture, batch_acc] using hseq
    rw [hresp] at hseq'
    exact ⟨hseq'.1, by rw [hseq'.2]; rfl⟩
  · rw [hout]; rfl

/-- C21 on the batch `[1,2,3]`, in the sequential variant and in the parallel one. -/
theorem invalid_batch_responses_witness :
    ((_aos_jrpc_server_batch_handle_sequential (fun _ => test_handler0) server_env_ok
        (test_server false)
        (some (cJSON.array [cJSON.number 1, cJSON.number 2, cJSON.number 3]))).out_err = 0 ∧
      (_aos_jrpc_server_batch_handle_sequential (fun _ => test_handler0) server_env_ok
        (test_server false)
        (some (cJSON.array [cJSON.number 1, cJSON.number 2, cJSON.number 3]))).out_response =
        some (cJSON.array (List.replicate 3
          (cJSON.object
            [("jsonrpc", cJSON.string "2.0"), ("id", cJSON.null),
             ("error", cJSON.object
               [("code", cJSON.number (-32600)),
                ("message", cJSON.string "Invalid Request")])])))) ∧
    (∃ res, _aos_jrpc_server_batch_handle_parallel (fun _ => test_handler0) server_env_ok
        (test_server true)
        (some (cJSON.array [cJSON.number 1, cJSON.number 2, cJSON.number 3])) = some res ∧
      res.out_err = 0 ∧
      res.out_response =
        some (cJSON.array (List.replicate 3
          (cJSON.object
            [("jsonrpc", cJSON.string "2.0"), ("id", cJSON.null),
             ("error", cJSON.object
               [("code", cJSON.number (-32600)),
                ("message", cJSON.string "Invalid Request")])])))) :=
  ⟨(invalid_batch_responses (fun _ => test_handler0) server_env_ok (test_server false)
      (cJSON.number 1) [cJSON.number 2, cJSON.number 3] rfl
      (by
        intro x hx
        simp only [List.mem_cons, List.mem_singleton, List.not_mem_nil, or_false] at hx
        rcases hx with h | h | h <;> subst h <;> decide)
      rfl rfl (fun _ => rfl) rfl (fun _ => rfl)).1,
   (invalid_batch_responses (fun _ => test_handler0) server_env_ok (test_server true)
      (cJSON.number 1) [cJSON.number 2, cJSON.number 3] rfl
      (by
        intro x hx
        simp only [List.mem_cons, List.mem_singleton, List.not_mem_nil, or_false] at hx
        rcases hx with h | h | h <;> subst h <;> decide)
      rfl rfl (fun _ => rfl) rfl (fun _ => rfl)).2⟩

/-! ## C22: a request followed by a notification to an unbound method -/

/-- Below the limit, with the allocations succeeding, a valid request carrying an id
whose method is bound to a handler that completes with `out_err = 0` and a result `r`
goes through the single-request path with the Result envelope for its id. -/
theorem request_handle_sync_result (handlers : Nat → handler_fn) (env : request_env)
    (server : aos_jrpc_server_t) (request id r : cJSON) (handler : Nat)
    (hlimit : below_limit server = true)
    (hvalid : _aos_jrpc_server_isvalid (some request) = true)
    (hid : cJSON_GetObjectItemCaseSensitive (some request) "id" = some id)
    (hbound : _aos_jrpc_server_handler_get server
      (valuestring (cJSON_GetObjectItemCaseSensitive (some request) "method")) =
        some handler)
    (hhandler : handlers handler (cJSON_GetObjectItemCaseSensitive (some request) "params") =
      (some r, AOS_JRPC_SERVER_ERR_OK))
    (hdup : env.dup_ok = true) (hctx : env.ctx_ok = true) (hfuture : env.future_ok = true)
    (hresult : env.result_ok = true) :
    (request_handle_sync handlers env server (some request)).out_response =
      some (cJSON.object [("jsonrpc", cJSON.string "2.0"), ("id", id), ("result", r)]) ∧
    (request_handle_sync handlers env server (some request)).invoked =
      [(handler, cJSON_GetObjectItemCaseSensitive (some request) "params")] := by
  have hlaunch := request_handle_launch env server (some request) handler
    hlimit hvalid hdup hctx hfuture hbound
  constructor
  · simp [request_handle_sync, hlaunch, _aos_jrpc_server_request_handle_cb, hhandler, hid,
      AOS_JRPC_SERVER_ERR_OK, request_handle_cb_response, alloc, hresult,
      aos_jrpc_message_result]
  · simp [request_handle_sync, hlaunch]

/-- Below the limit, with the allocations succeeding, a valid request without id
whose method is not bound goes through the single-request path with the -32601
envelope, whose id is `null`, and invokes no handler. -/
theorem request_handle_sync_unbound (handlers : Nat → handler_fn) (env : request_env)
    (server : aos_jrpc_server_t) (request : cJSON)
    (hlimit : below_limit server = true)
    (hvalid : _aos_jrpc_server_isvalid (some request) = true)
    (hid : cJSON_GetObjectItemCaseSensitive (some request) "id" = none)
    (hunbound : _aos_jrpc_server_handler_get server
      (valuestring (cJSON_GetObjectItemCaseSensitive (some request) "method")) = none)
    (hdup : env.dup_ok = true) (herror : env.error_ok = true) :
    (request_handle_sync handlers env server (some request)).out_response =
      some (cJSON.object
        [("jsonrpc", cJSON.string "2.0"), ("id", cJSON.null),
         ("error", cJSON.object
           [("code", cJSON.number (-32601)),
            ("message", cJSON.string "Method not found")])]) ∧
    (request_handle_sync handlers env server (some request)).invoked = [] := by
  have h := request_handle_unbound env server (some request) hlimit hvalid hdup hunbound
  constructor
  · simp [request_handle_sync, h, request_handle_err, alloc, herror, aos_jrpc_message_error,
      hid]
  · simp [request_handle_sync, h, request_handle_err]

/-- C22. Take any batch of two elements: first a valid request carrying an id whose
method is bound to a handler that completes with `out_err = 0` and a result `r`, then
a valid request without id whose method is not bound (the server being below its
limit and the allocations succeeding).  In the sequential and in the parallel variant
the batch resolves without error with an array of exactly two elements: the Result
envelope `jsonrpc: "2.0"`, `id`: the first request's id, `result: r`, then the
envelope `jsonrpc: "2.0"`, `id: null`,
`error: {code: -32601, message: "Method not found"}`. -/
theorem batch_result_then_method_not_found (handlers : Nat → handler_fn)
    (env : server_env) (server : aos_jrpc_server_t) (first second id r : cJSON)
    (handler : Nat)
    (hlimit : below_limit server = true)
    (hvalid : _aos_jrpc_server_isvalid (some first) = true)
    (hid : cJSON_GetObjectItemCaseSensitive (some first) "id" = some id)
    (hbound : _aos_jrpc_server_handler_get server
      (valuestring (cJSON_GetObjectItemCaseSensitive (some first) "method")) =
        some handler)
    (hhandler : handlers handler (cJSON_GetObjectItemCaseSensitive (some first) "params") =
      (some r, AOS_JRPC_SERVER_ERR_OK))
    (hvalid2 : _aos_jrpc_server_isvalid (some second) = true)
    (hid2 : cJSON_GetObjectItemCaseSensitive (some second) "id" = none)
    (hunbound : _aos_jrpc_server_handler_get server
      (valuestring (cJSON_GetObjectItemCaseSensitive (some second) "method")) = none)
    (hctx : env.ctx_ok = true) (hfutures : env.futures_ok = true)
    (hfuture : ∀ i, env.future_ok i = true) (harray : env.array_ok = true)
    (herror : ∀ i, (env.request i).error_ok = true)
    (hdup : ∀ i, (env.request i).dup_ok = true)
    (hrctx : ∀ i, (env.request i).ctx_ok = true)
    (hrfuture : ∀ i, (env.request i).future_ok = true)
    (hresult : ∀ i, (env.request i).result_ok = true) :
    ((_aos_jrpc_server_batch_handle_sequential handlers env server
        (some (cJSON.array [first, second]))).out_err = 0 ∧
      (_aos_jrpc_server_batch_handle_sequential handlers env server
        (some (cJSON.array [first, second]))).out_response =
        some (cJSON.array
          [cJSON.object [("jsonrpc", cJSON.string "2.0"), ("id", id), ("result", r)],
           cJSON.object [("jsonrpc", cJSON.string "2.0"), ("id", cJSON.null),
            ("error", cJSON.object [("code", cJSON.number (-32601)),
              ("message", cJSON.string "Method not found")])]])) ∧
    (∃ res, _aos_jrpc_server_batch_handle_parallel handlers env server
        (some (cJSON.array [first, second])) = some res ∧
      res.out_err = 0 ∧
      res.out_response =
        some (cJSON.array
          [cJSON.object [("jsonrpc", cJSON.string "2.0"), ("id", id), ("result", r)],
           cJSON.object [("jsonrpc", cJSON.string "2.0"), ("id", cJSON.null),
            ("error", cJSON.object [("code", cJSON.number (-32601)),
              ("message", cJSON.string "Method not found")])]])) := by
  have h1 := (request_handle_sync_result handlers (env.request 0) server first id r handler
    hlimit hvalid hid hbound hhandler (hdup 0) (hrctx 0) (hrfuture 0) (hresult 0)).1
  have hs := request_handle_sync_server handlers (env.request 0) server (some first)
  have h2 := (request_handle_sync_unbound handlers (env.request 1) (settled server) second
    (by rw [below_limit_settled]; exact hlimit) hvalid2 hid2
    (by rw [handler_get_settled]; exact hunbound) (hdup 1) (herror 1)).1
  have hresp : single_path_responses handlers env.request 0 server [first, second] =
      [cJSON.object [("jsonrpc", cJSON.string "2.0"), ("id", id), ("result", r)],
       cJSON.object [("jsonrpc", cJSON.string "2.0"), ("id", cJSON.null),
        ("error", cJSON.object [("code", cJSON.number (-32601)),
          ("message", cJSON.string "Method not found")])]] := by
    simp [single_path_responses, h1, hs, h2]
  have hseq := sequential_cb_responses handlers env hfuture harray herror [second] 0 [] []
    (request_handle_sync handlers (env.request 0) server (some first))
    (request_handle_sync_out_err handlers (env.request 0) server (some first) (herror 0))
  obtain ⟨res, hres, herr, hout⟩ := parallel_batch_responses handlers env server first
    [second] hctx hfutures hfuture harray herror
  rw [hresp] at hout
  rw [single_path_responses] at hresp
  refine ⟨?_, res, hres, herr, ?_⟩
  · have hseq' : (_aos_jrpc_server_batch_handle_sequential handlers env server
          (some (cJSON.array [first, second]))).out_err = 0 ∧
        (_aos_jrpc_server_batch_handle_sequential handlers env server
          (some (cJSON.array [first, second]))).out_response =
          batch_response
            ((request_handle_sync handlers (env.request 0) server (some first)).out_response.toList ++
              single_path_responses handlers env.request (0 + 1)
                (request_handle_sync handlers (env.request 0) server (some first)).server
                [second]) := by
      simpa [_aos_jrpc_server_batch_handle_sequential, cJSON_GetArraySize, children, hctx,
        hfuture, batch_acc] using hseq
    rw [hresp] at hseq'
    exact ⟨hseq'.1, by rw [hseq'.2]; rfl⟩
  · rw [hout]; rfl

/-- C22 on the batch of the test suite, made of
`{"jsonrpc":"2.0","method":"testHandler0","id":5}`, whose handler returns `0`, and of
`{"jsonrpc":"2.0","method":"unavailable"}`, on the test server. -/
theorem batch_result_then_method_not_found_witness :
    ((_aos_jrpc_server_batch_handle_sequential (fun _ => test_handler0) server_env_ok
        (test_server false)
        (some (cJSON.array
          [cJSON.object [("jsonrpc", cJSON.string "2.0"),
            ("method", cJSON.string "testHandler0"), ("id", cJSON.number 5)],
           cJSON.object [("jsonrpc", cJSON.string "2.0"),
            ("method", cJSON.string "unavailable")]]))).out_err = 0 ∧
      (_aos_jrpc_server_batch_handle_sequential (fun _ => test_handler0) server_env_ok
        (test_server false)
        (some (cJSON.array
          [cJSON.object [("jsonrpc", cJSON.string "2.0"),
            ("method", cJSON.string "testHandler0"), ("id", cJSON.number 5)],
           cJSON.object [("jsonrpc", cJSON.string "2.0"),
            ("method", cJSON.string "unavailable")]]))).out_response =
        some (cJSON.array
          [cJSON.object [("jsonrpc", cJSON.string "2.0"), ("id", cJSON.number 5),
            ("result", cJSON.number 0)],
           cJSON.object [("jsonrpc", cJSON.string "2.0"), ("id", cJSON.null),
            ("error", cJSON.object [("code", cJSON.number (-32601)),
              ("message", cJSON.string "Method not found")])]])) ∧
    (∃ res, _aos_jrpc_server_batch_handle_parallel (fun _ => test_handler0) server_env_ok
        (test_server false)
        (some (cJSON.array
          [cJSON.object [("jsonrpc", cJSON.string "2.0"),
            ("method", cJSON.string "testHandler0"), ("id", cJSON.number 5)],
           cJSON.object [("jsonrpc", cJSON.string "2.0"),
            ("method", cJSON.string "unavailable")]])) = some res ∧
      res.out_err = 0 ∧
      res.out_response =
        some (cJSON.array
          [cJSON.object [("jsonrpc", cJSON.string "2.0"), ("id", cJSON.number 5),
            ("result", cJSON.number 0)],
           cJSON.object [("jsonrpc", cJSON.string "2.0"), ("id", cJSON.null),
            ("error", cJSON.object [("code", cJSON.number (-32601)),
              ("message", cJSON.string "Method not found")])]])) :=
  batch_result_then_method_not_found (fun _ => test_handler0) server_env_ok
    (test_server false)
    (cJSON.object [("jsonrpc", cJSON.string "2.0"),
      ("method", cJSON.string "testHandler0"), ("id", cJSON.number 5)])
    (cJSON.object [("jsonrpc", cJSON.string "2.0"),
      ("method", cJSON.string "unavailable")])
    (cJSON.number 5) (cJSON.number 0) 0
    rfl (by decide) rfl rfl rfl (by decide) rfl rfl
    rfl rfl (fun _ => rfl) rfl (fun _ => rfl) (fun _ => rfl) (fun _ => rfl) (fun _ => rfl)
    (fun _ => rfl)

/-! ## C23 and C24: the handler registry -/

/-- The lookup on a server depends on its handler list only: it returns the handler
of the first node, if its method is the one looked up, and otherwise the lookup on
the rest. -/
theorem handler_get_cons (config : aos_jrpc_server_config_t) (counter : Nat)
    (entry : _aos_jrpc_server_handler_entry_t)
    (next : List _aos_jrpc_server_handler_entry_t) (method : String) :
    _aos_jrpc_server_handler_get
        { config := config, handlers := entry :: next, counter := counter } method =
      if entry.method = method then some entry.handler
      else _aos_jrpc_server_handler_get
        { config := config, handlers := next, counter := counter } method := by
  by_cases h : entry.method = method <;>
    simp [_aos_jrpc_server_handler_get, List.find?_cons, h]

/-- The lookup finds nothing exactly when no node carries the method. -/
theorem handler_get_eq_none_iff (config : aos_jrpc_server_config_t) (counter : Nat)
    (l : List _aos_jrpc_server_handler_entry_t) (method : String) :
    _aos_jrpc_server_handler_get
        { config := config, handlers := l, counter := counter } method = none ↔
      method ∉ methods l := by
  induction l with
  | nil => simp [_aos_jrpc_server_handler_get, methods]
  | cons e rest ih =>
    rw [handler_get_cons]
    by_cases h : e.method = method
    · simp [h, methods]
    · have hne : ¬ method = e.method := fun hc => h hc.symm
      simp only [h, if_false, ih]
      simp [methods, hne]

/-- With the new node allocated, the walk of `handler_set` returns 0. -/
theorem handler_set_walk_ret (handler : Nat) (method : String)
    (l : List _aos_jrpc_server_handler_entry_t) :
    (handler_set_walk true handler method l).1 = 0 := by
  induction l with
  | nil => rfl
  | cons e rest ih =>
    by_cases h : e.method = method <;> simp [handler_set_walk, h, ih]

/-- The method names after the walk of `handler_set`: unchanged when the method was
there, with the method appended otherwise. -/
theorem handler_set_walk_methods (handler : Nat) (method : String)
    (l : List _aos_jrpc_server_handler_entry_t) :
    methods (handler_set_walk true handler method l).2 =
      if method ∈ methods l then methods l else methods l ++ [method] := by
  induction l with
  | nil => simp [handler_set_walk, methods]
  | cons e rest ih =>
    by_cases h : e.method = method
    · simp [handler_set_walk, h, methods]
    · have hne : ¬ method = e.method := fun hc => h hc.symm
      simp only [methods] at ih
      by_cases hm : method ∈ List.map (fun entry => entry.method) rest
      · simp [handler_set_walk, h, methods, hne, hm, ih]
      · simp [handler_set_walk, h, methods, hne, hm, ih]

/-- After the walk of `handler_set` the lookup of the method gives the new handler. -/
theorem handler_set_walk_get (config : aos_jrpc_server_config_t) (counter : Nat)
    (handler : Nat) (method : String) (l : List _aos_jrpc_server_handler_entry_t) :
    _aos_jrpc_server_handler_get
        { config := config, handlers := (handler_set_walk true handler method l).2,
          counter := counter } method = some handler := by
  induction l with
  | nil => simp [handler_set_walk, _aos_jrpc_server_handler_get]
  | cons e rest ih =>
    by_cases h : e.method = method
    · simp [handler_set_walk, h, handler_get_cons]
    · simp only [handler_set_walk, h, if_false, handler_get_cons]
      exact ih

/-- The walk of `handler_set` does not change the lookup of another method. -/
theorem handler_set_walk_get_other (config : aos_jrpc_server_config_t) (counter : Nat)
    (alloc_ok : Bool) (handler : Nat) (method other : String) (hne : other ≠ method)
    (l : List _aos_jrpc_server_handler_entry_t) :
    _aos_jrpc_server_handler_get
        { config := config, handlers := (handler_set_walk alloc_ok handler method l).2,
          counter := counter } other =
      _aos_jrpc_server_handler_get
        { config := config, handlers := l, counter := counter } other := by
  induction l with
  | nil =>
    have hne' : ¬ method = other := fun hc => hne hc.symm
    cases alloc_ok <;> simp [handler_set_walk, _aos_jrpc_server_handler_get, hne']
  | cons e rest ih =>
    by_cases h : e.method = method
    · have hne' : ¬ method = other := fun hc => hne hc.symm
      simp [handler_set_walk, h, handler_get_cons, hne']
    · simp only [handler_set_walk, h, if_false, handler_get_cons, ih]

/-- The walk of `handler_set` keeps the number of nodes when the method was bound and
appends the new node otherwise. -/
theorem handler_set_walk_shape (handler : Nat) (method : String)
    (l : List _aos_jrpc_server_handler_entry_t) :
    (method ∈ methods l → (handler_set_walk true handler method l).2.length = l.length) ∧
    (method ∉ methods l →
      (handler_set_walk true handler method l).2 =
        l ++ [{ method := method, handler := handler }]) := by
  induction l with
  | nil => simp [handler_set_walk, methods]
  | cons e rest ih =>
    by_cases h : e.method = method
    · simp [handler_set_walk, h, methods]
    · have hne : ¬ method = e.method := fun hc => h hc.symm
      simp only [methods] at ih
      simp only [handler_set_walk, h, if_false, methods, List.map_cons, List.mem_cons, hne,
        false_or, List.length_cons, List.cons_append, List.cons.injEq, true_and,
        Nat.add_right_cancel_iff, not_or]
      exact ⟨ih.1, fun hm => ih.2 hm⟩

/-- C23. `aos_jrpc_server_handler_set(server, h, m)`, the new node being allocated,
applied to a registry with pairwise distinct method names returns 0 and yields a
registry with pairwise distinct method names in which the lookup of `m` returns `h`
and the lookup of every other name is unchanged; the number of bindings is unchanged
when `m` was bound, and otherwise exactly one binding, of `m` to `h`, is appended at
the end.  The rest of the server is untouched. -/
theorem handler_set_spec (server : aos_jrpc_server_t) (handler : Nat) (method : String)
    (hdistinct : (methods server.handlers).Nodup) :
    (aos_jrpc_server_handler_set true server handler method).1 = 0 ∧
    (methods (aos_jrpc_server_handler_set true server handler method).2.handlers).Nodup ∧
    _aos_jrpc_server_handler_get
      (aos_jrpc_server_handler_set true server handler method).2 method = some handler ∧
    (∀ other, other ≠ method →
      _aos_jrpc_server_handler_get
        (aos_jrpc_server_handler_set true server handler method).2 other =
        _aos_jrpc_server_handler_get server other) ∧
    (method ∈ methods server.handlers →
      (aos_jrpc_server_handler_set true server handler method).2.handlers.length =
        server.handlers.length) ∧
    (method ∉ methods server.handlers →
      (aos_jrpc_server_handler_set true server handler method).2.handlers =
        server.handlers ++ [{ method := method, handler := handler }]) ∧
    (aos_jrpc_server_handler_set true server handler method).2.config = server.config ∧
    (aos_jrpc_server_handler_set true server handler method).2.counter = server.counter := by
  cases server with
  | mk config handlers counter =>
    simp only [aos_jrpc_server_handler_set] at *
    refine ⟨handler_set_walk_ret handler method handlers, ?_,
      handler_set_walk_get config counter handler method handlers,
      fun other hne => handler_set_walk_get_other config counter true handler method other
        hne handlers,
      (handler_set_walk_shape handler method handlers).1,
      (handler_set_walk_shape handler method handlers).2, by trivial, by trivial⟩
    rw [handler_set_walk_methods]
    by_cases hm : method ∈ methods handlers
    · simpa [hm] using hdistinct
    · simp only [hm, if_false]
      refine List.Nodup.append hdistinct (List.nodup_singleton method) ?_
      intro a ha hb
      rw [List.mem_singleton] at hb
      rw [hb] at ha
      exact hm ha

/-- C23 on the registry of the test suite: binding `testHandler1` appends a node,
binding `testHandler0` again overwrites its handler. -/
theorem handler_set_spec_witness :
    aos_jrpc_server_handler_set true (test_server false) 1 "testHandler1" =
      (0, { config := { maxrequests := 10, maxinputlen := 500, parallel := false },
            handlers := [{ method := "testHandler0", handler := 0 },
                         { method := "testHandler1", handler := 1 }],
            counter := 0 }) ∧
    aos_jrpc_server_handler_set true (test_server false) 7 "testHandler0" =
      (0, { config := { maxrequests := 10, maxinputlen := 500, parallel := false },
            handlers := [{ method := "testHandler0", handler := 7 }],
            counter := 0 }) ∧
    _aos_jrpc_server_handler_get
      (aos_jrpc_server_handler_set true (test_server false) 1 "testHandler1").2
      "testHandler1" = some 1 :=
  ⟨by decide, by decide,
   (handler_set_spec (test_server false) 1 "testHandler1" (by decide)).2.2.1⟩

/-- The walk of `handler_unset` on a list whose first node with the method is
`entry`: it returns 0 and unlinks that node. -/
theorem handler_unset_walk_split (method : String)
    (before after : List _aos_jrpc_server_handler_entry_t)
    (entry : _aos_jrpc_server_handler_entry_t) (hentry : entry.method = method)
    (hbefore : ∀ e ∈ before, e.method ≠ method) :
    handler_unset_walk method (before ++ entry :: after) = (0, before ++ after) := by
  induction before with
  | nil => simp [handler_unset_walk, hentry]
  | cons e rest ih =>
    have he : ¬ e.method = method := hbefore e (List.mem_cons_self e rest)
    have hrest := ih (fun x hx => hbefore x (List.mem_cons_of_mem e hx))
    simp [handler_unset_walk, he, hrest]

/-- The walk of `handler_unset` on a list without the method: it returns 1 and
changes nothing. -/
theorem handler_unset_walk_unbound (method : String)
    (l : List _aos_jrpc_server_handler_entry_t) (hunbound : method ∉ methods l) :
    handler_unset_walk method l = (1, l) := by
  induction l with
  | nil => rfl
  | cons e rest ih =>
    have hne : ¬ e.method = method := by
      intro hc
      exact hunbound (by simp [methods, hc])
    have hrest := ih (by
      intro hc
      exact hunbound (by simp only [methods] at hc ⊢; simp [hc]))
    simp [handler_unset_walk, hne, hrest]

/-- The walk of `handler_unset` returns 0 when the method is bound. -/
theorem handler_unset_walk_ret (method : String)
    (l : List _aos_jrpc_server_handler_entry_t) (hbound : method ∈ methods l) :
    (handler_unset_walk method l).1 = 0 := by
  induction l with
  | nil => simp [methods] at hbound
  | cons e rest ih =>
    by_cases h : e.method = method
    · simp [handler_unset_walk, h]
    · have hne : ¬ method = e.method := fun hc => h hc.symm
      simp only [methods, List.map_cons, List.mem_cons, hne, false_or] at hbound
      simp [handler_unset_walk, h, ih hbound]

/-- The method names after the walk of `handler_unset`: the first occurrence of the
method is erased. -/
theorem handler_unset_walk_methods (method : String)
    (l : List _aos_jrpc_server_handler_entry_t) :
    methods (handler_unset_walk method l).2 = (methods l).erase method := by
  induction l with
  | nil => rfl
  | cons e rest ih =>
    by_cases h : e.method = method
    · simp [handler_unset_walk, h, methods]
    · simp only [methods] at ih
      simp [handler_unset_walk, h, methods, List.erase_cons_tail, ih]

/-- The walk of `handler_unset` does not change the lookup of another method. -/
theorem handler_unset_walk_get_other (config : aos_jrpc_server_config_t) (counter : Nat)
    (method other : String) (hne : other ≠ method)
    (l : List _aos_jrpc_server_handler_entry_t) :
    _aos_jrpc_server_handler_get
        { config := config, handlers := (handler_unset_walk method l).2,
          counter := counter } other =
      _aos_jrpc_server_handler_get
        { config := config, handlers := l, counter := counter } other := by
  induction l with
  | nil => rfl
  | cons e rest ih =>
    by_cases h : e.method = method
    · have hne' : ¬ method = other := fun hc => hne hc.symm
      simp [handler_unset_walk, h, handler_get_cons, hne']
    · simp only [handler_unset_walk, h, if_false, handler_get_cons, ih]

/-- C24. `aos_jrpc_server_handler_unset(server, m)` returns 0 when `m` is bound and
then unlinks the first binding of `m`, all other bindings staying as they are and in
the same order; it returns 1 and leaves the server unchanged when `m` is not bound.
The lookup of every other name is unchanged, and in a registry with pairwise distinct
method names the lookup of `m` afterwards finds nothing; so unset directly after a
successful set of `m` returns 0 and a following lookup of `m` finds nothing. -/
theorem handler_unset_spec (server : aos_jrpc_server_t) (method : String) :
    (method ∈ methods server.handlers →
      (aos_jrpc_server_handler_unset server method).1 = 0) ∧
    (∀ before entry after, server.handlers = before ++ entry :: after →
      entry.method = method → (∀ e ∈ before, e.method ≠ method) →
      aos_jrpc_server_handler_unset server method =
        (0, { server with handlers := before ++ after })) ∧
    (method ∉ methods server.handlers →
      aos_jrpc_server_handler_unset server method = (1, server)) ∧
    (∀ other, other ≠ method →
      _aos_jrpc_server_handler_get (aos_jrpc_server_handler_unset server method).2 other =
        _aos_jrpc_server_handler_get server other) ∧
    ((methods server.handlers).Nodup →
      _aos_jrpc_server_handler_get (aos_jrpc_server_handler_unset server method).2 method =
        none) ∧
    ((methods server.handlers).Nodup → ∀ handler,
      (aos_jrpc_server_handler_unset
        (aos_jrpc_server_handler_set true server handler method).2 method).1 = 0 ∧
      _aos_jrpc_server_handler_get
        (aos_jrpc_server_handler_unset
          (aos_jrpc_server_handler_set true server handler method).2 method).2 method =
        none) := by
  have hnone : ∀ (config : aos_jrpc_server_config_t) (counter : Nat)
      (l : List _aos_jrpc_server_handler_entry_t), (methods l).Nodup →
      _aos_jrpc_server_handler_get
        { config := config, handlers := (handler_unset_walk method l).2,
          counter := counter } method = none := by
    intro config counter l hl
    rw [handler_get_eq_none_iff, handler_unset_walk_methods]
    exact fun hc => (List.Nodup.mem_erase_iff hl).1 hc |>.1 rfl
  cases server with
  | mk config handlers counter =>
    refine ⟨fun hbound => handler_unset_walk_ret method handlers hbound, ?_, ?_,
      fun other hne => handler_unset_walk_get_other config counter method other hne handlers,
      fun hl => hnone config counter handlers hl, ?_⟩
    · intro before entry after hsplit hentry hbefore
      simp only at hsplit
      simp only [aos_jrpc_server_handler_unset, hsplit,
        handler_unset_walk_split method before after entry hentry hbefore]
    · intro hunbound
      simp only [aos_jrpc_server_handler_unset,
        handler_unset_walk_unbound method handlers hunbound]
    · intro hl handler
      have hset_methods := handler_set_walk_methods handler method handlers
      have hmem : method ∈ methods (handler_set_walk true handler method handlers).2 := by
        rw [hset_methods]
        by_cases hm : method ∈ methods handlers <;> simp [hm]
      have hnodup : (methods (handler_set_walk true handler method handlers).2).Nodup := by
        rw [hset_methods]
        by_cases hm : method ∈ methods handlers
        · simpa [hm] using hl
        · simp only [hm, if_false]
          refine List.Nodup.append hl (List.nodup_singleton method) ?_
          intro a ha hb
          rw [List.mem_singleton] at hb
          rw [hb] at ha
          exact hm ha
      exact ⟨handler_unset_walk_ret method _ hmem, hnone config counter _ hnodup⟩

/-- C24 on the registry of the test suite: unsetting `testHandler0` returns 0 and
empties the registry, unsetting `missing` returns 1 and changes nothing. -/
theorem handler_unset_spec_witness :
    aos_jrpc_server_handler_unset (test_server false) "testHandler0" =
      (0, { config := { maxrequests := 10, maxinputlen := 500, parallel := false },
            handlers := [], counter := 0 }) ∧
    aos_jrpc_server_handler_unset (test_server false) "missing" =
      (1, test_server false) :=
  ⟨(handler_unset_spec (test_server false) "testHandler0").2.1 []
      { method := "testHandler0", handler := 0 } [] rfl rfl (by simp),
   (handler_unset_spec (test_server false) "missing").2.2.1 (by decide)⟩

/-! ## No dispatch of a request produces the -32000 envelope -/

/-- An error envelope with another code is not the -32000 envelope. -/
theorem alloc_error_ne (ok : Bool) (id : Option cJSON) (code : Int) (msg : String)
    (hcode : code ≠ -32000) :
    alloc ok (aos_jrpc_message_error id code msg) ≠
      aos_jrpc_message_error none (-32000) "Server error" := by
  cases ok
  · simp [alloc, aos_jrpc_message_error]
  · simp only [alloc, aos_jrpc_message_error, if_true, ne_eq, Option.some.injEq,
      cJSON.object.injEq, List.cons.injEq, Prod.mk.injEq, cJSON.number.injEq, true_and,
      and_true, not_and]
    intro _ hc
    exact absurd (by exact_mod_cast hc) hcode

/-- A Result envelope is not the -32000 envelope. -/
theorem alloc_result_ne (ok : Bool) (id result : Option cJSON) :
    alloc ok (aos_jrpc_message_result id result) ≠
      aos_jrpc_message_error none (-32000) "Server error" := by
  cases ok <;> cases id <;> cases result <;>
    simp [alloc, aos_jrpc_message_result, aos_jrpc_message_error]

/-- An array, or no response at all, is not the -32000 envelope. -/
theorem batch_array_ne (acc : Option (List cJSON)) :
    acc.map cJSON.array ≠ aos_jrpc_message_error none (-32000) "Server error" := by
  cases acc <;> simp [aos_jrpc_message_error]

/-- The response built by the handler-completion callback is not the -32000
envelope. -/
theorem request_handle_cb_response_ne (env : request_env) (id out_result : Option cJSON)
    (out_err : Nat) :
    request_handle_cb_response env id out_result out_err ≠
      aos_jrpc_message_error none (-32000) "Server error" := by
  unfold request_handle_cb_response
  split
  · split
    · rename_i response hresponse
      rw [← hresponse]
      exact alloc_result_ne _ _ _
    · exact alloc_error_ne _ _ _ _ (by decide)
  · exact alloc_error_ne _ _ _ _ (by decide)
  · exact alloc_error_ne _ _ _ _ (by decide)

/-- When the single-request path resolves the caller's future itself, the response
is an error envelope with a code other than -32000 (or nothing, the allocation
failing). -/
theorem request_handle_resolved_ne (env : request_env) (server s : aos_jrpc_server_t)
    (request r : Option cJSON) (e : Nat)
    (h : _aos_jrpc_server_request_handle env server request =
      request_handle_result.resolved s r e) :
    r ≠ aos_jrpc_message_error none (-32000) "Server error" := by
  unfold _aos_jrpc_server_request_handle at h
  simp only [request_handle_err] at h
  repeat' split at h
  all_goals
    first
    | (cases h; exact alloc_error_ne _ _ _ _ (by decide))
    | cases h

/-- The single-request path never resolves with the -32000 envelope. -/
theorem request_handle_sync_ne (handlers : Nat → handler_fn) (env : request_env)
    (server : aos_jrpc_server_t) (request : Option cJSON) :
    (request_handle_sync handlers env server request).out_response ≠
      aos_jrpc_message_error none (-32000) "Server error" := by
  cases h : _aos_jrpc_server_request_handle env server request with
  | resolved s r e =>
    simp only [request_handle_sync, h]
    exact request_handle_resolved_ne env server s request r e h
  | launched s handler params ctx =>
    simp only [request_handle_sync, h, _aos_jrpc_server_request_handle_cb]
    split
    · simp [aos_jrpc_message_error]
    · exact request_handle_cb_response_ne _ _ _ _

/-- The sequential callback chain never resolves with the -32000 envelope. -/
theorem sequential_cb_ne (handlers : Nat → handler_fn) (env : server_env) :
    ∀ (counter i : Nat) (request : List cJSON) (acc : Option (List cJSON))
      (invoked : List (Nat × Option cJSON)) (sub : call_result),
      (_aos_jrpc_server_batch_handle_sequential_cb handlers env counter i request acc
          invoked sub).out_response ≠
        aos_jrpc_message_error none (-32000) "Server error" := by
  intro counter
  induction counter with
  | zero =>
    intro i request acc invoked sub
    unfold _aos_jrpc_server_batch_handle_sequential_cb
    split
    · exact alloc_error_ne _ _ _ _ (by decide)
    · split
      · exact alloc_error_ne _ _ _ _ (by decide)
      · exact batch_array_ne _
  | succ n ih =>
    intro i request acc invoked sub
    unfold _aos_jrpc_server_batch_handle_sequential_cb
    split
    · exact alloc_error_ne _ _ _ _ (by decide)
    · split
      · exact alloc_error_ne _ _ _ _ (by decide)
      · simp only
        split
        · exact alloc_error_ne _ _ _ _ (by decide)
        · exact ih _ _ _ _ _

/-- The sequential batch path never resolves with the -32000 envelope. -/
theorem sequential_ne (handlers : Nat → handler_fn) (env : server_env)
    (server : aos_jrpc_server_t) (request : Option cJSON) :
    (_aos_jrpc_server_batch_handle_sequential handlers env server request).out_response ≠
      aos_jrpc_message_error none (-32000) "Server error" := by
  unfold _aos_jrpc_server_batch_handle_sequential
  split
  · exact alloc_error_ne _ _ _ _ (by decide)
  · split
    · simp [resolve_with, aos_jrpc_message_error]
    · split
      · exact alloc_error_ne _ _ _ _ (by decide)
      · exact sequential_cb_ne handlers env _ _ _ _ _ _

/-- The parallel callback keeps the resolution of the batch, once there is one,
different from the -32000 envelope. -/
theorem parallel_cb_ne (env : server_env)
    (ctx : _aos_jrpc_server_batch_handle_parallel_ctx_t) (out_response : Option cJSON)
    (out_err : Nat)
    (hctx : ∀ r e, ctx.resolution = some (r, e) →
      r ≠ aos_jrpc_message_error none (-32000) "Server error") :
    ∀ r e, (_aos_jrpc_server_batch_handle_parallel_cb env ctx out_response
        out_err).resolution = some (r, e) →
      r ≠ aos_jrpc_message_error none (-32000) "Server error" := by
  intro r e h
  unfold _aos_jrpc_server_batch_handle_parallel_cb at h
  simp only at h
  repeat' split at h
  all_goals
    first
    | exact hctx r e h
    | (simp only [Option.some.injEq, Prod.mk.injEq] at h
       rw [← h.1]
       first
       | exact alloc_error_ne _ _ _ _ (by decide)
       | exact batch_array_ne _)

/-- The launch loop of the parallel variant keeps the resolution of the batch, once
there is one, different from the -32000 envelope. -/
theorem parallel_launch_ne (handlers : Nat → handler_fn) (env : server_env) :
    ∀ (items : List cJSON) (i : Nat) (s : aos_jrpc_server_t)
      (ctx : _aos_jrpc_server_batch_handle_parallel_ctx_t)
      (invoked : List (Nat × Option cJSON)),
      (∀ r e, ctx.resolution = some (r, e) →
        r ≠ aos_jrpc_message_error none (-32000) "Server error") →
      ∀ r e, (parallel_launch handlers env items i s ctx invoked).2.1.resolution =
          some (r, e) →
        r ≠ aos_jrpc_message_error none (-32000) "Server error" := by
  intro items
  induction items with
  | nil => intro i s ctx invoked hctx r e h; exact hctx r e h
  | cons x rest ih =>
    intro i s ctx invoked hctx r e h
    simp only [parallel_launch] at h
    exact ih _ _ _ _ (parallel_cb_ne env ctx _ _ hctx) r e h

/-- The entry point `aos_jrpc_server_call_json` never resolves with the -32000
envelope. -/
theorem call_json_ne (handlers : Nat → handler_fn) (env : server_env)
    (server : aos_jrpc_server_t) (data : Option cJSON) (res : call_result)
    (h : aos_jrpc_server_call_json handlers env server data = some res) :
    res.out_response ≠ aos_jrpc_message_error none (-32000) "Server error" := by
  unfold aos_jrpc_server_call_json at h
  split at h
  · cases h
    exact request_handle_sync_ne handlers _ server data
  · split at h
    · split at h
      · cases h
        exact sequential_ne handlers env server data
      · unfold _aos_jrpc_server_batch_handle_parallel at h
        split at h
        · cases h
          exact alloc_error_ne _ _ _ _ (by decide)
        · split at h
          · cases h
            exact alloc_error_ne _ _ _ _ (by decide)
          · simp only at h
            split at h
            · rename_i out_response out_err hres
              cases h
              exact parallel_launch_ne handlers env _ _ _ _ _
                (fun r e hc => by simp at hc) out_response out_err hres
            · cases h
    · cases h
      exact alloc_error_ne _ _ _ _ (by decide)

/-! ## C25: the text entry point of the server -/

/-- C25. With the error envelope and its text allocated, `aos_jrpc_server_call`
resolves without invoking a handler and with `out_err = 0`:
with the text of `jsonrpc: "2.0"`, `id: null`,
`error: {code: -32000, message: "Server error"}` when the length of the input in
bytes is strictly greater than `maxinputlen`; with the text of the same envelope with
code -32700 and message `"Parse error"` when the length is within `maxinputlen` and
the input does not parse.  When the length is within `maxinputlen`, whatever the
call resolves with is not the -32000 envelope. -/
theorem server_call_text_errors (cJSON_Parse : String → Option cJSON)
    (handlers : Nat → handler_fn) (env : text_env) (server : aos_jrpc_server_t)
    (data : String) (herror : env.error_ok = true) (hprint : env.print_ok = true) :
    (data.utf8ByteSize > server.config.maxinputlen →
      aos_jrpc_server_call cJSON_Parse handlers env server data =
        some { server := server,
               out_data := some (cJSON.object
                 [("jsonrpc", cJSON.string "2.0"), ("id", cJSON.null),
                  ("error", cJSON.object
                    [("code", cJSON.number (-32000)),
                     ("message", cJSON.string "Server error")])]),
               out_err := 0, invoked := [] }) ∧
    (data.utf8ByteSize ≤ server.config.maxinputlen → cJSON_Parse data = none →
      aos_jrpc_server_call cJSON_Parse handlers env server data =
        some { server := server,
               out_data := some (cJSON.object
                 [("jsonrpc", cJSON.string "2.0"), ("id", cJSON.null),
                  ("error", cJSON.object
                    [("code", cJSON.number (-32700)),
                     ("message", cJSON.string "Parse error")])]),
               out_err := 0, invoked := [] }) ∧
    (data.utf8ByteSize ≤ server.config.maxinputlen →
      ∀ res, aos_jrpc_server_call cJSON_Parse handlers env server data = some res →
        res.out_data ≠ some (cJSON.object
          [("jsonrpc", cJSON.string "2.0"), ("id", cJSON.null),
           ("error", cJSON.object
             [("code", cJSON.number (-32000)),
              ("message", cJSON.string "Server error")])])) := by
  have hE : aos_jrpc_message_error none (-32000) "Server error" =
      some (cJSON.object
        [("jsonrpc", cJSON.string "2.0"), ("id", cJSON.null),
         ("error", cJSON.object
           [("code", cJSON.number (-32000)),
            ("message", cJSON.string "Server error")])]) := by
    simp [aos_jrpc_message_error]
  refine ⟨?_, ?_, ?_⟩
  · intro hlong
    simp [aos_jrpc_server_call, hlong, server_call_err, cJSON_PrintUnformatted, alloc,
      herror, hprint, aos_jrpc_message_error]
  · intro hshort hparse
    have hnot : ¬ data.utf8ByteSize > server.config.maxinputlen := Nat.not_lt.2 hshort
    simp [aos_jrpc_server_call, hnot, hparse, server_call_err, cJSON_PrintUnformatted, alloc,
      herror, hprint, aos_jrpc_message_error]
  · intro hshort res hres
    have hnot : ¬ data.utf8ByteSize > server.config.maxinputlen := Nat.not_lt.2 hshort
    rw [← hE]
    unfold aos_jrpc_server_call at hres
    simp only [hnot, if_false] at hres
    split at hres
    · cases hres
      simp only [server_call_err, cJSON_PrintUnformatted, hprint, if_true]
      exact alloc_error_ne _ _ _ _ (by decide)
    · split at hres
      · cases hres
        simp only [server_call_err, cJSON_PrintUnformatted, hprint, if_true]
        exact alloc_error_ne _ _ _ _ (by decide)
      · split at hres
        · cases hres
        · rename_i res' hcall
          cases hres
          have hne := call_json_ne handlers env.server server _ res' hcall
          simp only [aos_jrpc_server_call_cb, cJSON_PrintUnformatted, hprint, if_true]
          split
          · simp [aos_jrpc_message_error]
          · split
            · rename_i response hresponse
              rw [hresponse] at hne
              exact hne
            · simp [aos_jrpc_message_error]

/-- C25 on the input `not json`, which does not parse: with `maxinputlen = 4` the
call resolves with the -32000 envelope, with `maxinputlen = 500` with the -32700
envelope. -/
theorem server_call_text_errors_witness :
    aos_jrpc_server_call (fun _ => none) (fun _ => test_handler0) text_env_ok
        { config := { maxrequests := 10, maxinputlen := 4, parallel := false },
          handlers := [{ method := "testHandler0", handler := 0 }], counter := 0 }
        "not json" =
      some { server :=
               { config := { maxrequests := 10, maxinputlen := 4, parallel := false },
                 handlers := [{ method := "testHandler0", handler := 0 }], counter := 0 },
             out_data := some (cJSON.object
               [("jsonrpc", cJSON.string "2.0"), ("id", cJSON.null),
                ("error", cJSON.object
                  [("code", cJSON.number (-32000)),
                   ("message", cJSON.string "Server error")])]),
             out_err := 0, invoked := [] } ∧
    aos_jrpc_server_call (fun _ => none) (fun _ => test_handler0) text_env_ok
        (test_server false) "not json" =
      some { server := test_server false,
             out_data := some (cJSON.object
               [("jsonrpc", cJSON.string "2.0"), ("id", cJSON.null),
                ("error", cJSON.object
                  [("code", cJSON.number (-32700)),
                   ("message", cJSON.string "Parse error")])]),
             out_err := 0, invoked := [] } :=
  ⟨(server_call_text_errors (fun _ => none) (fun _ => test_handler0) text_env_ok
      { config := { maxrequests := 10, maxinputlen := 4, parallel := false },
        handlers := [{ method := "testHandler0", handler := 0 }], counter := 0 }
      "not json" rfl rfl).1 (by decide),
   (server_call_text_errors (fun _ => none) (fun _ => test_handler0) text_env_ok
      (test_server false) "not json" rfl rfl).2.1 (by decide) rfl⟩

/-! ## C26 and C27: the text entry point of the peer -/

/-- When the input is within `maxinputlen` and does not parse, `aos_jrpc_peer_read`
goes on to `aos_jrpc_peer_read_json` with `NULL`: the server answers with the -32600
envelope, which is what the sink receives. -/
theorem peer_read_unparsable (cJSON_Parse : String → Option cJSON)
    (handlers : Nat → handler_fn) (env : peer_env) (peer : aos_jrpc_peer_t) (data : String)
    (hshort : data.utf8ByteSize ≤ peer.config.maxinputlen)
    (hparse : cJSON_Parse data = none) (hfuture : env.future_ok = true)
    (herror : env.server.error_ok = true) (hprint : env.print_ok = true) :
    aos_jrpc_peer_read cJSON_Parse handlers env peer data =
      { ret := 0, peer := peer,
        events := [PeerEvent.on_output (cJSON.object
          [("jsonrpc", cJSON.string "2.0"), ("id", cJSON.null),
           ("error", cJSON.object
             [("code", cJSON.number (-32600)),
              ("message", cJSON.string "Invalid Request")])])],
        invoked := [] } := by
  have hnot : ¬ data.utf8ByteSize > peer.config.maxinputlen := Nat.not_lt.2 hshort
  simp [aos_jrpc_peer_read, hnot, hparse, aos_jrpc_peer_read_json, hfuture,
    aos_jrpc_server_call_json, cJSON_IsObject, cJSON_IsArray, resolve_with, alloc, herror,
    aos_jrpc_message_error, _aos_jrpc_peer_server_call_json_cb, cJSON_PrintUnformatted,
    hprint]

/-- C26 fails.  On the input `not json`, within `maxinputlen` and not parseable, the
sink does not receive the -32700 "Parse error" envelope: `aos_jrpc_peer_read` builds
it but does not jump to its error label, calls `aos_jrpc_peer_read_json` with `NULL`,
and the sink receives the -32600 "Invalid Request" envelope of the server. -/
theorem peer_read_parse_error_not_sent :
    aos_jrpc_peer_read (fun _ => none) (fun _ => test_handler0) peer_env_ok test_peer
        "not json" =
      { ret := 0, peer := test_peer,
        events := [PeerEvent.on_output (cJSON.object
          [("jsonrpc", cJSON.string "2.0"), ("id", cJSON.null),
           ("error", cJSON.object
             [("code", cJSON.number (-32600)),
              ("message", cJSON.string "Invalid Request")])])],
        invoked := [] } := by
  rfl

/-- C27. On an input whose length in bytes is strictly greater than `maxinputlen`
(the envelope and its text being allocated), `aos_jrpc_peer_read` hands exactly one
value to the sink, the envelope `jsonrpc: "2.0"`, `id: null`,
`error: {code: -32000, message: "Server error"}`, invokes no handler, leaves the peer
unchanged and returns 0, whatever the parser would do with the input and whatever
the sink returns.  An input whose length is `maxinputlen` or less is not rejected
here: it is parsed and handed to `aos_jrpc_peer_read_json`. -/
theorem peer_read_too_long (cJSON_Parse : String → Option cJSON)
    (handlers : Nat → handler_fn) (env : peer_env) (peer : aos_jrpc_peer_t) (data : String)
    (herror : env.error_ok = true) (hprint : env.print_ok = true) :
    (data.utf8ByteSize > peer.config.maxinputlen →
      aos_jrpc_peer_read cJSON_Parse handlers env peer data =
        { ret := 0, peer := peer,
          events := [PeerEvent.on_output (cJSON.object
            [("jsonrpc", cJSON.string "2.0"), ("id", cJSON.null),
             ("error", cJSON.object
               [("code", cJSON.number (-32000)),
                ("message", cJSON.string "Server error")])])],
          invoked := [] }) ∧
    (data.utf8ByteSize ≤ peer.config.maxinputlen →
      aos_jrpc_peer_read cJSON_Parse handlers env peer data =
        aos_jrpc_peer_read_json handlers env peer (cJSON_Parse data)) := by
  constructor
  · intro hlong
    simp [aos_jrpc_peer_read, hlong, cJSON_PrintUnformatted, alloc, herror, hprint,
      aos_jrpc_message_error]
  · intro hshort
    have hnot : ¬ data.utf8ByteSize > peer.config.maxinputlen := Nat.not_lt.2 hshort
    simp [aos_jrpc_peer_read, hnot]

/-- C27 on the 7 bytes of `[1,2,3]` with `maxinputlen = 6`, the sink returning 1,
and with `maxinputlen = 7`. -/
theorem peer_read_too_long_witness :
    aos_jrpc_peer_read
        (fun _ => some (cJSON.array [cJSON.number 1, cJSON.number 2, cJSON.number 3]))
        (fun _ => test_handler0) { peer_env_ok with on_output := 1 }
        { test_peer with config :=
            { has_on_error := true, maxinputlen := 6, maxclientrequests := 10,
              maxserverrequests := 10, parallel := false } }
        "[1,2,3]" =
      { ret := 0,
        peer := { test_peer with config :=
            { has_on_error := true, maxinputlen := 6, maxclientrequests := 10,
              maxserverrequests := 10, parallel := false } },
        events := [PeerEvent.on_output (cJSON.object
          [("jsonrpc", cJSON.string "2.0"), ("id", cJSON.null),
           ("error", cJSON.object
             [("code", cJSON.number (-32000)),
              ("message", cJSON.string "Server error")])])],
        invoked := [] } ∧
    aos_jrpc_peer_read
        (fun _ => some (cJSON.array [cJSON.number 1, cJSON.number 2, cJSON.number 3]))
        (fun _ => test_handler0) { peer_env_ok with on_output := 1 }
        { test_peer with config :=
            { has_on_error := true, maxinputlen := 7, maxclientrequests := 10,
              maxserverrequests := 10, parallel := false } }
        "[1,2,3]" =
      aos_jrpc_peer_read_json (fun _ => test_handler0) { peer_env_ok with on_output := 1 }
        { test_peer with config :=
            { has_on_error := true, maxinputlen := 7, maxclientrequests := 10,
              maxserverrequests := 10, parallel := false } }
        (some (cJSON.array [cJSON.number 1, cJSON.number 2, cJSON.number 3])) :=
  ⟨(peer_read_too_long
      (fun _ => some (cJSON.array [cJSON.number 1, cJSON.number 2, cJSON.number 3]))
      (fun _ => test_handler0) { peer_env_ok with on_output := 1 }
      { test_peer with config :=
          { has_on_error := true, maxinputlen := 6, maxclientrequests := 10,
            maxserverrequests := 10, parallel := false } }
      "[1,2,3]" rfl rfl).1 (by decide),
   (peer_read_too_long
      (fun _ => some (cJSON.array [cJSON.number 1, cJSON.number 2, cJSON.number 3]))
      (fun _ => test_handler0) { peer_env_ok with on_output := 1 }
      { test_peer with config :=
          { has_on_error := true, maxinputlen := 7, maxclientrequests := 10,
            maxserverrequests := 10, parallel := false } }
      "[1,2,3]" rfl rfl).2 (by decide)⟩

/-! ## C28: the classification rule of the peer -/

/-- Every value that the rule of the specification classifies as a response goes to
the client. -/
theorem peer_to_client_of_spec (json : cJSON) (h : spec_is_response json = true) :
    peer_to_client (some json) = true := by
  unfold spec_is_response at h
  split at h
  · rename_i members
    simp only [Bool.or_eq_true] at h
    simp only [peer_to_client, cJSON_GetObjectItemCaseSensitive, Bool.or_eq_true]
    rcases h with h | h
    · exact Or.inl (Or.inr h)
    · exact Or.inr h
  · rename_i members rest
    simp only [Bool.or_eq_true] at h
    simp only [peer_to_client, cJSON_GetArrayItem_0, children, List.head?_cons,
      cJSON_GetObjectItemCaseSensitive, Bool.or_eq_true]
    rcases h with h | h
    · exact Or.inl (Or.inl (Or.inl h))
    · exact Or.inl (Or.inl (Or.inr h))
  · cases h

/-- A value that is not an object goes to the client only if the rule of the
specification classifies it as a response. -/
theorem spec_of_peer_to_client (json : cJSON) (hobj : cJSON_IsObject (some json) = false)
    (h : peer_to_client (some json) = true) : spec_is_response json = true := by
  cases json with
  | object members => simp [cJSON_IsObject] at hobj
  | array items =>
    cases items with
    | nil =>
      simp [peer_to_client, cJSON_GetArrayItem_0, children,
        cJSON_GetObjectItemCaseSensitive] at h
    | cons x rest =>
      cases x <;>
        simp_all [peer_to_client, cJSON_GetArrayItem_0, children,
          cJSON_GetObjectItemCaseSensitive, spec_is_response]
  | null => simp [peer_to_client, cJSON_GetArrayItem_0, children,
      cJSON_GetObjectItemCaseSensitive] at h
  | bool b => simp [peer_to_client, cJSON_GetArrayItem_0, children,
      cJSON_GetObjectItemCaseSensitive] at h
  | number v => simp [peer_to_client, cJSON_GetArrayItem_0, children,
      cJSON_GetObjectItemCaseSensitive] at h
  | string v => simp [peer_to_client, cJSON_GetArrayItem_0, children,
      cJSON_GetObjectItemCaseSensitive] at h

/-- C28 fails for an object whose first member is an object with a `result` key.
The request
`{"params":{"result":1},"jsonrpc":"2.0","method":"testHandler0","id":5}` is not a
response by the rule of the specification, yet the condition of
`aos_jrpc_peer_read_json` holds for it, because `cJSON_GetArrayItem(json, 0)` returns
the first member of an object: the request goes to the client, which rejects it
(return value 3); the handler is not invoked and nothing is sent. -/
theorem request_routed_to_client :
    spec_is_response (cJSON.object
      [("params", cJSON.object [("result", cJSON.number 1)]),
       ("jsonrpc", cJSON.string "2.0"), ("method", cJSON.string "testHandler0"),
       ("id", cJSON.number 5)]) = false ∧
    peer_to_client (some (cJSON.object
      [("params", cJSON.object [("result", cJSON.number 1)]),
       ("jsonrpc", cJSON.string "2.0"), ("method", cJSON.string "testHandler0"),
       ("id", cJSON.number 5)])) = true ∧
    aos_jrpc_peer_read_json (fun _ => test_handler0) peer_env_ok test_peer
        (some (cJSON.object
          [("params", cJSON.object [("result", cJSON.number 1)]),
           ("jsonrpc", cJSON.string "2.0"), ("method", cJSON.string "testHandler0"),
           ("id", cJSON.number 5)])) =
      { ret := 3, peer := test_peer, events := [], invoked := [] } ∧
    aos_jrpc_peer_read_json (fun _ => test_handler0) peer_env_ok test_peer
        (some (cJSON.object
          [("jsonrpc", cJSON.string "2.0"), ("method", cJSON.string "testHandler0"),
           ("params", cJSON.object [("result", cJSON.number 1)]),
           ("id", cJSON.number 5)])) =
      { ret := 0, peer := test_peer,
        events := [PeerEvent.on_output (cJSON.object
          [("jsonrpc", cJSON.string "2.0"), ("id", cJSON.number 5),
           ("result", cJSON.number 0)])],
        invoked := [(0, some (cJSON.object [("result", cJSON.number 1)]))] } := by
  refine ⟨?_, ?_, ?_, ?_⟩ <;> rfl

/-! ## C29: the continuation of the peer on a notification -/

/-- C29 fails.  For the notification `{"jsonrpc":"2.0","method":"testHandler0"}`,
whose handler completes without error, and for a batch of two such notifications,
the server resolves with no response and no error; the continuation of the peer
then finds that `cJSON_PrintUnformatted(NULL)` is `NULL` and calls `on_error` with
code 0.  The sink is not called. -/
theorem notification_calls_on_error :
    aos_jrpc_peer_read_json (fun _ => test_handler0) peer_env_ok test_peer
        (some (cJSON.object [("jsonrpc", cJSON.string "2.0"),
          ("method", cJSON.string "testHandler0")])) =
      { ret := 0, peer := test_peer, events := [PeerEvent.on_error 0],
        invoked := [(0, none)] } ∧
    aos_jrpc_peer_read_json (fun _ => test_handler0) peer_env_ok test_peer
        (some (cJSON.array
          [cJSON.object [("jsonrpc", cJSON.string "2.0"),
            ("method", cJSON.string "testHandler0")],
           cJSON.object [("jsonrpc", cJSON.string "2.0"),
            ("method", cJSON.string "testHandler0")]])) =
      { ret := 0, peer := test_peer, events := [PeerEvent.on_error 0],
        invoked := [(0, none), (0, none)] } := by
  constructor <;> rfl

/-! ## C30: an array of responses -/

/-- C30 fails.  With an Armed entry of id 7 in the registry of the client, the array
`[{"jsonrpc":"2.0","id":7,"result":0}]` is handed to the client as it is; the client
validates the array, not its first element, and rejects it: the call returns 3, the
completion of the entry is not fulfilled and the entry stays Armed. -/
theorem response_array_not_processed :
    aos_jrpc_peer_read_json (fun _ => test_handler0) peer_env_ok
        { test_peer with client :=
            { requests := [{ future := some 0, id := 7, timer := 0 }],
              config := { maxrequests := 10, maxinputlen := 1000 } } }
        (some (cJSON.array
          [cJSON.object [("jsonrpc", cJSON.string "2.0"), ("id", cJSON.number 7),
            ("result", cJSON.number 0)]])) =
      { ret := 3,
        peer := { test_peer with client :=
            { requests := [{ future := some 0, id := 7, timer := 0 }],
              config := { maxrequests := 10, maxinputlen := 1000 } } },
        events := [], invoked := [] } := by
  rfl

/-- C30, amended.  For every array payload that `aos_jrpc_peer_read_json` classifies
as a response (its first element has a `result` or `error` key), the array itself is
handed to `aos_jrpc_client_read_json`, which rejects it as an invalid response: the
call returns 3, no completion is fulfilled, no handler is invoked, nothing is sent,
and the peer is unchanged. -/
theorem response_array_rejected (handlers : Nat → handler_fn) (env : peer_env)
    (peer : aos_jrpc_peer_t) (items : List cJSON)
    (hclass : peer_to_client (some (cJSON.array items)) = true) :
    aos_jrpc_peer_read_json handlers env peer (some (cJSON.array items)) =
      { ret := 3, peer := peer, events := [], invoked := [] } := by
  have hinvalid : _aos_jrpc_client_isvalid (cJSON.array items) = false := by
    simp [_aos_jrpc_client_isvalid, cJSON_GetObjectItemCaseSensitive, cJSON_IsString]
  simp [aos_jrpc_peer_read_json, hclass, aos_jrpc_client_read_json, hinvalid]

/-- C30, amended, on the array `[{"jsonrpc":"2.0","id":7,"result":0}]` with an Armed
entry of id 7. -/
theorem response_array_rejected_witness :
    aos_jrpc_peer_read_json (fun _ => test_handler0) peer_env_ok
        { test_peer with client :=
            { requests := [{ future := some 0, id := 7, timer := 0 }],
              config := { maxrequests := 10, maxinputlen := 1000 } } }
        (some (cJSON.array
          [cJSON.object [("jsonrpc", cJSON.string "2.0"), ("id", cJSON.number 7),
            ("result", cJSON.number 0)]])) =
      { ret := 3,
        peer := { test_peer with client :=
            { requests := [{ future := some 0, id := 7, timer := 0 }],
              config := { maxrequests := 10, maxinputlen := 1000 } } },
        events := [], invoked := [] } :=
  response_array_rejected (fun _ => test_handler0) peer_env_ok
    { test_peer with client :=
        { requests := [{ future := some 0, id := 7, timer := 0 }],
          config := { maxrequests := 10, maxinputlen := 1000 } } }
    [cJSON.object [("jsonrpc", cJSON.string "2.0"), ("id", cJSON.number 7),
      ("result", cJSON.number 0)]] rfl

/-! ## C31: calls of the sink during one read -/

/-- The scan of the client registry produces a resolution, never a call of the
sink. -/
theorem read_loop_event (dup_ok : Bool) (json : cJSON) (id : Option cJSON) :
    ∀ (l r : List aos_jrpc_client_request_entry_t) (ev : Event),
      read_loop dup_ok json id l = some (r, ev) →
      ∃ future out_err out_result, ev = Event.resolve future out_err out_result := by
  intro l
  induction l with
  | nil => intro r ev h; simp [read_loop] at h
  | cons entry next ih =>
    intro r ev h
    unfold read_loop at h
    split at h
    · split at h
      · simp only [Option.some.injEq, Prod.mk.injEq] at h
        exact ⟨_, _, _, h.2.symm⟩
      · cases hrec : read_loop dup_ok json id next with
        | none => simp [hrec] at h
        | some q =>
          obtain ⟨r', ev'⟩ := q
          simp only [hrec, Option.map_some', Option.some.injEq, Prod.mk.injEq] at h
          obtain ⟨_, rfl⟩ := h
          exact ih r' ev' hrec
    · cases hrec : read_loop dup_ok json id next with
      | none => simp [hrec] at h
      | some q =>
        obtain ⟨r', ev'⟩ := q
        simp only [hrec, Option.map_some', Option.some.injEq, Prod.mk.injEq] at h
        obtain ⟨_, rfl⟩ := h
        exact ih r' ev' hrec

/-- Reading a response never calls the sink. -/
theorem client_read_json_sink_calls (dup_ok : Bool) (client : aos_jrpc_client_t)
    (json : cJSON) :
    sink_calls ((aos_jrpc_client_read_json dup_ok client json).2.2.map PeerEvent.client) =
      0 := by
  unfold aos_jrpc_client_read_json
  split
  · rfl
  · simp only []
    cases hloop : read_loop dup_ok json (cJSON_GetObjectItemCaseSensitive (some json) "id")
        client.requests with
    | none => rfl
    | some q =>
      obtain ⟨future, out_err, out_result, hev⟩ :=
        read_loop_event dup_ok json _ client.requests q.1 q.2 (by rw [hloop])
      simp [hev, sink_calls]

/-- The continuation of the peer calls the sink at most once; it does not call it
when the server resolved with no response, and calls it once when the server
resolved with a response and no error and the text is allocated. -/
theorem server_call_json_cb_sink_calls (env : peer_env) (peer : aos_jrpc_peer_t)
    (response : Option cJSON) (ret : Nat) :
    sink_calls (_aos_jrpc_peer_server_call_json_cb env peer response ret) ≤ 1 ∧
    (response = none →
      sink_calls (_aos_jrpc_peer_server_call_json_cb env peer response ret) = 0) ∧
    (response.isSome = true → ret = 0 → env.print_ok = true →
      sink_calls (_aos_jrpc_peer_server_call_json_cb env peer response ret) = 1) := by
  refine ⟨?_, ?_, ?_⟩
  · unfold _aos_jrpc_peer_server_call_json_cb
    split
    · split <;> simp [sink_calls]
    · split
      · split <;> simp [sink_calls]
      · simp [sink_calls]
  · intro hnone
    subst hnone
    simp only [_aos_jrpc_peer_server_call_json_cb, cJSON_PrintUnformatted, ite_self]
    split_ifs <;> simp [sink_calls]
  · intro hsome hret hprint
    cases response with
    | none => simp at hsome
    | some r =>
      simp [_aos_jrpc_peer_server_call_json_cb, hret, cJSON_PrintUnformatted, hprint,
        sink_calls]

/-- Reading a value calls the sink at most once, and not at all when the value goes
to the client. -/
theorem peer_read_json_sink_calls (handlers : Nat → handler_fn) (env : peer_env)
    (peer : aos_jrpc_peer_t) (json : Option cJSON) :
    sink_calls (aos_jrpc_peer_read_json handlers env peer json).events ≤ 1 ∧
    (peer_to_client json = true →
      sink_calls (aos_jrpc_peer_read_json handlers env peer json).events = 0) := by
  cases json with
  | none =>
    have hclass : peer_to_client none = false := rfl
    refine ⟨?_, fun h => by rw [hclass] at h; cases h⟩
    simp only [aos_jrpc_peer_read_json]
    split
    · simp [sink_calls]
    · split
      · exact (server_call_json_cb_sink_calls env peer _ _).1
      · simp [sink_calls]
  | some value =>
    cases hclass : peer_to_client (some value) with
    | true =>
      have h := client_read_json_sink_calls env.dup_ok peer.client value
      simp only [aos_jrpc_peer_read_json, hclass]
      exact ⟨by rw [h]; exact Nat.zero_le 1, fun _ => h⟩
    | false =>
      refine ⟨?_, fun h => by cases h⟩
      simp only [aos_jrpc_peer_read_json, hclass]
      split
      · simp [sink_calls]
      · split
        · exact (server_call_json_cb_sink_calls env peer _ _).1
        · simp [sink_calls]

/-- C31. For every input text, every parser, handlers that complete inside their
invocation and every behaviour of the allocator, one call of `aos_jrpc_peer_read`
calls the sink at most once.  It does not call it when the parsed value goes to the
client, nor when the value goes to the server and the server resolves with no
response (a notification); it calls it once when the server resolves with a response
and no error and the text is allocated. -/
theorem peer_read_sink_at_most_once (cJSON_Parse : String → Option cJSON)
    (handlers : Nat → handler_fn) (env : peer_env) (peer : aos_jrpc_peer_t) (data : String) :
    sink_calls (aos_jrpc_peer_read cJSON_Parse handlers env peer data).events ≤ 1 ∧
    (data.utf8ByteSize ≤ peer.config.maxinputlen →
      peer_to_client (cJSON_Parse data) = true →
      sink_calls (aos_jrpc_peer_read cJSON_Parse handlers env peer data).events = 0) ∧
    (data.utf8ByteSize ≤ peer.config.maxinputlen →
      peer_to_client (cJSON_Parse data) = false → env.future_ok = true →
      ∀ res, aos_jrpc_server_call_json handlers env.server peer.server (cJSON_Parse data) =
          some res →
        (res.out_response = none →
          sink_calls (aos_jrpc_peer_read cJSON_Parse handlers env peer data).events = 0) ∧
        (res.out_response.isSome = true → res.out_err = 0 → env.print_ok = true →
          sink_calls (aos_jrpc_peer_read cJSON_Parse handlers env peer data).events = 1)) := by
  refine ⟨?_, ?_, ?_⟩
  · unfold aos_jrpc_peer_read
    split
    · split <;> simp [sink_calls]
    · exact (peer_read_json_sink_calls handlers env peer _).1
  · intro hshort hclass
    have hnot : ¬ data.utf8ByteSize > peer.config.maxinputlen := Nat.not_lt.2 hshort
    simp only [aos_jrpc_peer_read, hnot, if_false]
    exact (peer_read_json_sink_calls handlers env peer _).2 hclass
  · intro hshort hclass hfuture res hres
    have hnot : ¬ data.utf8ByteSize > peer.config.maxinputlen := Nat.not_lt.2 hshort
    have hevents : (aos_jrpc_peer_read cJSON_Parse handlers env peer data).events =
        _aos_jrpc_peer_server_call_json_cb env peer res.out_response res.out_err := by
      simp only [aos_jrpc_peer_read, hnot, if_false]
      cases hjson : cJSON_Parse data with
      | none =>
        rw [hjson] at hres
        simp [aos_jrpc_peer_read_json, hfuture, hres]
      | some value =>
        rw [hjson] at hres hclass
        simp [aos_jrpc_peer_read_json, hclass, hfuture, hres]
    rw [hevents]
    exact ⟨(server_call_json_cb_sink_calls env peer _ _).2.1,
      (server_call_json_cb_sink_calls env peer _ _).2.2⟩

/-- C31 on the peer of the test suite: the unparsable text `not json` (one call, the
error envelope), a response text (no call) and a notification text (no call). -/
theorem peer_read_sink_at_most_once_witness :
    sink_calls (aos_jrpc_peer_read (fun _ => none) (fun _ => test_handler0) peer_env_ok
      test_peer "not json").events ≤ 1 ∧
    sink_calls (aos_jrpc_peer_read
      (fun _ => some (cJSON.object [("jsonrpc", cJSON.string "2.0"),
        ("id", cJSON.number 7), ("result", cJSON.number 0)]))
      (fun _ => test_handler0) peer_env_ok test_peer "a response").events = 0 ∧
    sink_calls (aos_jrpc_peer_read
      (fun _ => some (cJSON.object [("jsonrpc", cJSON.string "2.0"),
        ("method", cJSON.string "testHandler0")]))
      (fun _ => test_handler0) peer_env_ok test_peer "a notification").events = 0 :=
  ⟨(peer_read_sink_at_most_once (fun _ => none) (fun _ => test_handler0) peer_env_ok
      test_peer "not json").1,
   (peer_read_sink_at_most_once
      (fun _ => some (cJSON.object [("jsonrpc", cJSON.string "2.0"),
        ("id", cJSON.number 7), ("result", cJSON.number 0)]))
      (fun _ => test_handler0) peer_env_ok test_peer "a response").2.1 (by decide) rfl,
   ((peer_read_sink_at_most_once
      (fun _ => some (cJSON.object [("jsonrpc", cJSON.string "2.0"),
        ("method", cJSON.string "testHandler0")]))
      (fun _ => test_handler0) peer_env_ok test_peer "a notification").2.2 (by decide) rfl
      rfl _ rfl).1 rfl⟩

/-! ## C32: allocation of the peer -/

/-- With both callbacks supplied and the three allocations succeeding,
`aos_jrpc_peer_alloc` returns a peer whose server and client are fresh. -/
theorem peer_alloc_complete (env : peer_alloc_env) (config : aos_jrpc_peer_config_t)
    (herror : config.has_on_error = true) (hpeer : env.peer_ok = true)
    (hserver : env.server_ok = true) (hclient : env.client_ok = true) :
    ∃ peer, aos_jrpc_peer_alloc env true config = Outcome.returned (some peer) ∧
      peer.server.handlers = [] ∧ peer.server.counter = 0 ∧ peer.client.requests = [] ∧
      peer.config.has_on_error = true := by
  simp [aos_jrpc_peer_alloc, herror, hpeer, hserver, hclient, aos_jrpc_server_alloc,
    aos_jrpc_client_alloc]

/-- Without `on_error`, or without `on_output`, `aos_jrpc_peer_alloc` returns no
peer, whatever the rest of the configuration and the allocator: it goes to its
error label with no server and no client. -/
theorem peer_alloc_incomplete (env : peer_alloc_env) (has_on_output : Bool)
    (config : aos_jrpc_peer_config_t)
    (h : config.has_on_error = false ∨ has_on_output = false) :
    aos_jrpc_peer_alloc env has_on_output config = Outcome.aborted := by
  rcases h with h | h <;> simp [aos_jrpc_peer_alloc, h, peer_alloc_err]

/-- C32 fails.  For the configuration that supplies `on_output` and no `on_error`,
all allocations succeeding, `aos_jrpc_peer_alloc` does not return a peer: the test
`!config->on_error || !config->on_output` sends it to the error label, reached with
no server and no client (`aborted`, see `peer_alloc_err`).  The same configuration
with `on_error` supplied gives a peer. -/
theorem peer_alloc_requires_on_error :
    aos_jrpc_peer_alloc peer_alloc_env_ok true
        { has_on_error := false, maxinputlen := 1000, maxclientrequests := 10,
          maxserverrequests := 10, parallel := false } = Outcome.aborted ∧
    aos_jrpc_peer_alloc peer_alloc_env_ok true
        { has_on_error := true, maxinputlen := 1000, maxclientrequests := 10,
          maxserverrequests := 10, parallel := false } =
      Outcome.returned (some
        { server := { config := { maxrequests := 10, maxinputlen := 500, parallel := false },
                      handlers := [], counter := 0 },
          client := { requests := [], config := { maxrequests := 10, maxinputlen := 1000 } },
          config := { has_on_error := true, maxinputlen := 1000, maxclientrequests := 10,
                      maxserverrequests := 10, parallel := false } }) := by
  constructor <;> rfl

/-- C32, amended.  `on_error` is a required field of the configuration of the peer:
`aos_jrpc_peer_alloc` returns a peer exactly when the configuration supplies both
`on_error` and `on_output` and the allocations of the peer, of its server and of its
client succeed.  In particular a configuration that supplies `on_output` without
`on_error` is refused, whatever the allocator does. -/
theorem peer_alloc_iff (env : peer_alloc_env) (has_on_output : Bool)
    (config : aos_jrpc_peer_config_t) :
    (∃ peer, aos_jrpc_peer_alloc env has_on_output config = Outcome.returned (some peer)) ↔
      (config.has_on_error = true ∧ has_on_output = true ∧ env.peer_ok = true ∧
        env.server_ok = true ∧ env.client_ok = true) := by
  cases herror : config.has_on_error <;> cases houtput : has_on_output <;>
    cases hpeer : env.peer_ok <;> cases hserver : env.server_ok <;>
    cases hclient : env.client_ok <;>
    simp [aos_jrpc_peer_alloc, herror, hpeer, hserver, hclient, peer_alloc_err,
      aos_jrpc_server_alloc, aos_jrpc_client_alloc]

/-- C32, amended, on the defaults of the examples: the configuration with both
callbacks gives a peer, the configuration without `on_error` gives none. -/
theorem peer_alloc_iff_witness :
    (∃ peer, aos_jrpc_peer_alloc peer_alloc_env_ok true
        { has_on_error := true, maxinputlen := 1000, maxclientrequests := 10,
          maxserverrequests := 10, parallel := false } = Outcome.returned (some peer)) ∧
    ¬ (∃ peer, aos_jrpc_peer_alloc peer_alloc_env_ok true
        { has_on_error := false, maxinputlen := 1000, maxclientrequests := 10,
          maxserverrequests := 10, parallel := false } = Outcome.returned (some peer)) :=
  ⟨(peer_alloc_iff peer_alloc_env_ok true
      { has_on_error := true, maxinputlen := 1000, maxclientrequests := 10,
        maxserverrequests := 10, parallel := false }).2 ⟨rfl, rfl, rfl, rfl, rfl⟩,
   fun h => Bool.noConfusion ((peer_alloc_iff peer_alloc_env_ok true
      { has_on_error := false, maxinputlen := 1000, maxclientrequests := 10,
        maxserverrequests := 10, parallel := false }).1 h).1⟩

/-! ## C33: the return value for requests -/

/-- C33. For every value that `aos_jrpc_peer_read_json` classifies as a request
(valid or not), the future handed to the server being allocated,
`aos_jrpc_peer_read_json` returns 0, and so does `aos_jrpc_peer_read` on a text
within `maxinputlen` that parses to this value. -/
theorem peer_read_request_returns_zero (cJSON_Parse : String → Option cJSON)
    (handlers : Nat → handler_fn) (env : peer_env) (peer : aos_jrpc_peer_t)
    (data : String) (json : cJSON)
    (hfuture : env.future_ok = true) (hclass : peer_to_client (some json) = false) :
    (aos_jrpc_peer_read_json handlers env peer (some json)).ret = 0 ∧
    (data.utf8ByteSize ≤ peer.config.maxinputlen → cJSON_Parse data = some json →
      (aos_jrpc_peer_read cJSON_Parse handlers env peer data).ret = 0) := by
  have hjson : (aos_jrpc_peer_read_json handlers env peer (some json)).ret = 0 := by
    simp only [aos_jrpc_peer_read_json, hclass, hfuture, Bool.not_true, Bool.false_eq_true,
      if_false]
    cases aos_jrpc_server_call_json handlers env.server peer.server (some json) <;> rfl
  refine ⟨hjson, ?_⟩
  intro hshort hparse
  have hnot : ¬ data.utf8ByteSize > peer.config.maxinputlen := Nat.not_lt.2 hshort
  simp only [aos_jrpc_peer_read, hnot, if_false, hparse]
  exact hjson

/-- C33 on the peer of the test suite, for a request whose id is an array and for
the batch of a valid request and the number 1: the calls return 0 and the sink
receives the error envelope, respectively the array of the response and of the
error envelope. -/
theorem peer_read_request_returns_zero_witness :
    (aos_jrpc_peer_read_json (fun _ => test_handler0) peer_env_ok test_peer
        (some (cJSON.object [("jsonrpc", cJSON.string "2.0"),
          ("method", cJSON.string "testHandler0"), ("id", cJSON.array [])]))).ret = 0 ∧
    (aos_jrpc_peer_read
        (fun _ => some (cJSON.object [("jsonrpc", cJSON.string "2.0"),
          ("method", cJSON.string "testHandler0"), ("id", cJSON.array [])]))
        (fun _ => test_handler0) peer_env_ok test_peer "a request").ret = 0 ∧
    (aos_jrpc_peer_read_json (fun _ => test_handler0) peer_env_ok test_peer
        (some (cJSON.array
          [cJSON.object [("jsonrpc", cJSON.string "2.0"),
            ("method", cJSON.string "testHandler0"), ("id", cJSON.number 5)],
           cJSON.number 1]))).events =
      [PeerEvent.on_output (cJSON.array
        [cJSON.object [("jsonrpc", cJSON.string "2.0"), ("id", cJSON.number 5),
          ("result", cJSON.number 0)],
         cJSON.object [("jsonrpc", cJSON.string "2.0"), ("id", cJSON.null),
          ("error", cJSON.object
            [("code", cJSON.number (-32600)),
             ("message", cJSON.string "Invalid Request")])]])] :=
  ⟨(peer_read_request_returns_zero
      (fun _ => some (cJSON.object [("jsonrpc", cJSON.string "2.0"),
        ("method", cJSON.string "testHandler0"), ("id", cJSON.array [])]))
      (fun _ => test_handler0) peer_env_ok test_peer "a request"
      (cJSON.object [("jsonrpc", cJSON.string "2.0"),
        ("method", cJSON.string "testHandler0"), ("id", cJSON.array [])]) rfl rfl).1,
   (peer_read_request_returns_zero
      (fun _ => some (cJSON.object [("jsonrpc", cJSON.string "2.0"),
        ("method", cJSON.string "testHandler0"), ("id", cJSON.array [])]))
      (fun _ => test_handler0) peer_env_ok test_peer "a request"
      (cJSON.object [("jsonrpc", cJSON.string "2.0"),
        ("method", cJSON.string "testHandler0"), ("id", cJSON.array [])]) rfl rfl).2
      (by decide) rfl,
   rfl⟩

/-! ## C34: the response validator -/

/-- An item is a string with a given content exactly when it is that string. -/
theorem isString_eq_iff (x : Option cJSON) (s : String) :
    (cJSON_IsString x = true ∧ valuestring x = s) ↔ x = some (cJSON.string s) := by
  cases x with
  | none => simp [cJSON_IsString]
  | some v => cases v <;> simp [cJSON_IsString, valuestring]

/-- The test `cJSON_IsString` holds exactly for the strings. -/
theorem isString_iff (x : Option cJSON) :
    cJSON_IsString x = true ↔ ∃ s, x = some (cJSON.string s) := by
  cases x with
  | none => simp [cJSON_IsString]
  | some v => cases v <;> simp [cJSON_IsString]

/-- The test `cJSON_IsNumber` with a range test on `valuedouble` holds exactly for
the numbers in the range. -/
theorem isNumber_range_iff (x : Option cJSON) (a b : ℚ) :
    (cJSON_IsNumber x = true ∧ a ≤ valuedouble x ∧ valuedouble x ≤ b) ↔
      ∃ v, x = some (cJSON.number v) ∧ a ≤ v ∧ v ≤ b := by
  cases x with
  | none => simp [cJSON_IsNumber]
  | some v => cases v <;> simp [cJSON_IsNumber, valuedouble]

/-- The number 3/2 is not an integer. -/
theorem three_halves_den : ((3 : ℚ) / 2).den ≠ 1 := by
  intro h
  have h2 := (Rat.den_eq_one_iff _).1 h
  have h3 : (2 : ℚ) * (((3 : ℚ) / 2).num : ℚ) = 3 := by rw [h2]; norm_num
  have h4 : (2 : ℤ) * ((3 : ℚ) / 2).num = 3 := by exact_mod_cast h3
  omega

/-- C34 fails.  `_aos_jrpc_client_isvalid` accepts the response
`{"jsonrpc":"2.0","id":1,"error":{"code":1.5,"message":"x"}}`, whose `error.code` is
not an integer, and the same response with `error.code` equal to 2^63, which is
outside the signed 64-bit range: the code only tests that `error.code` is a number
between `INT64_MIN` and `INT64_MAX`, the latter being 2^63 once converted to
`double`.  The rule of the specification rejects both. -/
theorem client_isvalid_accepts_non_integer_code :
    _aos_jrpc_client_isvalid (cJSON.object
      [("jsonrpc", cJSON.string "2.0"), ("id", cJSON.number 1),
       ("error", cJSON.object
         [("code", cJSON.number (3 / 2)), ("message", cJSON.string "x")])]) = true ∧
    spec_is_valid_response (cJSON.object
      [("jsonrpc", cJSON.string "2.0"), ("id", cJSON.number 1),
       ("error", cJSON.object
         [("code", cJSON.number (3 / 2)), ("message", cJSON.string "x")])]) = false ∧
    _aos_jrpc_client_isvalid (cJSON.object
      [("jsonrpc", cJSON.string "2.0"), ("id", cJSON.number 1),
       ("error", cJSON.object
         [("code", cJSON.number 9223372036854775808),
          ("message", cJSON.string "x")])]) = true ∧
    spec_is_valid_response (cJSON.object
      [("jsonrpc", cJSON.string "2.0"), ("id", cJSON.number 1),
       ("error", cJSON.object
         [("code", cJSON.number 9223372036854775808),
          ("message", cJSON.string "x")])]) = false := by
  refine ⟨?_, ?_, ?_, ?_⟩
  · simp [_aos_jrpc_client_isvalid, cJSON_GetObjectItemCaseSensitive, cJSON.lookup,
      cJSON_IsString, cJSON_IsNumber, valuestring, valuedouble, UINT32_MAX,
      INT64_MAX_double, INT64_MIN_double]
    norm_num
  · simp [spec_is_valid_response, cJSON.lookup, three_halves_den]
  · simp [_aos_jrpc_client_isvalid, cJSON_GetObjectItemCaseSensitive, cJSON.lookup,
      cJSON_IsString, cJSON_IsNumber, valuestring, valuedouble, UINT32_MAX,
      INT64_MAX_double, INT64_MIN_double]
  · simp [spec_is_valid_response, cJSON.lookup]
    norm_num

/-- C34, amended.  `_aos_jrpc_client_isvalid` returns true for a value exactly when
its `jsonrpc` member is the string "2.0", its `id` member is a number between 0 and
`UINT32_MAX` (4294967295) inclusive, exactly one of `result` and `error` is present,
and, when `error` is present, `error.code` is a number (integer or not) between
-2^63 and 2^63 inclusive and `error.message` is a string. -/
theorem client_isvalid_iff (response : cJSON) :
    _aos_jrpc_client_isvalid response = true ↔
      cJSON_GetObjectItemCaseSensitive (some response) "jsonrpc" =
        some (cJSON.string "2.0") ∧
      (∃ v, cJSON_GetObjectItemCaseSensitive (some response) "id" = some (cJSON.number v) ∧
        0 ≤ v ∧ v ≤ 4294967295) ∧
      ((cJSON_GetObjectItemCaseSensitive (some response) "result").isSome ≠
        (cJSON_GetObjectItemCaseSensitive (some response) "error").isSome) ∧
      (∀ error, cJSON_GetObjectItemCaseSensitive (some response) "error" = some error →
        (∃ code, cJSON_GetObjectItemCaseSensitive (some error) "code" =
            some (cJSON.number code) ∧
          -9223372036854775808 ≤ code ∧ code ≤ 9223372036854775808) ∧
        (∃ msg, cJSON_GetObjectItemCaseSensitive (some error) "message" =
          some (cJSON.string msg))) := by
  unfold _aos_jrpc_client_isvalid
  simp only []
  rw [← isString_eq_iff, ← isNumber_range_iff]
  generalize cJSON_GetObjectItemCaseSensitive (some response) "jsonrpc" = jrpc
  generalize cJSON_GetObjectItemCaseSensitive (some response) "id" = id
  generalize cJSON_GetObjectItemCaseSensitive (some response) "result" = result
  generalize cJSON_GetObjectItemCaseSensitive (some response) "error" = error
  cases error with
  | none =>
    cases result <;> simp [UINT32_MAX, and_assoc]
  | some e =>
    have hcode := isNumber_range_iff (cJSON_GetObjectItemCaseSensitive (some e) "code")
      (-9223372036854775808) 9223372036854775808
    have hmsg := isString_iff (cJSON_GetObjectItemCaseSensitive (some e) "message")
    cases result <;> simp [UINT32_MAX, INT64_MAX_double, INT64_MIN_double, ← hcode, ← hmsg]
    all_goals tauto

/-! ## C35: the request validator -/

/-- The request validator rejects a request whose id is an array or an object, and
a request whose `jsonrpc` member is "2.1". -/
theorem server_isvalid_rejects :
    _aos_jrpc_server_isvalid (some (cJSON.object [("jsonrpc", cJSON.string "2.0"),
      ("method", cJSON.string "testHandler0"), ("id", cJSON.array [])])) = false ∧
    _aos_jrpc_server_isvalid (some (cJSON.object [("jsonrpc", cJSON.string "2.0"),
      ("method", cJSON.string "testHandler0"), ("id", cJSON.object [])])) = false ∧
    _aos_jrpc_server_isvalid (some (cJSON.object [("jsonrpc", cJSON.string "2.1"),
      ("method", cJSON.string "testHandler0"), ("id", cJSON.number 5)])) = false ∧
    _aos_jrpc_server_isvalid (some (cJSON.object [("jsonrpc", cJSON.string "2.0"),
      ("method", cJSON.string "testHandler0")])) = true := by
  refine ⟨?_, ?_, ?_, ?_⟩ <;> decide

/-- C35. `_aos_jrpc_server_isvalid` returns true for a value exactly when its
`jsonrpc` member is the string "2.0", its `method` member is a string, and its `id`
member is absent, a number, a string or null. -/
theorem server_isvalid_iff (request : Option cJSON) :
    _aos_jrpc_server_isvalid request = true ↔
      cJSON_GetObjectItemCaseSensitive request "jsonrpc" = some (cJSON.string "2.0") ∧
      (∃ method, cJSON_GetObjectItemCaseSensitive request "method" =
        some (cJSON.string method)) ∧
      (cJSON_GetObjectItemCaseSensitive request "id" = none ∨
        (∃ v, cJSON_GetObjectItemCaseSensitive request "id" = some (cJSON.number v)) ∨
        (∃ v, cJSON_GetObjectItemCaseSensitive request "id" = some (cJSON.string v)) ∨
        cJSON_GetObjectItemCaseSensitive request "id" = some cJSON.null) := by
  unfold _aos_jrpc_server_isvalid
  simp only []
  rw [← isString_eq_iff, ← isString_iff]
  generalize cJSON_GetObjectItemCaseSensitive request "jsonrpc" = jrpc
  generalize cJSON_GetObjectItemCaseSensitive request "method" = method
  generalize cJSON_GetObjectItemCaseSensitive request "id" = id
  cases id with
  | none => simp
  | some v =>
    cases v <;> simp [cJSON_IsNumber, cJSON_IsString, cJSON_IsNull]

/-! ## C36: the request envelope -/

/-- C36. For every id, method and optional params, `aos_jrpc_message_request`
builds an object whose member `jsonrpc` is the string "2.0", whose member `id` is
the id, whose member `method` is the string of the method, whose member `params` is
the params when given and absent otherwise, and whose member names are `jsonrpc`,
`method`, `id` and, when params is given, `params`, in this order. -/
theorem message_request_members (id : cJSON) (method : String) (params : Option cJSON) :
    ∃ members,
      aos_jrpc_message_request (some id) method params = some (cJSON.object members) ∧
      cJSON.lookup "jsonrpc" members = some (cJSON.string "2.0") ∧
      cJSON.lookup "id" members = some id ∧
      cJSON.lookup "method" members = some (cJSON.string method) ∧
      cJSON.lookup "params" members = params ∧
      members.map Prod.fst =
        ["jsonrpc", "method", "id"] ++ (params_member params).map Prod.fst ∧
      (params_member params).map Prod.fst =
        (if params.isSome then ["params"] else []) := by
  cases params with
  | none =>
    exact ⟨_, rfl, by simp [cJSON.lookup, params_member], by simp [cJSON.lookup, params_member],
      by simp [cJSON.lookup, params_member], by simp [cJSON.lookup, params_member],
      by simp [params_member], by simp [params_member]⟩
  | some p =>
    exact ⟨_, rfl, by simp [cJSON.lookup, params_member], by simp [cJSON.lookup, params_member],
      by simp [cJSON.lookup, params_member], by simp [cJSON.lookup, params_member],
      by simp [params_member], by simp [params_member]⟩

/-! ## C37: the int32 parameter getter -/

/-- How `aos_jrpc_server_param_int32_get` ends: 1 with `*param` untouched when the
parameter struct is neither an object nor an array; 0 with `*param` set to the
integral part of the value when the parameter is found and is a number in the int32
range; 2 with `*param` untouched otherwise. -/
theorem param_int32_get_cases (json : Option cJSON) (pos : Nat) (name : String)
    (param : Int) :
    (cJSON_IsObject json = false → cJSON_IsArray json = false →
      aos_jrpc_server_param_int32_get json pos name param = (1, param)) ∧
    (∀ json_param,
      (cJSON_IsObject json = true ∧
          json_param = cJSON_GetObjectItemCaseSensitive json name) ∨
        (cJSON_IsObject json = false ∧ cJSON_IsArray json = true ∧
          json_param = cJSON_GetArrayItem json pos) →
      ((∃ v, json_param = some (cJSON.number v) ∧ -2147483648 ≤ v ∧ v ≤ 2147483647 ∧
          aos_jrpc_server_param_int32_get json pos name param = (0, double_to_int v)) ∨
        ((¬ ∃ v, json_param = some (cJSON.number v) ∧ -2147483648 ≤ v ∧ v ≤ 2147483647) ∧
          aos_jrpc_server_param_int32_get json pos name param = (2, param)))) := by
  constructor
  · intro hobj harr
    simp [aos_jrpc_server_param_int32_get, hobj, harr]
  · intro json_param h
    have hstore : aos_jrpc_server_param_int32_get json pos name param =
        if !cJSON_IsNumber json_param || decide (valuedouble json_param < INT32_MIN) ||
            decide (valuedouble json_param > INT32_MAX) then (2, param)
        else (0, double_to_int (valuedouble json_param)) := by
      rcases h with ⟨hobj, hp⟩ | ⟨hobj, harr, hp⟩
      · simp [aos_jrpc_server_param_int32_get, hobj, hp]
      · simp [aos_jrpc_server_param_int32_get, hobj, harr, hp]
    rw [hstore]
    cases json_param with
    | none => right; simp [cJSON_IsNumber]
    | some x =>
      cases x with
      | number v =>
        by_cases hlo : v < -2147483648
        · right
          refine ⟨?_, by simp [cJSON_IsNumber, valuedouble, INT32_MIN, hlo]⟩
          rintro ⟨w, hw, h1, _⟩
          simp only [Option.some.injEq, cJSON.number.injEq] at hw
          subst hw
          exact absurd hlo (not_lt.2 h1)
        · by_cases hhi : v > 2147483647
          · right
            refine ⟨?_, by simp [cJSON_IsNumber, valuedouble, INT32_MAX, hhi]⟩
            rintro ⟨w, hw, _, h2⟩
            simp only [Option.some.injEq, cJSON.number.injEq] at hw
            subst hw
            exact absurd hhi (not_lt.2 h2)
          · left
            exact ⟨v, rfl, not_lt.1 hlo, not_lt.1 hhi,
              by simp [cJSON_IsNumber, valuedouble, INT32_MIN, INT32_MAX, hlo, hhi]⟩
      | null => right; simp [cJSON_IsNumber]
      | bool b => right; simp [cJSON_IsNumber]
      | string v => right; simp [cJSON_IsNumber]
      | array v => right; simp [cJSON_IsNumber]
      | object v => right; simp [cJSON_IsNumber]

/-- C37 fails.  `aos_jrpc_server_param_int32_get` returns 2, not 1, when the
parameter is of the wrong type (`{"arg1":"x"}`), missing (`[]` at position 0, `{}`),
or out of the int32 range (`{"arg1":2147483648}`); it returns 1 only when the
parameter struct is neither an object nor an array (the number 5).  In all these
cases `*param` keeps its value 7; for `[5]` the call returns 0 and stores 5. -/
theorem param_int32_get_returns_two :
    aos_jrpc_server_param_int32_get
      (some (cJSON.object [("arg1", cJSON.string "x")])) 0 "arg1" 7 = (2, 7) ∧
    aos_jrpc_server_param_int32_get (some (cJSON.array [])) 0 "arg1" 7 = (2, 7) ∧
    aos_jrpc_server_param_int32_get (some (cJSON.object [])) 0 "arg1" 7 = (2, 7) ∧
    aos_jrpc_server_param_int32_get
      (some (cJSON.object [("arg1", cJSON.number 2147483648)])) 0 "arg1" 7 = (2, 7) ∧
    aos_jrpc_server_param_int32_get (some (cJSON.number 5)) 0 "arg1" 7 = (1, 7) ∧
    aos_jrpc_server_param_int32_get (some (cJSON.array [cJSON.number 5])) 0 "arg1" 7 =
      (0, 5) := by
  refine ⟨?_, ?_, ?_, ?_, ?_, ?_⟩ <;> decide

/-! ## C38: the in-flight counter -/

/-- A server whose counter is a `uint32_t` value is its own settled state. -/
theorem settled_eq (server : aos_jrpc_server_t) (h : server.counter < 4294967296) :
    settled server = server := by
  cases server with
  | mk config handlers counter =>
    simp only at h
    simp only [settled, counter_dec, counter_inc, dec_inc_mod, Nat.mod_eq_of_lt h]

/-- The handler-completion callback decrements the counter once, in each of its
branches, and touches nothing else of the server. -/
theorem request_handle_cb_server (env : request_env) (server : aos_jrpc_server_t)
    (ctx : _aos_jrpc_server_request_handle_ctx_t) (out_result : Option cJSON)
    (out_err : Nat) :
    (_aos_jrpc_server_request_handle_cb env server ctx out_result out_err).1 =
      counter_dec server := by
  unfold _aos_jrpc_server_request_handle_cb
  split <;> rfl

/-- A handler is launched only below the limit, the counter being incremented. -/
theorem request_handle_launched (env : request_env) (server s : aos_jrpc_server_t)
    (request : Option cJSON) (handler : Nat) (params : Option cJSON)
    (ctx : _aos_jrpc_server_request_handle_ctx_t)
    (h : _aos_jrpc_server_request_handle env server request =
      request_handle_result.launched s handler params ctx) :
    s = counter_inc server ∧ below_limit server = true := by
  unfold _aos_jrpc_server_request_handle at h
  simp only [] at h
  split at h
  · simp [request_handle_err] at h
  · rename_i hgate
    have hbelow : below_limit server = true := by
      simpa [below_limit, counter_inc] using hgate
    repeat' split at h
    all_goals first
      | (simp [request_handle_err] at h; done)
      | (simp only [request_handle_result.launched.injEq] at h; exact ⟨h.1.symm, hbelow⟩)

/-- The sequential callback chain leaves the server settled. -/
theorem sequential_cb_server (handlers : Nat → handler_fn) (env : server_env)
    (s : aos_jrpc_server_t) :
    ∀ (counter i : Nat) (request : List cJSON) (acc : Option (List cJSON))
      (invoked : List (Nat × Option cJSON)) (sub : call_result),
      sub.server = settled s →
      (_aos_jrpc_server_batch_handle_sequential_cb handlers env counter i request acc
        invoked sub).server = settled s := by
  intro counter
  induction counter with
  | zero =>
    intro i request acc invoked sub hsub
    unfold _aos_jrpc_server_batch_handle_sequential_cb
    split
    · exact hsub
    · split
      · exact hsub
      · exact hsub
  | succ n ih =>
    intro i request acc invoked sub hsub
    unfold _aos_jrpc_server_batch_handle_sequential_cb
    split
    · exact hsub
    · split
      · exact hsub
      · split
        · exact hsub
        · rename_i heq
          cases heq
          split
          · exact hsub
          · apply ih
            rw [request_handle_sync_server, hsub, settled_settled]

/-- Running the single-request path over sub-requests leaves a settled server
settled. -/
theorem single_path_server_settled (handlers : Nat → handler_fn) (env : Nat → request_env) :
    ∀ (items : List cJSON) (i : Nat) (s : aos_jrpc_server_t),
      single_path_server handlers env i (settled s) items = settled s := by
  intro items
  induction items with
  | nil => intro i s; rfl
  | cons x rest ih =>
    intro i s
    rw [single_path_server, request_handle_sync_server, settled_settled]
    exact ih (i + 1) s

/-- The launch loop of the parallel variant leaves the server as the single-request
path over the sub-requests does. -/
theorem parallel_launch_server (handlers : Nat → handler_fn) (env : server_env) :
    ∀ (items : List cJSON) (i : Nat) (s : aos_jrpc_server_t)
      (ctx : _aos_jrpc_server_batch_handle_parallel_ctx_t)
      (invoked : List (Nat × Option cJSON)),
      (parallel_launch handlers env items i s ctx invoked).1 =
        single_path_server handlers env.request i s items := by
  intro items
  induction items with
  | nil => intro i s ctx invoked; rfl
  | cons x rest ih =>
    intro i s ctx invoked
    rw [parallel_launch, single_path_server]
    exact ih _ _ _ _

/-- Whatever the allocator does, a call of `aos_jrpc_server_call_json` whose handlers
complete inside their invocation leaves the server as it was or settled. -/
theorem call_json_server (handlers : Nat → handler_fn) (env : server_env)
    (server : aos_jrpc_server_t) (data : Option cJSON) (res : call_result)
    (h : aos_jrpc_server_call_json handlers env server data = some res) :
    res.server = server ∨ res.server = settled server := by
  unfold aos_jrpc_server_call_json at h
  split at h
  · simp only [Option.some.injEq] at h
    rw [← h]
    exact Or.inr (request_handle_sync_server handlers _ server data)
  · split at h
    · split at h
      · simp only [Option.some.injEq] at h
        rw [← h]
        unfold _aos_jrpc_server_batch_handle_sequential
        split
        · exact Or.inl rfl
        · split
          · exact Or.inl rfl
          · split
            · exact Or.inl rfl
            · exact Or.inr (sequential_cb_server handlers env server _ _ _ _ _ _
                (request_handle_sync_server handlers _ server _))
      · unfold _aos_jrpc_server_batch_handle_parallel at h
        split at h
        · simp only [Option.some.injEq] at h
          rw [← h]
          exact Or.inl rfl
        · split at h
          · simp only [Option.some.injEq] at h
            rw [← h]
            exact Or.inl rfl
          · simp only [] at h
            split at h
            · simp only [Option.some.injEq] at h
              rw [← h]
              simp only [parallel_launch_server]
              cases hitems : children data with
              | nil => exact Or.inl rfl
              | cons x rest =>
                rw [single_path_server, request_handle_sync_server,
                  single_path_server_settled]
                exact Or.inr rfl
            · cases h
    · simp only [Option.some.injEq] at h
      rw [← h]
      exact Or.inl rfl

/-- One event keeps the counter equal to the number of pending handlers. -/
theorem server_step_invariant (s : server_state) (call : ServerCall)
    (hmax : s.server.config.maxrequests ≤ 4294967295)
    (hinv : s.server.counter = s.pending.length)
    (hlen : s.pending.length < 4294967295) :
    (server_step s call).server.counter = (server_step s call).pending.length ∧
    (server_step s call).pending.length < 4294967295 ∧
    (server_step s call).server.config = s.server.config ∧
    (server_step s call).server.handlers = s.server.handlers := by
  have hlt : s.server.counter < 4294967296 := by rw [hinv]; omega
  cases call with
  | request env request =>
    simp only [server_step]
    cases hreq : _aos_jrpc_server_request_handle env s.server request with
    | resolved server out_response out_err =>
      rcases request_handle_cases env s.server request with ⟨r, e, h, _⟩ | ⟨h', p, c, h⟩
      · rw [hreq] at h
        simp only [request_handle_result.resolved.injEq] at h
        simp only [h.1, settled_eq s.server hlt]
        exact ⟨hinv, hlen, trivial, trivial⟩
      · rw [hreq] at h
        cases h
    | launched server handler params ctx =>
      obtain ⟨hs, hbelow⟩ := request_handle_launched env s.server server request handler
        params ctx hreq
      have hsucc : s.server.counter + 1 < 4294967296 := by rw [hinv]; omega
      have hmod : (s.server.counter + 1) % 4294967296 = s.server.counter + 1 :=
        Nat.mod_eq_of_lt hsucc
      have hgate : s.server.counter + 1 < s.server.config.maxrequests := by
        simpa [below_limit, hmod] using hbelow
      simp only [hs, counter_inc, hmod, List.length_append, List.length_singleton]
      refine ⟨by rw [hinv], ?_, trivial, trivial⟩
      rw [← hinv]
      omega
  | complete env k out_result out_err =>
    simp only [server_step]
    cases hk : s.pending[k]? with
    | none => exact ⟨hinv, hlen, rfl, rfl⟩
    | some ctx =>
      have hklt : k < s.pending.length := by
        by_contra hcon
        rw [List.getElem?_eq_none (Nat.not_lt.1 hcon)] at hk
        cases hk
      have hpos : 1 ≤ s.server.counter := by rw [hinv]; omega
      have hsum : s.server.counter + 4294967295 = (s.server.counter - 1) + 4294967296 := by
        omega
      have hmod : (s.server.counter + 4294967295) % 4294967296 = s.server.counter - 1 := by
        rw [hsum, Nat.add_mod_right]
        exact Nat.mod_eq_of_lt (by omega)
      simp only [request_handle_cb_server, counter_dec, hmod, List.length_eraseIdx, hklt,
        if_true]
      refine ⟨by rw [hinv], by omega, trivial, trivial⟩

/-- Every sequence of events keeps the counter equal to the number of pending
handlers. -/
theorem server_run_invariant :
    ∀ (calls : List ServerCall) (s : server_state),
      s.server.config.maxrequests ≤ 4294967295 →
      s.server.counter = s.pending.length →
      s.pending.length < 4294967295 →
      (server_run s calls).server.counter = (server_run s calls).pending.length ∧
      (server_run s calls).server.config = s.server.config ∧
      (server_run s calls).server.handlers = s.server.handlers := by
  intro calls
  induction calls with
  | nil => intro s _ hinv _; exact ⟨hinv, rfl, rfl⟩
  | cons call calls ih =>
    intro s hmax hinv hlen
    obtain ⟨h1, h2, h3, h4⟩ := server_step_invariant s call hmax hinv hlen
    have hrec := ih (server_step s call) (by rw [h3]; exact hmax) h1 h2
    simp only [server_run]
    exact ⟨hrec.1, by rw [hrec.2.1, h3], by rw [hrec.2.2, h4]⟩

/-- C38. From a server with nothing in flight (counter 0, no handler pending) whose
limit fits an unsigned 32-bit value, every sequence of requests and of handler
completions, in any interleaving, leaves the counter equal to the number of handlers
launched and not yet completed.  Every run of `_aos_jrpc_server_request_handle`
increments the counter once and either decrements it once before resolving (each
early exit) or launches a handler, and `_aos_jrpc_server_request_handle_cb`
decrements it once in each of its branches.  Hence, with handlers that complete
inside their invocation, the single-request path and every call of
`aos_jrpc_server_call_json` (single request, sequential or parallel batch, whatever
the allocator does) leave the server, its counter included, as it was. -/
theorem counter_counts_in_flight (s : server_state) (calls : List ServerCall)
    (handlers : Nat → handler_fn) (env : server_env) (server : aos_jrpc_server_t)
    (data : Option cJSON)
    (hmax : s.server.config.maxrequests ≤ 4294967295)
    (hfresh : s.server.counter = 0) (hpending : s.pending = [])
    (hcounter : server.counter < 4294967296) :
    (server_run s calls).server.counter = (server_run s calls).pending.length ∧
    (∀ (renv : request_env) (request : Option cJSON),
      (∃ r e, _aos_jrpc_server_request_handle renv server request =
        request_handle_result.resolved (counter_dec (counter_inc server)) r e) ∨
      (∃ h p c, _aos_jrpc_server_request_handle renv server request =
        request_handle_result.launched (counter_inc server) h p c)) ∧
    (∀ (renv : request_env) (ctx : _aos_jrpc_server_request_handle_ctx_t)
      (out_result : Option cJSON) (out_err : Nat),
      (_aos_jrpc_server_request_handle_cb renv server ctx out_result out_err).1 =
        counter_dec server) ∧
    (∀ (renv : request_env) (request : Option cJSON),
      (request_handle_sync handlers renv server request).server = server) ∧
    (∀ res, aos_jrpc_server_call_json handlers env server data = some res →
      res.server = server) := by
  refine ⟨?_, ?_, ?_, ?_, ?_⟩
  · exact (server_run_invariant calls s hmax (by rw [hfresh, hpending]; rfl)
      (by rw [hpending]; decide)).1
  · intro renv request
    rcases request_handle_cases renv server request with ⟨r, e, h, _⟩ | ⟨h', p, c, h⟩
    · exact Or.inl ⟨r, e, h⟩
    · exact Or.inr ⟨h', p, c, h⟩
  · intro renv ctx out_result out_err
    exact request_handle_cb_server renv server ctx out_result out_err
  · intro renv request
    rw [request_handle_sync_server, settled_eq server hcounter]
  · intro res hres
    rcases call_json_server handlers env server data res hres with h | h
    · exact h
    · rw [h, settled_eq server hcounter]

/-- C38 on the test server: after two requests whose handlers are pending, a
notification whose handler is pending, an invalid request and the completion of the
second handler, the counter and the number of pending handlers are both 2; and the
parallel batch of a request and a notification leaves the server as it was. -/
theorem counter_counts_in_flight_witness :
    (server_run { server := test_server false, pending := [] }
      [ServerCall.request request_env_ok
         (some (cJSON.object [("jsonrpc", cJSON.string "2.0"),
           ("method", cJSON.string "testHandler0"), ("id", cJSON.number 5)])),
       ServerCall.request request_env_ok
         (some (cJSON.object [("jsonrpc", cJSON.string "2.0"),
           ("method", cJSON.string "testHandler0"), ("id", cJSON.number 6)])),
       ServerCall.request request_env_ok
         (some (cJSON.object [("jsonrpc", cJSON.string "2.0"),
           ("method", cJSON.string "testHandler0")])),
       ServerCall.request request_env_ok (some (cJSON.number 1)),
       ServerCall.complete request_env_ok 1 (some (cJSON.number 0)) 0]).server.counter =
      (server_run { server := test_server false, pending := [] }
      [ServerCall.request request_env_ok
         (some (cJSON.object [("jsonrpc", cJSON.string "2.0"),
           ("method", cJSON.string "testHandler0"), ("id", cJSON.number 5)])),
       ServerCall.request request_env_ok
         (some (cJSON.object [("jsonrpc", cJSON.string "2.0"),
           ("method", cJSON.string "testHandler0"), ("id", cJSON.number 6)])),
       ServerCall.request request_env_ok
         (some (cJSON.object [("jsonrpc", cJSON.string "2.0"),
           ("method", cJSON.string "testHandler0")])),
       ServerCall.request request_env_ok (some (cJSON.number 1)),
       ServerCall.complete request_env_ok 1 (some (cJSON.number 0)) 0]).pending.length ∧
    (server_run { server := test_server false, pending := [] }
      [ServerCall.request request_env_ok
         (some (cJSON.object [("jsonrpc", cJSON.string "2.0"),
           ("method", cJSON.string "testHandler0"), ("id", cJSON.number 5)])),
       ServerCall.request request_env_ok
         (some (cJSON.object [("jsonrpc", cJSON.string "2.0"),
           ("method", cJSON.string "testHandler0"), ("id", cJSON.number 6)])),
       ServerCall.request request_env_ok
         (some (cJSON.object [("jsonrpc", cJSON.string "2.0"),
           ("method", cJSON.string "testHandler0")])),
       ServerCall.request request_env_ok (some (cJSON.number 1)),
       ServerCall.complete request_env_ok 1 (some (cJSON.number 0)) 0]).pending.length = 2 ∧
    ∃ res, aos_jrpc_server_call_json (fun _ => test_handler0) server_env_ok
        (test_server true)
        (some (cJSON.array
          [cJSON.object [("jsonrpc", cJSON.string "2.0"),
            ("method", cJSON.string "testHandler0"), ("id", cJSON.number 5)],
           cJSON.object [("jsonrpc", cJSON.string "2.0"),
            ("method", cJSON.string "testHandler0")]])) = some res ∧
      res.server = test_server true :=
  ⟨(counter_counts_in_flight { server := test_server false, pending := [] }
      [ServerCall.request request_env_ok
         (some (cJSON.object [("jsonrpc", cJSON.string "2.0"),
           ("method", cJSON.string "testHandler0"), ("id", cJSON.number 5)])),
       ServerCall.request request_env_ok
         (some (cJSON.object [("jsonrpc", cJSON.string "2.0"),
           ("method", cJSON.string "testHandler0"), ("id", cJSON.number 6)])),
       ServerCall.request request_env_ok
         (some (cJSON.object [("jsonrpc", cJSON.string "2.0"),
           ("method", cJSON.string "testHandler0")])),
       ServerCall.request request_env_ok (some (cJSON.number 1)),
       ServerCall.complete request_env_ok 1 (some (cJSON.number 0)) 0]
      (fun _ => test_handler0) server_env_ok (test_server true)
      (some (cJSON.array
        [cJSON.object [("jsonrpc", cJSON.string "2.0"),
          ("method", cJSON.string "testHandler0"), ("id", cJSON.number 5)],
         cJSON.object [("jsonrpc", cJSON.string "2.0"),
          ("method", cJSON.string "testHandler0")]]))
      (by decide) rfl rfl (by decide)).1,
   rfl,
   _, rfl,
   (counter_counts_in_flight { server := test_server false, pending := [] } []
      (fun _ => test_handler0) server_env_ok (test_server true)
      (some (cJSON.array
        [cJSON.object [("jsonrpc", cJSON.string "2.0"),
          ("method", cJSON.string "testHandler0"), ("id", cJSON.number 5)],
         cJSON.object [("jsonrpc", cJSON.string "2.0"),
          ("method", cJSON.string "testHandler0")]]))
      (by decide) rfl rfl (by decide)).2.2.2.2 _ rfl⟩

/-! ## C39: the parallel batch under any order of arrival -/

/-- The parallel callback decrements the counter of the context. -/
theorem parallel_cb_counter (env : server_env)
    (ctx : _aos_jrpc_server_batch_handle_parallel_ctx_t) (out_response : Option cJSON)
    (out_err : Nat) :
    (_aos_jrpc_server_batch_handle_parallel_cb env ctx out_response out_err).counter =
      ctx.counter - 1 := by
  unfold _aos_jrpc_server_batch_handle_parallel_cb
  simp only []
  repeat' split
  all_goals rfl

/-- While sub-completions are still awaited, the parallel callback does not resolve
the caller's future. -/
theorem parallel_cb_pending (env : server_env)
    (ctx : _aos_jrpc_server_batch_handle_parallel_ctx_t) (out_response : Option cJSON)
    (out_err : Nat) (h : ctx.counter - 1 ≠ 0) :
    (_aos_jrpc_server_batch_handle_parallel_cb env ctx out_response out_err).resolution =
      ctx.resolution := by
  unfold _aos_jrpc_server_batch_handle_parallel_cb
  simp only []
  repeat' split
  all_goals first
    | rfl
    | (rename_i hc; simp_all)

/-- The failed flag is sticky: the parallel callback sets it when the sub-completion
reports an error and never clears it. -/
theorem parallel_cb_fail (env : server_env)
    (ctx : _aos_jrpc_server_batch_handle_parallel_ctx_t) (out_response : Option cJSON)
    (out_err : Nat) (h : out_err ≠ 0 ∨ ctx.fail = true) :
    (_aos_jrpc_server_batch_handle_parallel_cb env ctx out_response out_err).fail = true := by
  have hcond : (decide (out_err ≠ 0) || ctx.fail) = true := by
    rcases h with h | h <;> simp [h]
  unfold _aos_jrpc_server_batch_handle_parallel_cb
  simp only [hcond, if_true]
  repeat' split
  all_goals rfl

/-- When the last sub-completion arrives, the parallel callback resolves the caller's
future; if the failed flag is set by then, it resolves it with the single -32603
envelope and drops the responses collected. -/
theorem parallel_cb_last (env : server_env)
    (ctx : _aos_jrpc_server_batch_handle_parallel_ctx_t) (out_response : Option cJSON)
    (out_err : Nat) (h : ctx.counter - 1 = 0) :
    (_aos_jrpc_server_batch_handle_parallel_cb env ctx out_response
      out_err).resolution.isSome = true ∧
    (out_err ≠ 0 ∨ ctx.fail = true →
      (_aos_jrpc_server_batch_handle_parallel_cb env ctx out_response out_err).resolution =
        some (parallel_failure env) ∧
      (_aos_jrpc_server_batch_handle_parallel_cb env ctx out_response out_err).acc = none) := by
  constructor
  · unfold _aos_jrpc_server_batch_handle_parallel_cb
    simp only []
    repeat' split
    all_goals first
      | rfl
      | simp_all
  · intro hfail
    have hcond : (decide (out_err ≠ 0) || ctx.fail) = true := by
      rcases hfail with h | h <;> simp [h]
    unfold _aos_jrpc_server_batch_handle_parallel_cb
    simp only [hcond, if_true, h, parallel_failure]
    constructor <;> first | rfl | trivial

/-- Before the last sub-completion has arrived, the caller's future is not
resolved. -/
theorem parallel_arrivals_pending (env : server_env) :
    ∀ (arrivals : List (Option cJSON × Nat))
      (ctx : _aos_jrpc_server_batch_handle_parallel_ctx_t),
      ctx.resolution = none → arrivals.length < ctx.counter →
      (parallel_arrivals env ctx arrivals).resolution = none := by
  intro arrivals
  induction arrivals with
  | nil => intro ctx h _; exact h
  | cons a rest ih =>
    intro ctx h hlen
    simp only [List.length_cons] at hlen
    rw [parallel_arrivals]
    apply ih
    · rw [parallel_cb_pending env ctx a.1 a.2 (by omega)]
      exact h
    · rw [parallel_cb_counter]
      omega

/-- Once set, the failed flag stays set through all later arrivals. -/
theorem parallel_arrivals_fail (env : server_env) :
    ∀ (arrivals : List (Option cJSON × Nat))
      (ctx : _aos_jrpc_server_batch_handle_parallel_ctx_t),
      ((∃ a ∈ arrivals, a.2 ≠ 0) ∨ ctx.fail = true) →
      (parallel_arrivals env ctx arrivals).fail = true := by
  intro arrivals
  induction arrivals with
  | nil =>
    intro ctx h
    rcases h with ⟨a, ha, _⟩ | h
    · cases ha
    · exact h
  | cons a rest ih =>
    intro ctx h
    rw [parallel_arrivals]
    apply ih
    rcases h with ⟨b, hb, hne⟩ | h
    · rcases List.mem_cons.1 hb with rfl | hb'
      · exact Or.inr (parallel_cb_fail env ctx b.1 b.2 (Or.inl hne))
      · exact Or.inl ⟨b, hb', hne⟩
    · exact Or.inr (parallel_cb_fail env ctx a.1 a.2 (Or.inr h))

/-- When as many sub-completions arrive as the counter awaits, the caller's future
is resolved at the last of them; if one of them reported an error, or the failed
flag was set before, it is resolved with the single -32603 envelope. -/
theorem parallel_arrivals_last (env : server_env) :
    ∀ (arrivals : List (Option cJSON × Nat))
      (ctx : _aos_jrpc_server_batch_handle_parallel_ctx_t),
      arrivals ≠ [] → arrivals.length = ctx.counter →
      (parallel_arrivals env ctx arrivals).resolution.isSome = true ∧
      (((∃ a ∈ arrivals, a.2 ≠ 0) ∨ ctx.fail = true) →
        (parallel_arrivals env ctx arrivals).resolution = some (parallel_failure env) ∧
        (parallel_arrivals env ctx arrivals).acc = none) := by
  intro arrivals
  induction arrivals with
  | nil => intro ctx hne; exact absurd rfl hne
  | cons a rest ih =>
    intro ctx _ hlen
    simp only [List.length_cons] at hlen
    rw [parallel_arrivals]
    cases rest with
    | nil =>
      simp only [List.length_nil] at hlen
      have hlast := parallel_cb_last env ctx a.1 a.2 (by omega)
      simp only [parallel_arrivals]
      refine ⟨hlast.1, ?_⟩
      intro h
      apply hlast.2
      rcases h with ⟨b, hb, hne⟩ | h
      · rw [List.mem_singleton] at hb
        subst hb
        exact Or.inl hne
      · exact Or.inr h
    | cons b rest' =>
      have hrec := ih (_aos_jrpc_server_batch_handle_parallel_cb env ctx a.1 a.2)
        (by simp) (by rw [parallel_cb_counter]; omega)
      refine ⟨hrec.1, ?_⟩
      intro h
      apply hrec.2
      rcases h with ⟨c, hc, hne⟩ | h
      · rcases List.mem_cons.1 hc with rfl | hc'
        · exact Or.inr (parallel_cb_fail env ctx c.1 c.2 (Or.inl hne))
        · exact Or.inl ⟨c, hc', hne⟩
      · exact Or.inr (parallel_cb_fail env ctx a.1 a.2 (Or.inr h))

/-- C39. Let the sub-completions of a parallel batch of n >= 1 sub-requests arrive
in any order, each with any response and error.  After any k < n arrivals the outer
completion is not fulfilled; after the n-th it is.  If one of the sub-completions
reported an error, the failed flag is set from that arrival on, and the outer
completion is fulfilled with the single -32603 envelope of the allocator, which is
`jsonrpc: "2.0"`, `id: null`, `error: {code: -32603, message: "Internal error"}`
with `out_err = 0` when it is allocated, the responses collected being dropped; the
same holds for every permutation of the arrivals. -/
theorem parallel_fulfilled_at_last_arrival (env : server_env)
    (arrivals : List (Option cJSON × Nat)) (k : Nat) (harrivals : arrivals ≠ []) :
    (k < arrivals.length →
      (parallel_arrivals env (parallel_ctx arrivals.length)
        (arrivals.take k)).resolution = none) ∧
    (parallel_arrivals env (parallel_ctx arrivals.length) arrivals).resolution.isSome =
      true ∧
    ((∃ a ∈ arrivals.take k, a.2 ≠ 0) →
      (parallel_arrivals env (parallel_ctx arrivals.length) (arrivals.take k)).fail = true ∧
      (parallel_arrivals env (parallel_ctx arrivals.length) arrivals).fail = true) ∧
    ((∃ a ∈ arrivals, a.2 ≠ 0) →
      (parallel_arrivals env (parallel_ctx arrivals.length) arrivals).resolution =
        some (parallel_failure env) ∧
      (parallel_arrivals env (parallel_ctx arrivals.length) arrivals).acc = none ∧
      (env.error_ok = true →
        (parallel_arrivals env (parallel_ctx arrivals.length) arrivals).resolution =
          some (some (cJSON.object
            [("jsonrpc", cJSON.string "2.0"), ("id", cJSON.null),
             ("error", cJSON.object
               [("code", cJSON.number (-32603)),
                ("message", cJSON.string "Internal error")])]), 0)) ∧
      (∀ arrivals', List.Perm arrivals' arrivals →
        (parallel_arrivals env (parallel_ctx arrivals'.length) arrivals').resolution =
          some (parallel_failure env))) := by
  refine ⟨?_, ?_, ?_, ?_⟩
  · intro hk
    apply parallel_arrivals_pending env _ _ rfl
    simp only [parallel_ctx, List.length_take]
    omega
  · exact (parallel_arrivals_last env arrivals (parallel_ctx arrivals.length) harrivals rfl).1
  · rintro ⟨a, ha, hne⟩
    exact ⟨parallel_arrivals_fail env _ _ (Or.inl ⟨a, ha, hne⟩),
      parallel_arrivals_fail env _ _ (Or.inl ⟨a, List.mem_of_mem_take ha, hne⟩)⟩
  · intro herr
    have hlast := (parallel_arrivals_last env arrivals (parallel_ctx arrivals.length)
      harrivals rfl).2 (Or.inl herr)
    refine ⟨hlast.1, hlast.2, ?_, ?_⟩
    · intro hok
      rw [hlast.1]
      simp [parallel_failure, alloc, hok, aos_jrpc_message_error]
    · intro arrivals' hperm
      obtain ⟨a, ha, hne⟩ := herr
      have hne' : arrivals' ≠ [] := by
        intro hnil
        rw [hnil] at hperm
        exact harrivals (List.Perm.eq_nil (List.Perm.symm hperm))
      exact ((parallel_arrivals_last env arrivals' (parallel_ctx arrivals'.length) hne'
        rfl).2 (Or.inl ⟨a, (List.Perm.mem_iff hperm).2 ha, hne⟩)).1

/-- C39 on three sub-completions, the second of which reports an error: after one
and after two arrivals the outer completion is not fulfilled, after the third it is
fulfilled with the -32603 envelope, and the response that arrived first is dropped. -/
theorem parallel_fulfilled_at_last_arrival_witness :
    (parallel_arrivals server_env_ok (parallel_ctx 3)
      [(some (cJSON.number 1), 0), (none, 1)]).resolution = none ∧
    (parallel_arrivals server_env_ok (parallel_ctx 3)
      [(some (cJSON.number 1), 0), (none, 1)]).fail = true ∧
    (parallel_arrivals server_env_ok (parallel_ctx 3)
      [(some (cJSON.number 1), 0), (none, 1), (some (cJSON.number 3), 0)]).resolution =
      some (some (cJSON.object
        [("jsonrpc", cJSON.string "2.0"), ("id", cJSON.null),
         ("error", cJSON.object
           [("code", cJSON.number (-32603)),
            ("message", cJSON.string "Internal error")])]), 0) :=
  ⟨(parallel_fulfilled_at_last_arrival server_env_ok
      [(some (cJSON.number 1), 0), (none, 1), (some (cJSON.number 3), 0)] 2
      (by simp)).1 (by decide),
   ((parallel_fulfilled_at_last_arrival server_env_ok
      [(some (cJSON.number 1), 0), (none, 1), (some (cJSON.number 3), 0)] 2
      (by simp)).2.2.1 ⟨(none, 1), by simp, by decide⟩).1,
   ((parallel_fulfilled_at_last_arrival server_env_ok
      [(some (cJSON.number 1), 0), (none, 1), (some (cJSON.number 3), 0)] 2
      (by simp)).2.2.2 ⟨(none, 1), by simp, by decide⟩).2.2.1 rfl⟩

/-! ## C40: the parallel and the sequential batch path agree -/

/-- The sequential callback chain in full: with `l` the responses collected before
the sub-request at position `i` resolved as `sub`, the batch resolves without error
with the responses, the server and the invoked handlers of the single-request path
run over the items left, in order. -/
theorem sequential_cb_result (handlers : Nat → handler_fn) (env : server_env)
    (hfuture : ∀ i, env.future_ok i = true) (harray : env.array_ok = true)
    (herror : ∀ i, (env.request i).error_ok = true) :
    ∀ (request : List cJSON) (i : Nat) (l : List cJSON)
      (invoked : List (Nat × Option cJSON)) (sub : call_result),
      sub.out_err = 0 →
      _aos_jrpc_server_batch_handle_sequential_cb handlers env request.length i request
          (batch_acc l) invoked sub =
        { server := single_path_server handlers env.request (i + 1) sub.server request,
          out_response := batch_response (l ++ sub.out_response.toList ++
            single_path_responses handlers env.request (i + 1) sub.server request),
          out_err := 0,
          invoked := invoked ++ sub.invoked ++
            single_path_invoked handlers env.request (i + 1) sub.server request } := by
  intro request
  induction request with
  | nil =>
    intro i l invoked sub herr
    unfold _aos_jrpc_server_batch_handle_sequential_cb
    simp [herr, harray, batch_append_acc, batch_acc_response, single_path_responses,
      single_path_server, single_path_invoked]
  | cons x rest ih =>
    intro i l invoked sub herr
    have hrec := ih (i + 1) (l ++ sub.out_response.toList) (invoked ++ sub.invoked)
      (request_handle_sync handlers (env.request (i + 1)) sub.server (some x))
      (request_handle_sync_out_err handlers (env.request (i + 1)) sub.server (some x)
        (herror (i + 1)))
    unfold _aos_jrpc_server_batch_handle_sequential_cb
    simp only [herr, harray, batch_append_acc, hfuture, List.length_cons, List.head?_cons,
      List.tail_cons]
    simpa [single_path_responses, single_path_server, single_path_invoked,
      List.append_assoc] using hrec

/-- The launch loop of the parallel variant invokes the handlers that the
single-request path invokes over the sub-requests, in order. -/
theorem parallel_launch_invoked (handlers : Nat → handler_fn) (env : server_env) :
    ∀ (items : List cJSON) (i : Nat) (s : aos_jrpc_server_t)
      (ctx : _aos_jrpc_server_batch_handle_parallel_ctx_t)
      (invoked : List (Nat × Option cJSON)),
      (parallel_launch handlers env items i s ctx invoked).2.2 =
        invoked ++ single_path_invoked handlers env.request i s items := by
  intro items
  induction items with
  | nil => intro i s ctx invoked; simp [parallel_launch, single_path_invoked]
  | cons x rest ih =>
    intro i s ctx invoked
    rw [parallel_launch, single_path_invoked, ih, List.append_assoc]

/-- C40. For every server state, every batch (empty or not) and handlers that
complete inside their invocation, the contexts, the futures, the response array and
the error envelopes of the sub-requests being allocated, the parallel batch path
resolves the caller's future, and it does so exactly as the sequential batch path:
same `out_response` (same elements in the same order, or both absent), same
`out_err`, same server afterwards, same handlers invoked in the same order. -/
theorem parallel_eq_sequential (handlers : Nat → handler_fn) (env : server_env)
    (server : aos_jrpc_server_t) (request : Option cJSON)
    (hctx : env.ctx_ok = true) (hfutures : env.futures_ok = true)
    (hfuture : ∀ i, env.future_ok i = true) (harray : env.array_ok = true)
    (herror : ∀ i, (env.request i).error_ok = true) :
    _aos_jrpc_server_batch_handle_parallel handlers env server request =
      some (_aos_jrpc_server_batch_handle_sequential handlers env server request) := by
  cases hitems : children request with
  | nil =>
    simp [_aos_jrpc_server_batch_handle_parallel, _aos_jrpc_server_batch_handle_sequential,
      cJSON_GetArraySize, hitems]
  | cons item rest =>
    have hseq := sequential_cb_result handlers env hfuture harray herror rest 0 [] []
      (request_handle_sync handlers (env.request 0) server (some item))
      (request_handle_sync_out_err handlers (env.request 0) server (some item) (herror 0))
    have hpar := parallel_launch_responses handlers env harray herror (item :: rest) 0 server
      { counter := (item :: rest).length, fail := false, acc := none, resolution := none }
      [] [] (by simp) rfl rfl rfl
    have hany : (List.range (rest.length + 1)).any (fun i => !env.future_ok i) = false := by
      simp [hfuture]
    simp only [List.length_cons, List.nil_append] at hpar
    simp only [_aos_jrpc_server_batch_handle_parallel,
      _aos_jrpc_server_batch_handle_sequential, cJSON_GetArraySize, hitems,
      List.length_cons, hctx, hfutures, hany, hfuture, hpar, parallel_launch_server,
      parallel_launch_invoked]
    simpa [batch_acc, single_path_responses, single_path_server, single_path_invoked]
      using hseq.symm

/-- C40 on the test server, for the batch made of a request of id 5 to
`testHandler0`, the number 1, a notification to `testHandler0` and a request to an
unbound method: both paths resolve with the array of the result for id 5, of the
-32600 envelope and of the -32601 envelope, and leave the server as it was. -/
theorem parallel_eq_sequential_witness :
    _aos_jrpc_server_batch_handle_parallel (fun _ => test_handler0) server_env_ok
        (test_server true)
        (some (cJSON.array
          [cJSON.object [("jsonrpc", cJSON.string "2.0"),
            ("method", cJSON.string "testHandler0"), ("id", cJSON.number 5)],
           cJSON.number 1,
           cJSON.object [("jsonrpc", cJSON.string "2.0"),
            ("method", cJSON.string "testHandler0")],
           cJSON.object [("jsonrpc", cJSON.string "2.0"),
            ("method", cJSON.string "unavailable"), ("id", cJSON.string "a")]])) =
      some (_aos_jrpc_server_batch_handle_sequential (fun _ => test_handler0) server_env_ok
        (test_server true)
        (some (cJSON.array
          [cJSON.object [("jsonrpc", cJSON.string "2.0"),
            ("method", cJSON.string "testHandler0"), ("id", cJSON.number 5)],
           cJSON.number 1,
           cJSON.object [("jsonrpc", cJSON.string "2.0"),
            ("method", cJSON.string "testHandler0")],
           cJSON.object [("jsonrpc", cJSON.string "2.0"),
            ("method", cJSON.string "unavailable"), ("id", cJSON.string "a")]]))) ∧
    _aos_jrpc_server_batch_handle_sequential (fun _ => test_handler0) server_env_ok
        (test_server true)
        (some (cJSON.array
          [cJSON.object [("jsonrpc", cJSON.string "2.0"),
            ("method", cJSON.string "testHandler0"), ("id", cJSON.number 5)],
           cJSON.number 1,
           cJSON.object [("jsonrpc", cJSON.string "2.0"),
            ("method", cJSON.string "testHandler0")],
           cJSON.object [("jsonrpc", cJSON.string "2.0"),
            ("method", cJSON.string "unavailable"), ("id", cJSON.string "a")]])) =
      { server := test_server true,
        out_response := some (cJSON.array
          [cJSON.object [("jsonrpc", cJSON.string "2.0"), ("id", cJSON.number 5),
            ("result", cJSON.number 0)],
           cJSON.object [("jsonrpc", cJSON.string "2.0"), ("id", cJSON.null),
            ("error", cJSON.object
              [("code", cJSON.number (-32600)),
               ("message", cJSON.string "Invalid Request")])],
           cJSON.object [("jsonrpc", cJSON.string "2.0"), ("id", cJSON.string "a"),
            ("error", cJSON.object
              [("code", cJSON.number (-32601)),
               ("message", cJSON.string "Method not found")])]]),
        out_err := 0,
        invoked := [(0, none), (0, none)] } :=
  ⟨parallel_eq_sequential (fun _ => test_handler0) server_env_ok (test_server true)
    (some (cJSON.array
      [cJSON.object [("jsonrpc", cJSON.string "2.0"),
        ("method", cJSON.string "testHandler0"), ("id", cJSON.number 5)],
       cJSON.number 1,
       cJSON.object [("jsonrpc", cJSON.string "2.0"),
        ("method", cJSON.string "testHandler0")],
       cJSON.object [("jsonrpc", cJSON.string "2.0"),
        ("method", cJSON.string "unavailable"), ("id", cJSON.string "a")]]))
    rfl rfl (fun _ => rfl) rfl (fun _ => rfl), rfl⟩

/-- When the batch context cannot be allocated the two paths differ: the sequential
one resolves with no response and `out_err = 1`, the parallel one with the -32603
envelope and `out_err = 0`. -/
theorem parallel_sequential_without_ctx :
    (_aos_jrpc_server_batch_handle_sequential (fun _ => test_handler0)
        { server_env_ok with ctx_ok := false } (test_server true)
        (some (cJSON.array [cJSON.number 1]))).out_response = none ∧
    (_aos_jrpc_server_batch_handle_sequential (fun _ => test_handler0)
        { server_env_ok with ctx_ok := false } (test_server true)
        (some (cJSON.array [cJSON.number 1]))).out_err = 1 ∧
    _aos_jrpc_server_batch_handle_parallel (fun _ => test_handler0)
        { server_env_ok with ctx_ok := false } (test_server true)
        (some (cJSON.array [cJSON.number 1])) =
      some { server := test_server true,
             out_response := some (cJSON.object
               [("jsonrpc", cJSON.string "2.0"), ("id", cJSON.null),
                ("error", cJSON.object
                  [("code", cJSON.number (-32603)),
                   ("message", cJSON.string "Internal error")])]),
             out_err := 0, invoked := [] } := by
  refine ⟨?_, ?_, ?_⟩ <;> rfl

end AosJrpc
